import Mathlib

/-!
# ReWare backend: swap lifecycle, points ledger and item ownership

A shallow embedding of the Express/Mongoose backend under `reware/backend`.

* A MongoDB collection is a `List` of documents; `findById` returns the first
  document whose `_id` matches and `findByIdAndUpdate` / `save` rewrite that
  first document (`updateFirst`).
* A route handler is a function `State → Request → Response × State`.  The
  `try { ... } catch { res.status(500) }` wrapper of every handler is modelled by
  returning status 500 together with the writes already performed.
* `req.user` is the user document that `authenticateToken` attached to the
  request; `now` is the value of `new Date()` while the request is served.
* JavaScript `Number`s that only ever hold integers are `Int`.  Every `ecoImpact` is a
  fixed-point number counted in tenths of a kilogram of CO2: the source's `2.5` is `25` and
  its `5` is `50`.
-/

namespace ReWare

abbrev ObjectId := Nat

/-! ## express-validator helpers -/

/-- Characters removed by the `trim()` sanitizer (the JavaScript `\s` class, U+FEFF, U+00A0). -/
def isJsSpace (c : Char) : Bool :=
  let n := c.toNat
  n = 0x20 || (0x09 ≤ n && n ≤ 0x0D) || n = 0xA0 || n = 0x1680 ||
  (0x2000 ≤ n && n ≤ 0x200A) || n = 0x2028 || n = 0x2029 || n = 0x202F ||
  n = 0x205F || n = 0x3000 || n = 0xFEFF

/-- The `trim()` sanitizer: strips white space at both ends. -/
def jsTrim (s : String) : String :=
  String.mk ((s.toList.dropWhile isJsSpace).reverse.dropWhile isJsSpace).reverse

/-- Validator chain `optional().trim().isLength({ max })`: an absent field passes. -/
def optionalMaxLength (v : Option String) (max : Nat) : Bool :=
  match v with
  | none => true
  | some s => decide ((jsTrim s).length ≤ max)

/-- Validator chain `optional().trim().isLength({ min, max })`. -/
def optionalLengthBetween (v : Option String) (min max : Nat) : Bool :=
  match v with
  | none => true
  | some s => decide (min ≤ (jsTrim s).length) && decide ((jsTrim s).length ≤ max)

/-- Validator chain `optional().isIn(values)`. -/
def optionalIsIn (v : Option String) (values : List String) : Bool :=
  match v with
  | none => true
  | some s => values.contains s

/-- Validator chain `optional().isInt({ min, max })` on an integer-valued field. -/
def optionalIntBetween (v : Option Int) (min max : Int) : Bool :=
  match v with
  | none => true
  | some n => decide (min ≤ n) && decide (n ≤ max)

/-- Validator chain `optional().isInt({ min })` on an integer-valued field. -/
def optionalIntMin (v : Option Int) (min : Int) : Bool :=
  match v with
  | none => true
  | some n => decide (min ≤ n)

/-- The value a handler reads from `req.body` after `optional().trim()` ran. -/
def sanitized (v : Option String) : Option String := v.map jsTrim

/-! ## Collections -/

/-- Rewrites the first element satisfying `p` (one document per `findOneAndUpdate`). -/
def updateFirst {α : Type} (p : α → Bool) (f : α → α) : List α → List α
  | [] => []
  | x :: xs => if p x then f x :: xs else x :: updateFirst p f xs

/-- Removes the first element satisfying `p` (`findByIdAndDelete`). -/
def deleteFirst {α : Type} (p : α → Bool) : List α → List α
  | [] => []
  | x :: xs => if p x then xs else x :: deleteFirst p xs

/-! ## Documents -/

inductive Role where
  | user | admin
  deriving DecidableEq, Repr

structure UserStats where
  totalSwaps : Int := 0
  itemsListed : Int := 0
  itemsReceived : Int := 0
  ecoImpact : Int := 0
  deriving DecidableEq

structure NotificationPreferences where
  email : Bool := true
  push : Bool := true
  swapRequests : Bool := true
  newItems : Bool := true
  deriving DecidableEq, Repr

structure Preferences where
  notifications : NotificationPreferences := {}
  categories : List String := []
  sizes : List String := []
  deriving DecidableEq, Repr

/-- The `location` sub-document; its `coordinates`, a pair of floating-point numbers, are not
followed. -/
structure Location where
  city : Option String := none
  country : Option String := none
  deriving DecidableEq, Repr

structure User where
  id : ObjectId
  firebaseUid : String := ""
  name : String := ""
  email : String := ""
  avatar : Option String := none
  points : Int := 10
  role : Role := Role.user
  isVerified : Bool := false
  badges : List String := []
  stats : UserStats := {}
  preferences : Preferences := {}
  location : Location := {}
  lastActive : Nat := 0
  updatedAt : Nat := 0
  deriving DecidableEq

inductive ItemStatus where
  | Available | Pending | Swapped | Removed
  deriving DecidableEq, Repr

structure Image where
  url : String
  publicId : String
  isPrimary : Bool := false
  deriving DecidableEq, Repr

structure Item where
  id : ObjectId
  title : String := ""
  description : String := ""
  images : List Image := []
  category : String := "Tops"
  size : String := "M"
  condition : String := "Good"
  brand : Option String := none
  color : Option String := none
  material : Option String := none
  tags : List String := []
  ownerId : ObjectId
  pointsRequired : Int := 1
  status : ItemStatus := ItemStatus.Available
  isApproved : Bool := false
  views : Int := 0
  likes : List ObjectId := []
  swapType : String := "Both"
  approvedBy : Option ObjectId := none
  approvedAt : Option Nat := none
  updatedAt : Nat := 0
  deriving DecidableEq

inductive SwapType where
  | DirectSwap | PointsRedemption
  deriving DecidableEq, Repr

inductive SwapStatus where
  | Pending | Accepted | Rejected | Completed | Cancelled
  deriving DecidableEq, Repr

structure ChatMessage where
  senderId : ObjectId
  message : String
  timestamp : Nat
  isRead : Bool := false
  deriving DecidableEq, Repr

structure Swap where
  id : ObjectId
  initiatorId : ObjectId
  recipientId : ObjectId
  requestedItemId : ObjectId
  offeredItemId : Option ObjectId := none
  pointsOffered : Option Int := none
  swapType : SwapType
  status : SwapStatus := SwapStatus.Pending
  message : Option String := none
  responseMessage : Option String := none
  completedAt : Option Nat := none
  cancelledAt : Option Nat := none
  cancelledBy : Option ObjectId := none
  cancellationReason : Option String := none
  ecoImpact : Int := 0
  chatMessages : List ChatMessage := []
  createdAt : Nat := 0
  updatedAt : Nat := 0
  deriving DecidableEq

inductive NotificationType where
  | swap_request | swap_accepted | swap_rejected | swap_completed
  | item_approved | item_rejected | new_message | points_earned
  | badge_earned | system_announcement
  deriving DecidableEq, Repr

inductive Priority where
  | low | medium | high
  deriving DecidableEq, Repr

structure NotificationData where
  swapId : Option ObjectId := none
  itemId : Option ObjectId := none
  senderId : Option ObjectId := none
  points : Option Int := none
  badge : Option String := none
  deriving DecidableEq, Repr

structure Notification where
  id : ObjectId
  userId : ObjectId
  type : NotificationType
  title : String
  message : String
  data : NotificationData := {}
  isRead : Bool := false
  priority : Priority := Priority.medium
  deriving DecidableEq

/-- The database: four collections and the source of fresh `_id`s. -/
structure State where
  users : List User := []
  items : List Item := []
  swaps : List Swap := []
  notifications : List Notification := []
  nextId : ObjectId := 0
  deriving DecidableEq

/-- What a handler sends back: the HTTP status and the `error` key of the JSON body. -/
structure Response where
  status : Nat
  error : Option String := none
  deriving DecidableEq, Repr

/-! ## Model layer -/

def State.findUser (st : State) (i : ObjectId) : Option User :=
  st.users.find? (fun u => u.id == i)

def State.findItem (st : State) (i : ObjectId) : Option Item :=
  st.items.find? (fun it => it.id == i)

def State.findSwap (st : State) (i : ObjectId) : Option Swap :=
  st.swaps.find? (fun s => s.id == i)

/-- The call `User.findByIdAndUpdate(id, update)`; `timestamps: true` stamps `updatedAt`. -/
def User.findByIdAndUpdate (st : State) (now : Nat) (i : ObjectId) (f : User → User) : State :=
  { st with users := updateFirst (fun u => u.id == i) (fun u => { f u with updatedAt := now }) st.users }

/-- The call `Item.findByIdAndUpdate(id, update)`; `timestamps: true` stamps `updatedAt`. -/
def Item.findByIdAndUpdate (st : State) (now : Nat) (i : ObjectId) (f : Item → Item) : State :=
  { st with items := updateFirst (fun it => it.id == i) (fun it => { f it with updatedAt := now }) st.items }

/-- The hook `swapSchema.pre('save')`: a completed swap without eco impact gets 5 kg
(`50` tenths). -/
def Swap.preSave (s : Swap) : Swap :=
  if s.status = SwapStatus.Completed ∧ s.ecoImpact = 0 then { s with ecoImpact := 50 } else s

/-- The call `this.save()` on a swap document: runs the hook, stamps `updatedAt`, writes the
document back under its `_id`, and yields the saved document. -/
def Swap.save (st : State) (now : Nat) (s : Swap) : Swap × State :=
  let saved := { s.preSave with updatedAt := now }
  (saved, { st with swaps := updateFirst (fun d => d.id == saved.id) (fun _ => saved) st.swaps })

/-- The method `swapSchema.methods.acceptSwap(responseMessage = '')`. -/
def Swap.acceptSwap (st : State) (now : Nat) (s : Swap) (responseMessage : Option String) :
    Swap × State :=
  Swap.save st now
    { s with status := SwapStatus.Accepted, responseMessage := some (responseMessage.getD "") }

/-- The method `swapSchema.methods.rejectSwap(responseMessage = '')`. -/
def Swap.rejectSwap (st : State) (now : Nat) (s : Swap) (responseMessage : Option String) :
    Swap × State :=
  Swap.save st now
    { s with status := SwapStatus.Rejected, responseMessage := some (responseMessage.getD "") }

/-- The method `swapSchema.methods.completeSwap()`. -/
def Swap.completeSwap (st : State) (now : Nat) (s : Swap) : Swap × State :=
  Swap.save st now { s with status := SwapStatus.Completed, completedAt := some now }

/-- The method `swapSchema.methods.cancelSwap(userId, reason = '')`. -/
def Swap.cancelSwap (st : State) (now : Nat) (s : Swap) (userId : ObjectId)
    (reason : Option String) : Swap × State :=
  Swap.save st now
    { s with
      status := SwapStatus.Cancelled
      cancelledAt := some now
      cancelledBy := some userId
      cancellationReason := some (reason.getD "") }

/-- The method `swapSchema.methods.addMessage(senderId, message)`. -/
def Swap.addMessage (st : State) (now : Nat) (s : Swap) (senderId : ObjectId)
    (message : String) : Swap × State :=
  Swap.save st now
    { s with chatMessages := s.chatMessages ++ [{ senderId := senderId, message := message, timestamp := now }] }

/-- The hook `notificationSchema.pre('save')` on a document with `isNew` given. -/
def Notification.preSave (isNew : Bool) (n : Notification) : Notification :=
  if isNew then
    match n.type with
    | NotificationType.swap_request | NotificationType.swap_accepted =>
      { n with priority := Priority.high }
    | NotificationType.item_approved | NotificationType.item_rejected
    | NotificationType.new_message =>
      { n with priority := Priority.medium }
    | _ => { n with priority := Priority.low }
  else n

/-- The static `Notification.createNotification(userId, type, title, message, data)`: the new
document takes the next `_id` and goes through the save hook as a new document. -/
def Notification.createNotification (st : State) (userId : ObjectId) (type : NotificationType)
    (title message : String) (data : NotificationData) : State :=
  let n : Notification := Notification.preSave true
    { id := st.nextId, userId := userId, type := type, title := title, message := message,
      data := data }
  { st with notifications := st.notifications ++ [n], nextId := st.nextId + 1 }

/-- The static `createSwapRequestNotification(recipientId, swapId, senderId, itemTitle)`. -/
def Notification.createSwapRequestNotification (st : State) (recipientId swapId senderId : ObjectId)
    (itemTitle : String) : State :=
  Notification.createNotification st recipientId NotificationType.swap_request
    "New Swap Request" ("Someone wants to swap with your \"" ++ itemTitle ++ "\"")
    { swapId := some swapId, senderId := some senderId, itemId := some swapId }

/-- The static `createSwapAcceptedNotification(initiatorId, swapId, itemTitle)`. -/
def Notification.createSwapAcceptedNotification (st : State) (initiatorId swapId : ObjectId)
    (itemTitle : String) : State :=
  Notification.createNotification st initiatorId NotificationType.swap_accepted
    "Swap Accepted!" ("Your swap request for \"" ++ itemTitle ++ "\" was accepted!")
    { swapId := some swapId }

/-- The static `createSwapRejectedNotification(initiatorId, swapId, itemTitle)`. -/
def Notification.createSwapRejectedNotification (st : State) (initiatorId swapId : ObjectId)
    (itemTitle : String) : State :=
  Notification.createNotification st initiatorId NotificationType.swap_rejected
    "Swap Rejected" ("Your swap request for \"" ++ itemTitle ++ "\" was rejected.")
    { swapId := some swapId }

/-- The static `createMessageNotification(recipientId, senderId, swapId, message)`. -/
def Notification.createMessageNotification (st : State) (recipientId senderId swapId : ObjectId)
    (_message : String) : State :=
  Notification.createNotification st recipientId NotificationType.new_message
    "New Message" "You have a new message in your swap conversation."
    { senderId := some senderId, swapId := some swapId }

/-! ## `routes/swaps.js` -/

/-- Body and context of `POST /api/swaps`. -/
structure CreateSwapRequest where
  user : User
  requestedItemId : ObjectId
  offeredItemId : Option ObjectId := none
  pointsOffered : Option Int := none
  swapType : SwapType
  message : Option String := none
  now : Nat := 0

/-- Body and context of `PUT /api/swaps/:id/accept` and `PUT /api/swaps/:id/reject`. -/
structure RespondRequest where
  user : User
  id : ObjectId
  responseMessage : Option String := none
  now : Nat := 0

/-- Context of `PUT /api/swaps/:id/complete`. -/
structure CompleteRequest where
  user : User
  id : ObjectId
  now : Nat := 0

/-- Body and context of `PUT /api/swaps/:id/cancel`. -/
structure CancelRequest where
  user : User
  id : ObjectId
  reason : Option String := none
  now : Nat := 0

/-- Body and context of `POST /api/swaps/:id/message`. -/
structure MessageRequest where
  user : User
  id : ObjectId
  message : Option String := none
  now : Nat := 0

/-- The document `Swap.create(swapData)` stores for a create request. -/
def newSwap (st : State) (req : CreateSwapRequest) (recipientId : ObjectId) : Swap :=
  Swap.preSave
    { id := st.nextId
      initiatorId := req.user.id
      recipientId := recipientId
      requestedItemId := req.requestedItemId
      offeredItemId := if req.swapType = SwapType.DirectSwap then req.offeredItemId else none
      pointsOffered := if req.swapType = SwapType.DirectSwap then none else req.pointsOffered
      swapType := req.swapType
      message := sanitized req.message
      createdAt := req.now
      updatedAt := req.now }

/-- Handler of `POST /api/swaps`: create a swap request. -/
def createSwap (st : State) (req : CreateSwapRequest) : Response × State :=
  if !(optionalIntMin req.pointsOffered 0 && optionalMaxLength req.message 500) then
    ({ status := 400, error := some "Validation failed" }, st)
  else
  match st.findItem req.requestedItemId with
  | none => ({ status := 404, error := some "Requested item not found" }, st)
  | some requestedItem =>
  if requestedItem.status ≠ ItemStatus.Available ∨ requestedItem.isApproved = false then
    ({ status := 400, error := some "Item not available" }, st)
  else if requestedItem.ownerId = req.user.id then
    ({ status := 400, error := some "Cannot swap own item" }, st)
  else
  let refusal : Option Response :=
    match req.swapType with
    | SwapType.DirectSwap =>
      match req.offeredItemId with
      | none => some { status := 400, error := some "Offered item required" }
      | some offeredItemId =>
        match st.findItem offeredItemId with
        | none => some { status := 404, error := some "Offered item not found" }
        | some offeredItem =>
          if offeredItem.ownerId ≠ req.user.id then
            some { status := 403, error := some "Not your item" }
          else if offeredItem.status ≠ ItemStatus.Available ∨ offeredItem.isApproved = false then
            some { status := 400, error := some "Offered item not available" }
          else none
    | SwapType.PointsRedemption =>
      match req.pointsOffered with
      | none => some { status := 400, error := some "Points required" }
      | some pointsOffered =>
        if pointsOffered ≤ 0 then
          some { status := 400, error := some "Points required" }
        else if req.user.points < pointsOffered then
          some { status := 400, error := some "Insufficient points" }
        else if pointsOffered < requestedItem.pointsRequired then
          some { status := 400, error := some "Insufficient points offered" }
        else none
  match refusal with
  | some r => (r, st)
  | none =>
  let existingSwap := st.swaps.find? (fun s =>
    s.initiatorId == req.user.id && s.requestedItemId == req.requestedItemId
      && s.status == SwapStatus.Pending)
  if existingSwap.isSome then
    ({ status := 400, error := some "Swap already exists" }, st)
  else
  let swap := newSwap st req requestedItem.ownerId
  let st1 := { st with swaps := st.swaps ++ [swap], nextId := st.nextId + 1 }
  let st2 := Notification.createSwapRequestNotification st1 requestedItem.ownerId swap.id
    req.user.id requestedItem.title
  ({ status := 201 }, st2)

/-- The update document `{ status: 'Swapped' }`. -/
def markSwapped (it : Item) : Item := { it with status := ItemStatus.Swapped }

/-- The block "Update item statuses" of the accept handler: the requested item and, when the
swap carries a populated offered item, that item become `Swapped`. -/
def updateItemStatuses (st : State) (now : Nat) (requestedItem : Item)
    (offeredItem : Option Item) : State :=
  let st2 := Item.findByIdAndUpdate st now requestedItem.id markSwapped
  match offeredItem with
  | some offeredItem => Item.findByIdAndUpdate st2 now offeredItem.id markSwapped
  | none => st2

/-- The update document `{ $inc: { points: amount } }`. -/
def incPoints (amount : Int) (u : User) : User := { u with points := u.points + amount }

/-- The block "Handle points transfer" of the accept handler: for a points redemption the
initiator is debited and the recipient credited `pointsOffered`; `none` when the `$inc` amount
is not a number (the swap has no `pointsOffered`) and the update throws. -/
def transferPoints (st : State) (now : Nat) (swap : Swap) : Option State :=
  match swap.swapType with
  | SwapType.PointsRedemption =>
    match swap.pointsOffered with
    | none => none
    | some pointsOffered =>
      let s := User.findByIdAndUpdate st now swap.initiatorId (incPoints (-pointsOffered))
      some (User.findByIdAndUpdate s now swap.recipientId (incPoints pointsOffered))
  | SwapType.DirectSwap => some st

/-- The increment `{ 'stats.totalSwaps': 1, 'stats.ecoImpact': 2.5 }`. -/
def creditSwap (u : User) : User :=
  { u with stats := { u.stats with totalSwaps := u.stats.totalSwaps + 1,
                                   ecoImpact := u.stats.ecoImpact + 25 } }

/-- The block "Update user stats" of the accept handler. -/
def updateUserStats (st : State) (now : Nat) (swap : Swap) : State :=
  User.findByIdAndUpdate (User.findByIdAndUpdate st now swap.initiatorId creditSwap)
    now swap.recipientId creditSwap

/-- Handler of `PUT /api/swaps/:id/accept`: accept a swap request. -/
def acceptSwapRoute (st : State) (req : RespondRequest) : Response × State :=
  if !optionalMaxLength req.responseMessage 500 then
    ({ status := 400, error := some "Validation failed" }, st)
  else
  match st.findSwap req.id with
  | none => ({ status := 404, error := some "Swap not found" }, st)
  | some swap =>
  if swap.recipientId ≠ req.user.id then
    ({ status := 403, error := some "Access denied" }, st)
  else if swap.status ≠ SwapStatus.Pending then
    ({ status := 400, error := some "Swap not pending" }, st)
  else
  -- the documents `populate` attached when the swap was loaded
  let requestedItem := st.findItem swap.requestedItemId
  let offeredItem := swap.offeredItemId.bind st.findItem
  let saved := Swap.acceptSwap st req.now swap (sanitized req.responseMessage)
  match requestedItem with
  | none => ({ status := 500, error := some "Failed to accept swap" }, saved.2)
  | some requestedItem =>
  let st3 := updateItemStatuses saved.2 req.now requestedItem offeredItem
  match transferPoints st3 req.now saved.1 with
  | none => ({ status := 500, error := some "Failed to accept swap" }, st3)
  | some st4 =>
  let st5 := updateUserStats st4 req.now saved.1
  let st6 := Notification.createSwapAcceptedNotification st5 saved.1.initiatorId saved.1.id
    requestedItem.title
  ({ status := 200 }, st6)

/-- Handler of `PUT /api/swaps/:id/reject`: reject a swap request. -/
def rejectSwapRoute (st : State) (req : RespondRequest) : Response × State :=
  if !optionalMaxLength req.responseMessage 500 then
    ({ status := 400, error := some "Validation failed" }, st)
  else
  match st.findSwap req.id with
  | none => ({ status := 404, error := some "Swap not found" }, st)
  | some swap =>
  if swap.recipientId ≠ req.user.id then
    ({ status := 403, error := some "Access denied" }, st)
  else if swap.status ≠ SwapStatus.Pending then
    ({ status := 400, error := some "Swap not pending" }, st)
  else
  let requestedItem := st.findItem swap.requestedItemId
  let saved := Swap.rejectSwap st req.now swap (sanitized req.responseMessage)
  let swap := saved.1
  let st1 := saved.2
  match requestedItem with
  | none => ({ status := 500, error := some "Failed to reject swap" }, st1)
  | some requestedItem =>
  let st2 := Notification.createSwapRejectedNotification st1 swap.initiatorId swap.id
    requestedItem.title
  ({ status := 200 }, st2)

/-- Handler of `PUT /api/swaps/:id/complete`: complete a swap. -/
def completeSwapRoute (st : State) (req : CompleteRequest) : Response × State :=
  match st.findSwap req.id with
  | none => ({ status := 404, error := some "Swap not found" }, st)
  | some swap =>
  if swap.initiatorId ≠ req.user.id ∧ swap.recipientId ≠ req.user.id then
    ({ status := 403, error := some "Access denied" }, st)
  else if swap.status ≠ SwapStatus.Accepted then
    ({ status := 400, error := some "Swap not accepted" }, st)
  else
  let saved := Swap.completeSwap st req.now swap
  ({ status := 200 }, saved.2)

/-- Handler of `PUT /api/swaps/:id/cancel`: cancel a swap. -/
def cancelSwapRoute (st : State) (req : CancelRequest) : Response × State :=
  if !optionalMaxLength req.reason 200 then
    ({ status := 400, error := some "Validation failed" }, st)
  else
  match st.findSwap req.id with
  | none => ({ status := 404, error := some "Swap not found" }, st)
  | some swap =>
  if swap.initiatorId ≠ req.user.id ∧ swap.recipientId ≠ req.user.id then
    ({ status := 403, error := some "Access denied" }, st)
  else if swap.status = SwapStatus.Completed ∨ swap.status = SwapStatus.Cancelled then
    ({ status := 400, error := some "Swap cannot be cancelled" }, st)
  else
  let saved := Swap.cancelSwap st req.now swap req.user.id (sanitized req.reason)
  ({ status := 200 }, saved.2)

/-- Validator chain `trim().isLength({ min: 1, max: 1000 })` of the chat message; an absent
field is validated as the empty string. -/
def validChatMessage (v : Option String) : Bool :=
  let s := jsTrim (v.getD "")
  decide (1 ≤ s.length) && decide (s.length ≤ 1000)

/-- Handler of `POST /api/swaps/:id/message`: add a message to the swap chat. -/
def messageRoute (st : State) (req : MessageRequest) : Response × State :=
  if !validChatMessage req.message then
    ({ status := 400, error := some "Validation failed" }, st)
  else
  match st.findSwap req.id with
  | none => ({ status := 404, error := some "Swap not found" }, st)
  | some swap =>
  if swap.initiatorId ≠ req.user.id ∧ swap.recipientId ≠ req.user.id then
    ({ status := 403, error := some "Access denied" }, st)
  else
  let message := jsTrim (req.message.getD "")
  let saved := Swap.addMessage st req.now swap req.user.id message
  let swap := saved.1
  let st1 := saved.2
  let recipientId := if swap.initiatorId = req.user.id then swap.recipientId else swap.initiatorId
  let st2 := Notification.createMessageNotification st1 recipientId req.user.id swap.id message
  ({ status := 200 }, st2)

/-! ## `models/Item.js` and `config/cloudinary.js` -/

/-- The hook `itemSchema.pre('save')`: when no image is primary the first one becomes primary. -/
def Item.preSave (item : Item) : Item :=
  if item.images.length > 0 ∧ ¬ item.images.any (fun img => img.isPrimary) then
    match item.images with
    | [] => item
    | img :: rest => { item with images := { img with isPrimary := true } :: rest }
  else item

/-- The virtual `primaryImage`: url of the first primary image, else of the first image. -/
def Item.primaryImage (item : Item) : Option String :=
  match item.images.find? (fun img => img.isPrimary) with
  | some primary => some primary.url
  | none => item.images.head?.map (fun img => img.url)

/-- What the media host answers for one uploaded file (`secure_url`, `public_id`). -/
structure UploadResult where
  url : String
  publicId : String
  deriving DecidableEq, Repr

/-- The function `uploadMultipleImages(files, folder)` on the media host's answers: the image
at index 0 is primary. -/
def uploadMultipleImages (results : List UploadResult) : List Image :=
  results.enum.map (fun (index, result) =>
    { url := result.url, publicId := result.publicId, isPrimary := index == 0 })

/-- Number of images flagged primary. -/
def countPrimary (images : List Image) : Nat :=
  images.countP (fun img => img.isPrimary)

/-! ## `routes/items.js` -/

/-- The `status` enum of the item schema, as checked by `runValidators`. -/
def ItemStatus.ofString : String → Option ItemStatus
  | "Available" => some ItemStatus.Available
  | "Pending" => some ItemStatus.Pending
  | "Swapped" => some ItemStatus.Swapped
  | "Removed" => some ItemStatus.Removed
  | _ => none

/-- Body and context of `PUT /api/items/:id`.  The body lists the schema paths followed here;
`status`, `isApproved` and `ownerId` carry no route validator. -/
structure UpdateItemRequest where
  user : User
  id : ObjectId
  title : Option String := none
  description : Option String := none
  category : Option String := none
  size : Option String := none
  condition : Option String := none
  pointsRequired : Option Int := none
  brand : Option String := none
  color : Option String := none
  material : Option String := none
  tags : Option (List String) := none
  swapType : Option String := none
  status : Option String := none
  isApproved : Option Bool := none
  ownerId : Option ObjectId := none
  now : Nat := 0

/-- Context of `DELETE /api/items/:id`; `imageHostFails` is the outcome of the call to the
external media host made by `deleteMultipleImages`. -/
structure DeleteItemRequest where
  user : User
  id : ObjectId
  imageHostFails : Bool := false
  now : Nat := 0

/-- The route validators of `PUT /api/items/:id`; `tags` is typed as a list, so its `isArray()`
check always passes. -/
def validUpdateItem (req : UpdateItemRequest) : Bool :=
  optionalLengthBetween req.title 3 100
  && optionalLengthBetween req.description 10 1000
  && optionalIsIn req.category
      ["Tops", "Bottoms", "Dresses", "Outerwear", "Shoes", "Accessories", "Sportswear"]
  && optionalIsIn req.size ["XS", "S", "M", "L", "XL", "XXL", "One Size"]
  && optionalIsIn req.condition ["New", "Like New", "Good", "Fair", "Poor"]
  && optionalIntBetween req.pointsRequired 1 100
  && optionalMaxLength req.brand 50
  && optionalMaxLength req.color 30
  && optionalMaxLength req.material 100
  && optionalIsIn req.swapType ["Direct Swap", "Points Redemption", "Both"]

/-- The update document applied to an item: every path the body carries is set. -/
def applyUpdate (req : UpdateItemRequest) (tags : Option (List String))
    (status : Option ItemStatus) (isApproved : Option Bool) (item : Item) : Item :=
  { item with
    title := (sanitized req.title).getD item.title
    description := (sanitized req.description).getD item.description
    category := req.category.getD item.category
    size := req.size.getD item.size
    condition := req.condition.getD item.condition
    pointsRequired := req.pointsRequired.getD item.pointsRequired
    brand := (sanitized req.brand).orElse (fun _ => item.brand)
    color := (sanitized req.color).orElse (fun _ => item.color)
    material := (sanitized req.material).orElse (fun _ => item.material)
    tags := tags.getD item.tags
    swapType := req.swapType.getD item.swapType
    status := status.getD item.status
    isApproved := isApproved.getD item.isApproved
    ownerId := req.ownerId.getD item.ownerId }

/-- Handler of `PUT /api/items/:id`: update an item (owner only).  `jsonParse` stands for
`JSON.parse(req.body.tags)` followed by the schema cast of the result, `none` when it throws. -/
def updateItem (jsonParse : List String → Option (List String)) (st : State)
    (req : UpdateItemRequest) : Response × State :=
  if !validUpdateItem req then
    ({ status := 400, error := some "Validation failed" }, st)
  else
  match st.findItem req.id with
  | none => ({ status := 404, error := some "Item not found" }, st)
  | some item =>
  if item.ownerId ≠ req.user.id then
    ({ status := 403, error := some "Access denied" }, st)
  else if item.status = ItemStatus.Swapped then
    ({ status := 400, error := some "Cannot update swapped item" }, st)
  else
  let parsed : Option (Option (List String)) :=
    match req.tags with
    | none => some none
    | some tags => (jsonParse tags).map some
  match parsed with
  | none => ({ status := 500, error := some "Failed to update item" }, st)
  | some tags =>
  let statusText := if item.isApproved then some "Pending" else req.status
  let isApproved := if item.isApproved then some false else req.isApproved
  let cast : Option (Option ItemStatus) :=
    match statusText with
    | none => some none
    | some text => (ItemStatus.ofString text).map some
  match cast with
  | none => ({ status := 500, error := some "Failed to update item" }, st)
  | some status =>
  ({ status := 200 },
    Item.findByIdAndUpdate st req.now req.id (applyUpdate req tags status isApproved))

/-- Handler of `DELETE /api/items/:id`: delete an item (owner only). -/
def deleteItem (st : State) (req : DeleteItemRequest) : Response × State :=
  match st.findItem req.id with
  | none => ({ status := 404, error := some "Item not found" }, st)
  | some item =>
  if item.ownerId ≠ req.user.id then
    ({ status := 403, error := some "Access denied" }, st)
  else if item.status = ItemStatus.Swapped then
    ({ status := 400, error := some "Cannot delete swapped item" }, st)
  else if item.images.length > 0 ∧ req.imageHostFails = true then
    ({ status := 500, error := some "Failed to delete item" }, st)
  else
  let st1 := { st with items := deleteFirst (fun it => it.id == req.id) st.items }
  let st2 := User.findByIdAndUpdate st1 req.now req.user.id
    (fun u => { u with stats := { u.stats with itemsListed := u.stats.itemsListed + -1 } })
  ({ status := 200 }, st2)

/-! ## Swap operations as one step function -/

/-- The five state-changing requests on an existing swap. -/
inductive SwapOp where
  | accept (req : RespondRequest)
  | reject (req : RespondRequest)
  | complete (req : CompleteRequest)
  | cancel (req : CancelRequest)
  | message (req : MessageRequest)

/-- Runs the handler that serves the request. -/
def SwapOp.run (st : State) : SwapOp → Response × State
  | SwapOp.accept req => acceptSwapRoute st req
  | SwapOp.reject req => rejectSwapRoute st req
  | SwapOp.complete req => completeSwapRoute st req
  | SwapOp.cancel req => cancelSwapRoute st req
  | SwapOp.message req => messageRoute st req

/-- Whether the operation is a chat post. -/
def SwapOp.isMessage : SwapOp → Bool
  | SwapOp.message _ => true
  | _ => false

/-- Status of the stored swap with the given `_id`. -/
def statusOf (st : State) (i : ObjectId) : Option SwapStatus :=
  (st.findSwap i).map (fun s => s.status)

/-- Status of the stored item with the given `_id`. -/
def itemStatusOf (st : State) (i : ObjectId) : Option ItemStatus :=
  (st.findItem i).map (fun it => it.status)

/-- Points balance of the stored user with the given `_id`. -/
def pointsOf (st : State) (i : ObjectId) : Option Int :=
  (st.findUser i).map (fun u => u.points)

/-- Sum of the points of all stored users. -/
def totalPoints (st : State) : Int :=
  (st.users.map (fun u => u.points)).sum

/-- The status changes the swap handlers perform. -/
def handlerTransitions : List (SwapStatus × SwapStatus) :=
  [ (SwapStatus.Pending, SwapStatus.Accepted),
    (SwapStatus.Pending, SwapStatus.Rejected),
    (SwapStatus.Pending, SwapStatus.Cancelled),
    (SwapStatus.Accepted, SwapStatus.Completed),
    (SwapStatus.Accepted, SwapStatus.Cancelled),
    (SwapStatus.Rejected, SwapStatus.Cancelled) ]

/-- The five status changes of the specification's lifecycle. -/
def claimedTransitions : List (SwapStatus × SwapStatus) :=
  [ (SwapStatus.Pending, SwapStatus.Accepted),
    (SwapStatus.Pending, SwapStatus.Rejected),
    (SwapStatus.Pending, SwapStatus.Cancelled),
    (SwapStatus.Accepted, SwapStatus.Completed),
    (SwapStatus.Accepted, SwapStatus.Cancelled) ]

/-! ## A small store used for concrete runs -/

def alice : User := { id := 1, name := "Alice", points := 10 }

def bob : User := { id := 2, name := "Bob", points := 10 }

def carol : User := { id := 3, name := "Carol", points := 10 }

/-- Bob's approved coat, 5 points. -/
def coat : Item :=
  { id := 10, title := "Coat", ownerId := 2, pointsRequired := 5,
    status := ItemStatus.Available, isApproved := true }

/-- Alice's approved scarf, 3 points. -/
def scarf : Item :=
  { id := 11, title := "Scarf", ownerId := 1, pointsRequired := 3,
    status := ItemStatus.Available, isApproved := true }

/-- Alice asks for Bob's coat for 5 points; pending. -/
def pendingRedemption : Swap :=
  { id := 100, initiatorId := 1, recipientId := 2, requestedItemId := 10,
    pointsOffered := some 5, swapType := SwapType.PointsRedemption }

/-- Alice offers her scarf for Bob's coat; pending. -/
def pendingDirect : Swap :=
  { id := 101, initiatorId := 1, recipientId := 2, requestedItemId := 10,
    offeredItemId := some 11, swapType := SwapType.DirectSwap }

/-- A swap Bob has rejected. -/
def rejectedSwap : Swap :=
  { id := 102, initiatorId := 1, recipientId := 2, requestedItemId := 10,
    offeredItemId := some 11, swapType := SwapType.DirectSwap,
    status := SwapStatus.Rejected, responseMessage := some "no" }

/-- A completed swap. -/
def completedSwap : Swap :=
  { id := 103, initiatorId := 1, recipientId := 2, requestedItemId := 10,
    offeredItemId := some 11, swapType := SwapType.DirectSwap,
    status := SwapStatus.Completed, completedAt := some 7, ecoImpact := 50 }

def exampleStore : State :=
  { users := [alice, bob, carol]
    items := [coat, scarf]
    swaps := [pendingRedemption, pendingDirect, rejectedSwap, completedSwap]
    nextId := 1000 }

/-- A response message of 501 characters, one more than the accept and reject routes allow. -/
def longText : String := String.mk (List.replicate 501 'x')

/-- The example store before any swap was requested. -/
def emptySwapsStore : State := { exampleStore with swaps := [] }

/-- Alice offers 4 points for Bob's coat, which costs 5. -/
def aliceOffers4 : CreateSwapRequest :=
  { user := alice, requestedItemId := 10, swapType := SwapType.PointsRedemption,
    pointsOffered := some 4 }

/-- Alice offers 5 points for Bob's coat. -/
def aliceOffers5 : CreateSwapRequest :=
  { user := alice, requestedItemId := 10, swapType := SwapType.PointsRedemption,
    pointsOffered := some 5 }

/-- Bob asks for his own coat. -/
def bobAsksOwnCoat : CreateSwapRequest :=
  { user := bob, requestedItemId := 10, swapType := SwapType.PointsRedemption,
    pointsOffered := some 5 }

/-- Alice offers her scarf for Bob's coat. -/
def aliceOffersScarf : CreateSwapRequest :=
  { user := alice, requestedItemId := 10, swapType := SwapType.DirectSwap,
    offeredItemId := some 11 }

/-- Carol, who does not own the coat, sends an update whose title is too short. -/
def carolShortTitle : UpdateItemRequest := { user := carol, id := 10, title := some "ab" }

/-- Carol, who does not own the coat, sends a well-formed update. -/
def carolRetitles : UpdateItemRequest := { user := carol, id := 10, title := some "My coat" }

/-- Carol asks to delete Bob's coat. -/
def carolDeletes : DeleteItemRequest := { user := carol, id := 10 }

/-- A `JSON.parse` that throws on every input. -/
def parseFails : List String → Option (List String) := fun _ => none

/-- An item saved without images. -/
def bareItem : Item := { id := 20, ownerId := 1 }

/-- An item whose two images are both flagged primary. -/
def twoPrimaries : Item :=
  { id := 21, ownerId := 1
    images := [{ url := "a", publicId := "a", isPrimary := true },
               { url := "b", publicId := "b", isPrimary := true }] }

/-- An item with two images, none flagged primary. -/
def noPrimary : Item :=
  { id := 22, ownerId := 1
    images := [{ url := "a", publicId := "a" }, { url := "b", publicId := "b" }] }

/-! ## `POST /api/items` -/

/-- A file as the multipart middleware hands it to the handler. -/
structure UploadedFile where
  mimetype : String
  size : Nat
  deriving DecidableEq, Repr

/-- The function `validateImage(file)`; `Except.error` carries the message of the thrown
`Error`. -/
def validateImage (file : UploadedFile) : Except String Bool :=
  let allowedTypes := ["image/jpeg", "image/jpg", "image/png", "image/webp"]
  let maxSize := 10 * 1024 * 1024
  if !allowedTypes.contains file.mimetype then
    Except.error "Invalid file type. Only JPEG, PNG, and WebP images are allowed."
  else if file.size > maxSize then
    Except.error "File too large. Maximum size is 10MB."
  else Except.ok true

/-- Whether `validateImage(file)` throws. -/
def validateImageThrows (file : UploadedFile) : Bool :=
  match validateImage file with
  | Except.error _ => true
  | Except.ok _ => false

/-- The `Promise.all` of `uploadMultipleImages`: every file is sent to the media host, whose
answer for one file is `host file` (`none` when the upload fails). -/
def uploadAll (host : UploadedFile → Option UploadResult) (files : List UploadedFile) :
    Option (List UploadResult) :=
  files.mapM host

/-- Body and context of `POST /api/items`.  The body lists the schema paths followed here;
none of them is checked by a route validator. -/
structure CreateItemRequest where
  user : User
  files : List UploadedFile := []
  title : Option String := none
  description : Option String := none
  category : Option String := none
  size : Option String := none
  condition : Option String := none
  brand : Option String := none
  color : Option String := none
  material : Option String := none
  tags : Option String := none
  swapType : Option String := none
  pointsRequired : Option Int := none
  status : Option String := none
  isApproved : Option Bool := none
  ownerId : Option ObjectId := none
  views : Option Int := none
  now : Nat := 0

/-- The validators of the item schema that run when a document is created. -/
def Item.validate (item : Item) : Bool :=
  item.title != "" && decide (item.title.length ≤ 100)
  && item.description != "" && decide (item.description.length ≤ 1000)
  && ["Tops", "Bottoms", "Dresses", "Outerwear", "Shoes", "Accessories", "Sportswear"].contains
      item.category
  && ["XS", "S", "M", "L", "XL", "XXL", "One Size"].contains item.size
  && ["New", "Like New", "Good", "Fair", "Poor"].contains item.condition
  && decide ((item.brand.getD "").length ≤ 50)
  && decide ((item.color.getD "").length ≤ 30)
  && decide ((item.material.getD "").length ≤ 100)
  && item.tags.all (fun tag => decide (tag.length ≤ 20))
  && decide (1 ≤ item.pointsRequired) && decide (item.pointsRequired ≤ 100)
  && ["Direct Swap", "Points Redemption", "Both"].contains item.swapType
  && item.images.all (fun img => img.url != "" && img.publicId != "")

/-- The object `itemData` of the create handler, cast to the item schema (string paths are
trimmed); `none` when the required `pointsRequired` is missing. -/
def itemData (st : State) (req : CreateItemRequest) (uploadedImages : List Image)
    (tags : List String) : Option Item :=
  match req.pointsRequired with
  | none => none
  | some pointsRequired =>
    some
      { id := st.nextId
        title := jsTrim (req.title.getD "")
        description := jsTrim (req.description.getD "")
        category := req.category.getD ""
        size := req.size.getD ""
        condition := req.condition.getD ""
        brand := sanitized req.brand
        color := sanitized req.color
        material := sanitized req.material
        views := req.views.getD 0
        pointsRequired := pointsRequired
        ownerId := req.user.id
        images := uploadedImages
        tags := tags.map jsTrim
        swapType := if (req.swapType.getD "") = "" then "Both" else req.swapType.getD ""
        status := ItemStatus.Pending
        isApproved := false
        updatedAt := req.now }

/-- The call `Item.create(itemData)`: schema validation, then the save hook; `none` when the
document is refused. -/
def Item.create (st : State) (req : CreateItemRequest) (uploadedImages : List Image)
    (tags : List String) : Option Item :=
  match itemData st req uploadedImages tags with
  | none => none
  | some item => if item.validate then some item.preSave else none

/-- The update document `{ $inc: { 'stats.itemsListed': amount } }`. -/
def incItemsListed (amount : Int) (u : User) : User :=
  { u with stats := { u.stats with itemsListed := u.stats.itemsListed + amount } }

/-- Handler of `POST /api/items`: create an item.  `host` is the external media host and
`jsonParse` stands for `JSON.parse(req.body.tags)` followed by the schema cast of the result,
`none` when it throws. -/
def createItem (host : UploadedFile → Option UploadResult)
    (jsonParse : String → Option (List String)) (st : State) (req : CreateItemRequest) :
    Response × State :=
  if req.files.length = 0 then
    ({ status := 400, error := some "Images required" }, st)
  else if req.files.any validateImageThrows then
    ({ status := 400, error := some "Invalid image" }, st)
  else
  match uploadAll host req.files with
  | none => ({ status := 500, error := some "Failed to create item" }, st)
  | some results =>
  let uploadedImages := uploadMultipleImages results
  let parsed : Option (List String) :=
    if (req.tags.getD "") = "" then some [] else jsonParse (req.tags.getD "")
  match parsed with
  | none => ({ status := 500, error := some "Failed to create item" }, st)
  | some tags =>
  match Item.create st req uploadedImages tags with
  | none => ({ status := 500, error := some "Failed to create item" }, st)
  | some item =>
  let st1 := { st with items := st.items ++ [item], nextId := st.nextId + 1 }
  let st2 := User.findByIdAndUpdate st1 req.now req.user.id (incItemsListed 1)
  ({ status := 201 }, st2)

/-! ## `middleware/auth.js` and `RewearExchange/server/middleware/auth.ts` -/

/-- What a middleware does with a request: hand it on with `next()` or answer it. -/
inductive MiddlewareResult where
  | next
  | respond (res : Response)
  deriving DecidableEq, Repr

/-- The middleware `requireAdmin` of `middleware/auth.js`; `user` is `req.user`. -/
def requireAdmin (user : Option User) : MiddlewareResult :=
  match user with
  | none => MiddlewareResult.respond { status := 401, error := some "Authentication required" }
  | some u =>
    if u.role ≠ Role.admin then
      MiddlewareResult.respond { status := 403, error := some "Admin access required" }
    else MiddlewareResult.next

/-- The `req.user` of the token-based implementation. -/
structure AuthenticatedUser where
  id : Nat
  email : String
  isAdmin : Bool
  deriving DecidableEq, Repr

/-- The middleware `requireAdmin` of `RewearExchange/server/middleware/auth.ts`; an absent
`req.user` makes `req.user?.isAdmin` undefined, hence falsy. -/
def RewearExchange.requireAdmin (user : Option AuthenticatedUser) : MiddlewareResult :=
  if !((user.map (fun u => u.isAdmin)).getD false) then
    MiddlewareResult.respond { status := 403, error := some "Admin access required" }
  else MiddlewareResult.next

/-- A media host that stores every file under the same address. -/
def exampleHost : UploadedFile → Option UploadResult :=
  fun _ => some { url := "https://img/1", publicId := "rewear/items/1" }

/-- A `JSON.parse` of the tags form field that throws on every input. -/
def parseTextFails : String → Option (List String) := fun _ => none

/-- Carol lists a hat and sends `status`, `isApproved` and `ownerId` along. -/
def carolListsHat : CreateItemRequest :=
  { user := carol, files := [{ mimetype := "image/png", size := 2048 }],
    title := some "Straw hat", description := some "A hat for sunny days",
    category := some "Accessories", size := some "M", condition := some "Good",
    pointsRequired := some 6, status := some "Available", isApproved := some true,
    ownerId := some 2 }

/-- Carol's hat after an admin rejected it: not approved, status Removed. -/
def rejectedHat : Item :=
  { id := 12, title := "Straw hat", ownerId := 3, pointsRequired := 6,
    status := ItemStatus.Removed, isApproved := false }

/-- The example store with Carol's rejected hat. -/
def moderationStore : State := { exampleStore with items := [coat, scarf, rejectedHat] }

/-- Carol renames her rejected hat. -/
def carolRenamesHat : UpdateItemRequest := { user := carol, id := 12, title := some "Sun hat" }

/-- Bob renames his approved coat and sends `status` and `isApproved` along. -/
def bobRenamesCoat : UpdateItemRequest :=
  { user := bob, id := 10, title := some "Winter coat", status := some "Available",
    isApproved := some true }

/-- The swap `_id` the operation addresses (`req.params.id`). -/
def SwapOp.id : SwapOp → ObjectId
  | SwapOp.accept req => req.id
  | SwapOp.reject req => req.id
  | SwapOp.complete req => req.id
  | SwapOp.cancel req => req.id
  | SwapOp.message req => req.id

/-- Whether the body passes the validators of the route that serves the operation; the
complete route has none. -/
def SwapOp.validBody : SwapOp → Bool
  | SwapOp.accept req => optionalMaxLength req.responseMessage 500
  | SwapOp.reject req => optionalMaxLength req.responseMessage 500
  | SwapOp.complete _ => true
  | SwapOp.cancel req => optionalMaxLength req.reason 200
  | SwapOp.message req => validChatMessage req.message

/-- Alice, the initiator, tries to accept her own request with an over-long message. -/
def aliceAcceptsLong : RespondRequest := { user := alice, id := 101, responseMessage := some longText }

/-- Alice, the initiator, tries to accept her own request. -/
def aliceAccepts : RespondRequest := { user := alice, id := 101 }

/-- Bob accepts a swap that does not exist, with an over-long message. -/
def bobAcceptsMissingLong : RespondRequest := { user := bob, id := 999, responseMessage := some longText }

/-- Bob cancels a swap that does not exist. -/
def bobCancelsMissing : CancelRequest := { user := bob, id := 999 }

/-- Alice, an ordinary user of the token-based implementation. -/
def tokenAlice : AuthenticatedUser := { id := 1, email := "alice@example.org", isAdmin := false }

/-! ## Profile updates: `PUT /api/users/profile` and `PUT /api/auth/profile` -/

/-- A JSON value of a request body. -/
inductive JVal where
  | null
  | bool (b : Bool)
  | num (n : Int)
  | str (s : String)
  | arr (items : List JVal)
  | obj (fields : List (String × JVal))

/-- Casting and update validation of the user schema, path by path (library code): `none`
when the value is refused and the update throws. -/
structure SchemaCasts where
  name : JVal → Option String
  email : JVal → Option String
  firebaseUid : JVal → Option String
  avatar : JVal → Option (Option String)
  points : JVal → Option Int
  role : JVal → Option Role
  badges : JVal → Option (List String)
  stats : JVal → Option UserStats
  preferences : JVal → Option Preferences
  location : JVal → Option Location

/-- Body and context of a profile update; the body is a JSON object, a list of keys with their
values. -/
structure ProfileRequest where
  user : User
  body : List (String × JVal) := []
  now : Nat := 0

/-- The array `allowedFields` of both profile handlers. -/
def allowedFields : List String := ["name", "avatar", "preferences", "location"]

/-- The loop that fills `updateData`: an allowed field is copied when `req.body[field]` is not
undefined. -/
def buildUpdateData (body : List (String × JVal)) : List (String × JVal) :=
  allowedFields.filterMap (fun field => (body.lookup field).map (fun value => (field, value)))

/-- What setting one path of an update document does to a user document; a path outside the
schema is dropped. -/
def User.castPath (casts : SchemaCasts) (path : String) (value : JVal) : Option (User → User) :=
  if path = "name" then (casts.name value).map (fun x u => { u with name := x })
  else if path = "email" then (casts.email value).map (fun x u => { u with email := x })
  else if path = "firebaseUid" then
    (casts.firebaseUid value).map (fun x u => { u with firebaseUid := x })
  else if path = "avatar" then (casts.avatar value).map (fun x u => { u with avatar := x })
  else if path = "points" then (casts.points value).map (fun x u => { u with points := x })
  else if path = "role" then (casts.role value).map (fun x u => { u with role := x })
  else if path = "badges" then (casts.badges value).map (fun x u => { u with badges := x })
  else if path = "stats" then (casts.stats value).map (fun x u => { u with stats := x })
  else if path = "preferences" then
    (casts.preferences value).map (fun x u => { u with preferences := x })
  else if path = "location" then (casts.location value).map (fun x u => { u with location := x })
  else some (fun u => u)

/-- The update a whole update document performs, `none` when one of its values is refused. -/
def User.castUpdate (casts : SchemaCasts) : List (String × JVal) → Option (User → User)
  | [] => some (fun u => u)
  | (path, value) :: rest =>
    match User.castPath casts path value, User.castUpdate casts rest with
    | some f, some g => some (fun u => g (f u))
    | _, _ => none

/-- Handler of `PUT /api/users/profile` and of `PUT /api/auth/profile`, which differ in their
validator chains only; `validate` is the chain of the route (`isURL` and the checks of nested
fields are library code). -/
def putProfile (validate : List (String × JVal) → Bool) (casts : SchemaCasts) (st : State)
    (req : ProfileRequest) : Response × State :=
  if !validate req.body then
    ({ status := 400, error := some "Validation failed" }, st)
  else
  let updateData := buildUpdateData req.body
  match User.castUpdate casts updateData with
  | none => ({ status := 500, error := some "Failed to update profile" }, st)
  | some update =>
  match st.findUser req.user.id with
  | none => ({ status := 404, error := some "User not found" }, st)
  | some _ => ({ status := 200 }, User.findByIdAndUpdate st req.now req.user.id update)

/-- Simple casts used for concrete runs: strings stay strings, integers stay integers, the role
names are recognised, everything else is refused. -/
def exampleCasts : SchemaCasts :=
  { name := fun v => match v with | JVal.str s => some s | _ => none
    email := fun v => match v with | JVal.str s => some s | _ => none
    firebaseUid := fun v => match v with | JVal.str s => some s | _ => none
    avatar := fun v => match v with | JVal.str s => some (some s) | JVal.null => some none | _ => none
    points := fun v => match v with | JVal.num n => some n | _ => none
    role := fun v =>
      match v with
      | JVal.str s => if s = "admin" then some Role.admin else if s = "user" then some Role.user else none
      | _ => none
    badges := fun _ => none
    stats := fun _ => none
    preferences := fun _ => none
    location := fun v => match v with | JVal.str s => some { city := some s } | _ => none }

/-- Alice renames herself and sends `points` and `role` along. -/
def aliceGrantsHerself : ProfileRequest :=
  { user := alice,
    body := [("name", JVal.str "Alice A."), ("points", JVal.num 1000), ("role", JVal.str "admin")] }

/-! ## `routes/admin.js` -/

/-- The static `createItemApprovedNotification(userId, itemId, itemTitle)`. -/
def Notification.createItemApprovedNotification (st : State) (userId itemId : ObjectId)
    (itemTitle : String) : State :=
  Notification.createNotification st userId NotificationType.item_approved
    "Item Approved!" ("Your item \"" ++ itemTitle ++ "\" has been approved and is now live.")
    { itemId := some itemId }

/-- The static `createItemRejectedNotification(userId, itemId, itemTitle, reason)`. -/
def Notification.createItemRejectedNotification (st : State) (userId itemId : ObjectId)
    (itemTitle reason : String) : State :=
  Notification.createNotification st userId NotificationType.item_rejected
    "Item Rejected" ("Your item \"" ++ itemTitle ++ "\" was rejected: " ++ reason)
    { itemId := some itemId }

/-- The call `this.save()` on an item document: runs the hook, stamps `updatedAt` and writes the
document back under its `_id`. -/
def Item.save (st : State) (now : Nat) (item : Item) : State :=
  { st with
    items := (updateFirst (fun d => d.id == item.id)
      (fun _ => { item.preSave with updatedAt := now }) st.items) }

/-- The call `this.save()` on a user document: stamps `updatedAt` and writes the document back
under its `_id`. -/
def User.save (st : State) (now : Nat) (user : User) : State :=
  { st with
    users := (updateFirst (fun d => d.id == user.id)
      (fun _ => { user with updatedAt := now }) st.users) }

/-- Context of `PUT /api/admin/items/:id/approve`. -/
structure ApproveItemRequest where
  user : User
  id : ObjectId
  now : Nat := 0

/-- Body and context of `PUT /api/admin/items/:id/reject`. -/
structure RejectItemRequest where
  user : User
  id : ObjectId
  reason : Option String := none
  now : Nat := 0

/-- Body and context of `PUT /api/admin/users/:id/role`. -/
structure RoleRequest where
  user : User
  id : ObjectId
  role : Option String := none
  now : Nat := 0

/-- Context of `DELETE /api/admin/users/:id`. -/
structure DeleteUserRequest where
  user : User
  id : ObjectId
  now : Nat := 0

/-- Handler of `PUT /api/admin/items/:id/approve`: approve an item. -/
def adminApproveItem (st : State) (req : ApproveItemRequest) : Response × State :=
  match st.findItem req.id with
  | none => ({ status := 404, error := some "Item not found" }, st)
  | some item =>
  if item.isApproved then
    ({ status := 400, error := some "Item already approved" }, st)
  else
  let approved : Item :=
    { item with
      isApproved := true
      status := ItemStatus.Available
      approvedBy := some req.user.id
      approvedAt := some req.now }
  let st1 := Item.save st req.now approved
  let st2 := Notification.createItemApprovedNotification st1 item.ownerId item.id item.title
  ({ status := 200 }, st2)

/-- Handler of `PUT /api/admin/items/:id/reject`: reject an item. -/
def adminRejectItem (st : State) (req : RejectItemRequest) : Response × State :=
  let reason := jsTrim (req.reason.getD "")
  if !(decide (1 ≤ reason.length) && decide (reason.length ≤ 200)) then
    ({ status := 400, error := some "Validation failed" }, st)
  else
  match st.findItem req.id with
  | none => ({ status := 404, error := some "Item not found" }, st)
  | some item =>
  if item.isApproved then
    ({ status := 400, error := some "Item already approved" }, st)
  else
  let st1 := Item.save st req.now { item with status := ItemStatus.Removed }
  let st2 := Notification.createItemRejectedNotification st1 item.ownerId item.id item.title
    reason
  ({ status := 200 }, st2)

/-- The `role` enum of the user schema. -/
def Role.ofString : String → Option Role
  | "user" => some Role.user
  | "admin" => some Role.admin
  | _ => none

/-- Handler of `PUT /api/admin/users/:id/role`: update a user's role. -/
def putUserRole (st : State) (req : RoleRequest) : Response × State :=
  if !(["user", "admin"].contains (req.role.getD "")) then
    ({ status := 400, error := some "Validation failed" }, st)
  else
  match st.findUser req.id with
  | none => ({ status := 404, error := some "User not found" }, st)
  | some user =>
  if user.id = req.user.id ∧ req.role = some "user" then
    ({ status := 400, error := some "Cannot remove own admin role" }, st)
  else
  match req.role.bind Role.ofString with
  | none => ({ status := 500, error := some "Failed to update user role" }, st)
  | some role => ({ status := 200 }, User.save st req.now { user with role := role })

/-- Handler of `DELETE /api/admin/users/:id`: delete a user with their items, swaps and
notifications. -/
def deleteUser (st : State) (req : DeleteUserRequest) : Response × State :=
  match st.findUser req.id with
  | none => ({ status := 404, error := some "User not found" }, st)
  | some user =>
  if user.id = req.user.id then
    ({ status := 400, error := some "Cannot delete own account" }, st)
  else
  ({ status := 200 },
    { st with
      items := st.items.filter (fun it => it.ownerId != user.id)
      swaps := st.swaps.filter (fun s => !(s.initiatorId == user.id || s.recipientId == user.id))
      notifications := st.notifications.filter (fun n => n.userId != user.id)
      users := deleteFirst (fun u => u.id == user.id) st.users })

/-- The state-changing requests of the admin router. -/
inductive AdminOp where
  | approveItem (req : ApproveItemRequest)
  | rejectItem (req : RejectItemRequest)
  | setRole (req : RoleRequest)
  | deleteUser (req : DeleteUserRequest)

/-- Runs the admin handler that serves the request. -/
def AdminOp.run (st : State) : AdminOp → Response × State
  | AdminOp.approveItem req => adminApproveItem st req
  | AdminOp.rejectItem req => adminRejectItem st req
  | AdminOp.setRole req => putUserRole st req
  | AdminOp.deleteUser req => ReWare.deleteUser st req

/-- The user on whose behalf the admin request is made (`req.user`). -/
def AdminOp.user : AdminOp → User
  | AdminOp.approveItem req => req.user
  | AdminOp.rejectItem req => req.user
  | AdminOp.setRole req => req.user
  | AdminOp.deleteUser req => req.user

/-- Role of the stored user with the given `_id`. -/
def roleOf (st : State) (i : ObjectId) : Option Role :=
  (st.findUser i).map (fun u => u.role)

/-- Dana, an administrator. -/
def dana : User := { id := 4, name := "Dana", role := Role.admin }

/-- A store with an administrator, a notification for Alice and one for Bob. -/
def adminStore : State :=
  { exampleStore with
    users := [alice, bob, carol, dana]
    notifications :=
      [{ id := 500, userId := 1, type := NotificationType.system_announcement,
         title := "Welcome", message := "Hello Alice" },
       { id := 501, userId := 2, type := NotificationType.system_announcement,
         title := "Welcome", message := "Hello Bob" }] }

/-- Dana asks to become an ordinary user. -/
def danaDemotesHerself : RoleRequest := { user := dana, id := 4, role := some "user" }

/-- Dana asks to delete her own account. -/
def danaDeletesHerself : DeleteUserRequest := { user := dana, id := 4 }

/-- Dana deletes Alice. -/
def danaDeletesAlice : DeleteUserRequest := { user := dana, id := 1 }

/-! ## Stats and ledger runs -/

/-- Stats of the stored user with the given `_id`. -/
def statsOf (st : State) (i : ObjectId) : Option UserStats :=
  (st.findUser i).map (fun u => u.stats)

/-- The stats after the increment `{ 'stats.totalSwaps': 1, 'stats.ecoImpact': 2.5 }`. -/
def creditStats (s : UserStats) : UserStats :=
  { s with totalSwaps := s.totalSwaps + 1, ecoImpact := s.ecoImpact + 25 }

/-- Bob accepts Alice's redemption request. -/
def bobAcceptsRedemption : RespondRequest := { user := bob, id := 100 }

/-- Alice cancels her redemption request. -/
def aliceCancelsRedemption : CancelRequest := { user := alice, id := 100 }

/-- The example store after Bob accepted Alice's redemption request. -/
def afterAccept : State := (acceptSwapRoute exampleStore bobAcceptsRedemption).2

/-- The example store after the accepted request was cancelled by Alice. -/
def afterAcceptAndCancel : State := (cancelSwapRoute afterAccept aliceCancelsRedemption).2

/-- Carol's approved hat, 6 points. -/
def hat : Item :=
  { id := 13, title := "Hat", ownerId := 3, pointsRequired := 6,
    status := ItemStatus.Available, isApproved := true }

/-- A store without swaps: Alice, Bob and Carol with 10 points each, Bob's coat, Carol's hat. -/
def ledgerStore : State :=
  { users := [alice, bob, carol], items := [coat, hat], nextId := 1000 }

/-- Alice offers 8 points for Bob's coat. -/
def aliceOffers8ForCoat : CreateSwapRequest :=
  { user := alice, requestedItemId := 10, swapType := SwapType.PointsRedemption,
    pointsOffered := some 8 }

/-- Alice offers 8 points for Carol's hat. -/
def aliceOffers8ForHat : CreateSwapRequest :=
  { user := alice, requestedItemId := 13, swapType := SwapType.PointsRedemption,
    pointsOffered := some 8 }

/-- The ledger store after Alice's first request (swap 1000). -/
def ledger1 : State := (createSwap ledgerStore aliceOffers8ForCoat).2

/-- The ledger store after Alice's second request (swap 1002). -/
def ledger2 : State := (createSwap ledger1 aliceOffers8ForHat).2

/-- Bob accepts swap 1000. -/
def bobAccepts1000 : RespondRequest := { user := bob, id := 1000 }

/-- Carol accepts swap 1002. -/
def carolAccepts1002 : RespondRequest := { user := carol, id := 1002 }

/-- The ledger store after Bob accepted. -/
def ledger3 : State := (acceptSwapRoute ledger2 bobAccepts1000).2

/-- The ledger store after Carol accepted too. -/
def ledger4 : State := (acceptSwapRoute ledger3 carolAccepts1002).2

/-! ## Further concrete inputs -/

/-- A PDF of 20 MB. -/
def hugePdf : UploadedFile := { mimetype := "application/pdf", size := 20 * 1024 * 1024 }

/-- A PNG of 20 MB. -/
def hugePng : UploadedFile := { mimetype := "image/png", size := 20 * 1024 * 1024 }

/-- A PNG of exactly 10 MB. -/
def limitPng : UploadedFile := { mimetype := "image/png", size := 10 * 1024 * 1024 }

/-- The priority the notification save hook gives to a type. -/
def priorityOfType : NotificationType → Priority
  | NotificationType.swap_request => Priority.high
  | NotificationType.swap_accepted => Priority.high
  | NotificationType.item_approved => Priority.medium
  | NotificationType.item_rejected => Priority.medium
  | NotificationType.new_message => Priority.medium
  | NotificationType.swap_rejected => Priority.low
  | NotificationType.swap_completed => Priority.low
  | NotificationType.points_earned => Priority.low
  | NotificationType.badge_earned => Priority.low
  | NotificationType.system_announcement => Priority.low

/-! ## `models/User.js`: points methods -/

/-- The call `this.save()` after `this.points` was assigned: an unchanged value is no
modification and nothing is written; a changed value is checked by the path's `min: 0`
validator, and `none` is the rejected save. -/
def User.savePoints (st : State) (now : Nat) (old doc : User) : Option State :=
  if doc.points = old.points then some st
  else if 0 ≤ doc.points then some (User.save st now doc)
  else none

/-- The JavaScript values followed for the argument `amount`: an integer number, `NaN`, a
string (what `req.body.amount` is when the body carries the amount in quotes or is
form-encoded) and `undefined`. -/
inductive JsAmount where
  | num (n : Int)
  | nan
  | str (s : String)
  | undefined
  deriving DecidableEq, Repr

/-- The number an amount is converted to by `>=` and `-=`; `none` is `NaN`.  `toNumber` stands
for JavaScript's `Number(s)` on strings. -/
def JsAmount.toNumber (toNumber : String → Option Int) : JsAmount → Option Int
  | JsAmount.num n => some n
  | JsAmount.nan => none
  | JsAmount.str s => toNumber s
  | JsAmount.undefined => none

/-- The value of `this.points + amount` as the setter of the `Number` path casts it: a number
is added, a string is appended to the text of the balance and the text is cast with
`Number`; `none` when the result is `NaN` and the cast is refused. -/
def plusAmount (toNumber : String → Option Int) (points : Int) : JsAmount → Option Int
  | JsAmount.num n => some (points + n)
  | JsAmount.nan => none
  | JsAmount.str s => toNumber (toString points ++ s)
  | JsAmount.undefined => none

/-- The method `userSchema.methods.addPoints(amount)`: the document after the assignment and
the outcome of its save.  A refused cast leaves the balance as it was and makes the save
reject. -/
def User.addPoints (toNumber : String → Option Int) (st : State) (now : Nat) (u : User)
    (amount : JsAmount) : User × Option State :=
  match plusAmount toNumber u.points amount with
  | some points =>
    let doc := { u with points := points }
    (doc, User.savePoints st now u doc)
  | none => (u, none)

/-- The method `userSchema.methods.deductPoints(amount)`; `Except.error` carries the message of
the thrown `Error`.  The comparison `this.points >= amount` is false when the amount converts
to `NaN`. -/
def User.deductPoints (toNumber : String → Option Int) (st : State) (now : Nat) (u : User)
    (amount : JsAmount) : Except String (User × Option State) :=
  match amount.toNumber toNumber with
  | some n =>
    if u.points ≥ n then
      let doc := { u with points := u.points - n }
      Except.ok (doc, User.savePoints st now u doc)
    else Except.error "Insufficient points"
  | none => Except.error "Insufficient points"

/-- Reads a run of decimal digits. -/
def readDigits : List Char → Nat → Option Nat
  | [], acc => some acc
  | c :: cs, acc => if c.isDigit then readDigits cs (acc * 10 + (c.toNat - 48)) else none

/-- A conversion used for concrete runs: it agrees with `Number` on the empty string and on an
optionally negated run of decimal digits, and reads every other string as `NaN`. -/
def exampleToNumber (s : String) : Option Int :=
  match s.data with
  | [] => some 0
  | '-' :: [] => none
  | '-' :: cs => (readDigits cs 0).map (fun n => -(n : Int))
  | cs => (readDigits cs 0).map (fun n => (n : Int))

/-! ## `models/Item.js`: likes and views -/

/-- JavaScript `indexOf`: the first index of `a`, or `-1`. -/
def jsIndexOf (l : List ObjectId) (a : ObjectId) : Int :=
  if l.indexOf a < l.length then (l.indexOf a : Int) else -1

/-- The list part of `toggleLike`: `splice(likeIndex, 1)` when the user is found, `push`
otherwise. -/
def toggleLikes (likes : List ObjectId) (userId : ObjectId) : List ObjectId :=
  let likeIndex := jsIndexOf likes userId
  if likeIndex > -1 then likes.eraseIdx likeIndex.toNat else likes ++ [userId]

/-- The method `itemSchema.methods.toggleLike(userId)`: the saved document and the store. -/
def Item.toggleLike (st : State) (now : Nat) (item : Item) (userId : ObjectId) : Item × State :=
  let doc := { item with likes := toggleLikes item.likes userId }
  ({ doc.preSave with updatedAt := now }, Item.save st now doc)

/-- The method `itemSchema.methods.incrementViews()`: the saved document and the store. -/
def Item.incrementViews (st : State) (now : Nat) (item : Item) : Item × State :=
  let doc := { item with views := item.views + 1 }
  ({ doc.preSave with updatedAt := now }, Item.save st now doc)

/-- Context of `GET /api/items/:id`, `POST /api/items/:id/like` and
`PUT /api/items/:id/approve`; the first is public and has no `user`. -/
structure ItemRequest where
  user : Option User := none
  id : ObjectId
  now : Nat := 0

/-- Handler of `GET /api/items/:id`: show an item and count the view. -/
def getItem (st : State) (req : ItemRequest) : Response × State :=
  match st.findItem req.id with
  | none => ({ status := 404, error := some "Item not found" }, st)
  | some item => ({ status := 200 }, (Item.incrementViews st req.now item).2)

/-- Handler of `POST /api/items/:id/like`: toggle the like of `req.user`. -/
def likeItem (st : State) (req : ItemRequest) (userId : ObjectId) : Response × State :=
  match st.findItem req.id with
  | none => ({ status := 404, error := some "Item not found" }, st)
  | some item => ({ status := 200 }, (Item.toggleLike st req.now item userId).2)

/-- Handler of `PUT /api/items/:id/approve` of the items router (admin only): approve an item. -/
def approveItem (st : State) (req : ItemRequest) : Response × State :=
  match st.findItem req.id with
  | none => ({ status := 404, error := some "Item not found" }, st)
  | some item =>
    ({ status := 200 },
      Item.save st req.now { item with isApproved := true, status := ItemStatus.Available })

/-- The route `PUT /api/items/:id/approve` of the items router: `requireAdmin`, then the
handler. -/
def approveItemRoute (st : State) (req : ItemRequest) : Response × State :=
  match requireAdmin req.user with
  | MiddlewareResult.respond res => (res, st)
  | MiddlewareResult.next => approveItem st req

/-- The route `POST /api/items/:id/like`: `authenticateToken` answers 401 without a user, then
the handler toggles the like of `req.user._id`. -/
def likeItemRoute (st : State) (req : ItemRequest) : Response × State :=
  match req.user with
  | none => ({ status := 401, error := some "Access token required" }, st)
  | some user => likeItem st req user.id

/-! ## All state-changing requests as one step function -/

/-- The library behaviour the handlers are run with. -/
structure Env where
  host : UploadedFile → Option UploadResult
  parseCreateTags : String → Option (List String)
  parseUpdateTags : List String → Option (List String)
  validateProfile : List (String × JVal) → Bool
  casts : SchemaCasts

/-- The requests that write to the item or swap collection, and the profile update. -/
inductive Request where
  | createSwap (req : CreateSwapRequest)
  | swap (op : SwapOp)
  | createItem (req : CreateItemRequest)
  | updateItem (req : UpdateItemRequest)
  | deleteItem (req : DeleteItemRequest)
  | getItem (req : ItemRequest)
  | likeItem (req : ItemRequest)
  | approveItem (req : ItemRequest)
  | putProfile (req : ProfileRequest)
  | admin (op : AdminOp)

/-- Runs the route that serves the request. -/
def Request.run (env : Env) (st : State) : Request → Response × State
  | Request.createSwap req => ReWare.createSwap st req
  | Request.swap op => op.run st
  | Request.createItem req => ReWare.createItem env.host env.parseCreateTags st req
  | Request.updateItem req => ReWare.updateItem env.parseUpdateTags st req
  | Request.deleteItem req => ReWare.deleteItem st req
  | Request.getItem req => ReWare.getItem st req
  | Request.likeItem req => likeItemRoute st req
  | Request.approveItem req => approveItemRoute st req
  | Request.putProfile req => ReWare.putProfile env.validateProfile env.casts st req
  | Request.admin op => op.run st

/-- The store after a sequence of requests served one after the other. -/
def runAll (env : Env) (st : State) (reqs : List Request) : State :=
  reqs.foldl (fun s r => (r.run env s).2) st

/-- Whether the request is an admin moderation request on items or users: approve or reject an
item, delete a user. -/
def Request.isModeration : Request → Bool
  | Request.approveItem _ => true
  | Request.admin (AdminOp.approveItem _) => true
  | Request.admin (AdminOp.rejectItem _) => true
  | Request.admin (AdminOp.deleteUser _) => true
  | _ => false

/-- The filter `{ initiatorId: u, requestedItemId: i, status: 'Pending' }` of the create-swap
handler's `Swap.findOne`. -/
def isPendingFor (u i : ObjectId) (s : Swap) : Bool :=
  s.initiatorId == u && s.requestedItemId == i && s.status == SwapStatus.Pending

/-- Number of stored `Pending` swaps of initiator `u` that request item `i`. -/
def pendingCount (st : State) (u i : ObjectId) : Nat :=
  st.swaps.countP (isPendingFor u i)

/-- At most one `Pending` swap per pair of initiator and requested item. -/
def PendingUnique (st : State) : Prop :=
  ∀ u i, pendingCount st u i ≤ 1

/-- The example library behaviour. -/
def exampleEnv : Env :=
  { host := exampleHost, parseCreateTags := parseTextFails, parseUpdateTags := parseFails,
    validateProfile := fun _ => true, casts := exampleCasts }

/-- While her request for the coat is pending, Alice asks for the coat again and offers
Carol's hat. -/
def aliceOffersCarolsHat : CreateSwapRequest :=
  { user := alice, requestedItemId := 10, swapType := SwapType.DirectSwap,
    offeredItemId := some 13 }

/-- The ledger store with the administrator Dana. -/
def adminLedger : State := { ledgerStore with users := [alice, bob, carol, dana] }

/-- The store after Alice asked for the coat and Bob accepted: the coat is `Swapped`. -/
def adminLedger2 : State :=
  (acceptSwapRoute (createSwap adminLedger aliceOffers8ForCoat).2 bobAccepts1000).2

/-- Dana approves the coat through the items router. -/
def danaApprovesCoat : ItemRequest := { user := some dana, id := 10 }

/-- Bob retitles his coat. -/
def bobRetitlesCoat : UpdateItemRequest := { user := bob, id := 10, title := some "Warm coat" }

/-- Bob deletes his coat. -/
def bobDeletesCoat : DeleteItemRequest := { user := bob, id := 10 }

/-- Alice likes the coat. -/
def aliceLikesCoat : ItemRequest := { user := some alice, id := 10 }

/-! ## Chat posts -/

/-- The chat message `addMessage(req.user._id, message.trim())` appends for a request. -/
def postedMessage (req : MessageRequest) : ChatMessage :=
  { senderId := req.user.id, message := jsTrim (req.message.getD ""), timestamp := req.now }

/-- Alice thanks Bob in the chat of the completed swap. -/
def aliceThanks : MessageRequest := { user := alice, id := 103, message := some "thanks", now := 9 }

/-- Dana approves the coat through the admin router. -/
def danaApprovesCoatAdmin : ApproveItemRequest := { user := dana, id := 10 }

set_option maxRecDepth 100000

/-! ## Lemmas on collections -/

theorem find?_updateFirst {α : Type} (key : α → ObjectId) (k j : ObjectId) (f : α → α)
    (hf : ∀ x, key x = k → key (f x) = k) (l : List α) :
    (updateFirst (fun x => key x == k) f l).find? (fun x => key x == j) =
      if j = k then (l.find? (fun x => key x == k)).map f
      else l.find? (fun x => key x == j) := by
  induction l with
  | nil => simp [updateFirst]
  | cons x xs ih =>
    by_cases hx : key x = k
    · have hfx := hf x hx
      by_cases hj : j = k
      · subst hj; simp [updateFirst, hx, hfx]
      · have h1 : (key x == j) = false := by
          simpa using fun h : key x = j => hj (h ▸ hx)
        have h2 : (key (f x) == j) = false := by
          simpa using fun h : key (f x) = j => hj (h ▸ hfx)
        have h3 : (key x == k) = true := by simpa using hx
        simp only [updateFirst, h3, if_true, List.find?_cons, h1, h2, hj, if_false]
    · have hx' : (key x == k) = false := by simpa using hx
      by_cases hj : j = k
      · subst hj; simp [updateFirst, hx', List.find?_cons, ih]
      · simp only [updateFirst, hx', List.find?_cons, ih, hj, if_false, Bool.false_eq_true]

theorem findSwap_id {st : State} {i : ObjectId} {s : Swap} (h : st.findSwap i = some s) :
    s.id = i := by
  have := List.find?_some h
  simpa using this

theorem findItem_id {st : State} {i : ObjectId} {it : Item} (h : st.findItem i = some it) :
    it.id = i := by
  have := List.find?_some h
  simpa using this

theorem findUser_id {st : State} {i : ObjectId} {u : User} (h : st.findUser i = some u) :
    u.id = i := by
  have := List.find?_some h
  simpa using this

theorem preSave_id (s : Swap) : s.preSave.id = s.id := by
  unfold Swap.preSave; split <;> rfl

theorem preSave_status (s : Swap) : s.preSave.status = s.status := by
  unfold Swap.preSave; split <;> rfl

theorem save_snd (st : State) (now : Nat) (s : Swap) :
    (Swap.save st now s).2 =
      { st with
        swaps := (updateFirst (fun d => d.id == s.id)
          (fun _ => { s.preSave with updatedAt := now }) st.swaps) } := by
  simp [Swap.save, preSave_id]

/-- After `save`, looking a swap up yields the saved document under its own `_id` (when it was
stored) and every other swap as before. -/
theorem findSwap_save (st : State) (now : Nat) (s : Swap) (j : ObjectId) :
    (Swap.save st now s).2.findSwap j =
      if j = s.id then (st.findSwap s.id).map (fun _ => { s.preSave with updatedAt := now })
      else st.findSwap j := by
  rw [save_snd]
  exact find?_updateFirst (fun d : Swap => d.id) s.id j
    (fun _ => { s.preSave with updatedAt := now }) (fun _ _ => preSave_id s) st.swaps

/-! ## Effect of each swap handler on swap statuses -/

theorem statusOf_congr {st1 st2 : State} (h : st1.swaps = st2.swaps) (i : ObjectId) :
    statusOf st1 i = statusOf st2 i := by
  simp [statusOf, State.findSwap, h]

/-! ### Which collections each building block touches -/

@[simp]
theorem itemUpdate_swaps (st : State) (now : Nat) (i : ObjectId)
    (f : Item → Item) : (Item.findByIdAndUpdate st now i f).swaps = st.swaps := rfl

@[simp]
theorem itemUpdate_users (st : State) (now : Nat) (i : ObjectId)
    (f : Item → Item) : (Item.findByIdAndUpdate st now i f).users = st.users := rfl

@[simp]
theorem userUpdate_swaps (st : State) (now : Nat) (i : ObjectId)
    (f : User → User) : (User.findByIdAndUpdate st now i f).swaps = st.swaps := rfl

@[simp]
theorem userUpdate_items (st : State) (now : Nat) (i : ObjectId)
    (f : User → User) : (User.findByIdAndUpdate st now i f).items = st.items := rfl

@[simp]
theorem createNotification_swaps (st : State) (u : ObjectId) (t : NotificationType)
    (a b : String) (d : NotificationData) :
    (Notification.createNotification st u t a b d).swaps = st.swaps := rfl

@[simp]
theorem createNotification_items (st : State) (u : ObjectId) (t : NotificationType)
    (a b : String) (d : NotificationData) :
    (Notification.createNotification st u t a b d).items = st.items := rfl

@[simp]
theorem createNotification_users (st : State) (u : ObjectId) (t : NotificationType)
    (a b : String) (d : NotificationData) :
    (Notification.createNotification st u t a b d).users = st.users := rfl

@[simp]
theorem save_users (st : State) (now : Nat) (s : Swap) :
    (Swap.save st now s).2.users = st.users := rfl

@[simp]
theorem save_items (st : State) (now : Nat) (s : Swap) :
    (Swap.save st now s).2.items = st.items := rfl

@[simp]
theorem updateItemStatuses_swaps (st : State) (now : Nat) (r : Item) (o : Option Item) :
    (updateItemStatuses st now r o).swaps = st.swaps := by
  unfold updateItemStatuses; split <;> rfl

@[simp]
theorem updateItemStatuses_users (st : State) (now : Nat) (r : Item) (o : Option Item) :
    (updateItemStatuses st now r o).users = st.users := by
  unfold updateItemStatuses; split <;> rfl

theorem transferPoints_swaps {st st4 : State} {now : Nat} {swap : Swap}
    (h : transferPoints st now swap = some st4) : st4.swaps = st.swaps := by
  unfold transferPoints at h
  split at h
  · split at h
    · cases h
    · cases h; rfl
  · cases h; rfl

theorem transferPoints_items {st st4 : State} {now : Nat} {swap : Swap}
    (h : transferPoints st now swap = some st4) : st4.items = st.items := by
  unfold transferPoints at h
  split at h
  · split at h
    · cases h
    · cases h; rfl
  · cases h; rfl

@[simp]
theorem updateUserStats_swaps (st : State) (now : Nat) (swap : Swap) :
    (updateUserStats st now swap).swaps = st.swaps := rfl

@[simp]
theorem updateUserStats_items (st : State) (now : Nat) (swap : Swap) :
    (updateUserStats st now swap).items = st.items := rfl

/-- Either an accept leaves the whole store alone, or it ran `acceptSwap` on the pending swap
it addressed. -/
theorem acceptSwapRoute_swaps (st : State) (req : RespondRequest) :
    (acceptSwapRoute st req).2 = st ∨
      ∃ swap, st.findSwap req.id = some swap ∧ swap.status = SwapStatus.Pending ∧
        swap.recipientId = req.user.id ∧
        (acceptSwapRoute st req).2.swaps =
          (Swap.acceptSwap st req.now swap (sanitized req.responseMessage)).2.swaps := by
  unfold acceptSwapRoute
  split
  · exact Or.inl rfl
  · split
    · exact Or.inl rfl
    · rename_i swap hfind
      split
      · exact Or.inl rfl
      · rename_i hrec
        split
        · exact Or.inl rfl
        · rename_i hst
          right
          refine ⟨swap, hfind, by simpa using hst, by simpa using hrec, ?_⟩
          simp only []
          split
          · rfl
          · split
            · simp
            · rename_i h4
              simp [Notification.createSwapAcceptedNotification, transferPoints_swaps h4]

theorem rejectSwapRoute_swaps (st : State) (req : RespondRequest) :
    (rejectSwapRoute st req).2 = st ∨
      ∃ swap, st.findSwap req.id = some swap ∧ swap.status = SwapStatus.Pending ∧
        swap.recipientId = req.user.id ∧
        (rejectSwapRoute st req).2.swaps =
          (Swap.rejectSwap st req.now swap (sanitized req.responseMessage)).2.swaps := by
  unfold rejectSwapRoute
  split
  · exact Or.inl rfl
  · split
    · exact Or.inl rfl
    · rename_i swap hfind
      split
      · exact Or.inl rfl
      · rename_i hrec
        split
        · exact Or.inl rfl
        · rename_i hst
          right
          refine ⟨swap, hfind, by simpa using hst, by simpa using hrec, ?_⟩
          simp only []
          split
          · rfl
          · simp [Notification.createSwapRejectedNotification]

theorem completeSwapRoute_effect (st : State) (req : CompleteRequest) :
    (completeSwapRoute st req).2 = st ∨
      ∃ swap, st.findSwap req.id = some swap ∧ swap.status = SwapStatus.Accepted ∧
        (completeSwapRoute st req).2 = (Swap.completeSwap st req.now swap).2 := by
  unfold completeSwapRoute
  split
  · exact Or.inl rfl
  · rename_i swap hfind
    split
    · exact Or.inl rfl
    · split
      · exact Or.inl rfl
      · rename_i hst
        exact Or.inr ⟨swap, hfind, by simpa using hst, rfl⟩

theorem cancelSwapRoute_effect (st : State) (req : CancelRequest) :
    (cancelSwapRoute st req).2 = st ∨
      ∃ swap, st.findSwap req.id = some swap ∧ swap.status ≠ SwapStatus.Completed ∧
        swap.status ≠ SwapStatus.Cancelled ∧
        (cancelSwapRoute st req).2 =
          (Swap.cancelSwap st req.now swap req.user.id (sanitized req.reason)).2 := by
  unfold cancelSwapRoute
  split
  · exact Or.inl rfl
  · split
    · exact Or.inl rfl
    · rename_i swap hfind
      split
      · exact Or.inl rfl
      · split
        · exact Or.inl rfl
        · rename_i hst
          have hst' := not_or.mp hst
          exact Or.inr ⟨swap, hfind, hst'.1, hst'.2, rfl⟩

theorem messageRoute_swaps (st : State) (req : MessageRequest) :
    (messageRoute st req).2 = st ∨
      ∃ swap, st.findSwap req.id = some swap ∧
        (swap.initiatorId = req.user.id ∨ swap.recipientId = req.user.id) ∧
        (messageRoute st req).2.swaps =
          (Swap.addMessage st req.now swap req.user.id (jsTrim (req.message.getD ""))).2.swaps := by
  unfold messageRoute
  split
  · exact Or.inl rfl
  · split
    · exact Or.inl rfl
    · rename_i swap hfind
      split
      · exact Or.inl rfl
      · rename_i hpart
        right
        refine ⟨swap, hfind, ?_, ?_⟩
        · by_cases h : swap.initiatorId = req.user.id
          · exact Or.inl h
          · right
            by_contra h'
            exact hpart ⟨h, h'⟩
        · simp [Notification.createMessageNotification]

/-- One step on the swap collection: nothing at all changes, or one stored swap is saved again,
either with a status change from `handlerTransitions` (accept, reject, complete, cancel) or with
one chat message appended (chat post). -/
theorem run_effect (st : State) (op : SwapOp) :
    (op.run st).2 = st ∨
      ∃ (now : Nat) (swap swap' : Swap), st.findSwap swap.id = some swap ∧ swap'.id = swap.id ∧
        (op.run st).2.swaps = (Swap.save st now swap').2.swaps ∧
        ((op.isMessage = false ∧ (swap.status, swap'.status) ∈ handlerTransitions) ∨
          (op.isMessage = true ∧
            ∃ m, swap' = { swap with chatMessages := swap.chatMessages ++ [m] })) := by
  cases op with
  | accept req =>
    rcases acceptSwapRoute_swaps st req with h | ⟨swap, hfind, hst, _, h⟩
    · exact Or.inl h
    · refine Or.inr ⟨req.now, swap, _, ?_, ?_, h, Or.inl ⟨rfl, ?_⟩⟩
      · rw [findSwap_id hfind]; exact hfind
      · rfl
      · simp [hst, handlerTransitions]
  | reject req =>
    rcases rejectSwapRoute_swaps st req with h | ⟨swap, hfind, hst, _, h⟩
    · exact Or.inl h
    · refine Or.inr ⟨req.now, swap, _, ?_, ?_, h, Or.inl ⟨rfl, ?_⟩⟩
      · rw [findSwap_id hfind]; exact hfind
      · rfl
      · simp [hst, handlerTransitions]
  | complete req =>
    rcases completeSwapRoute_effect st req with h | ⟨swap, hfind, hst, h⟩
    · exact Or.inl h
    · refine Or.inr ⟨req.now, swap, _, ?_, ?_, congrArg State.swaps h, Or.inl ⟨rfl, ?_⟩⟩
      · rw [findSwap_id hfind]; exact hfind
      · rfl
      · simp [hst, handlerTransitions]
  | cancel req =>
    rcases cancelSwapRoute_effect st req with h | ⟨swap, hfind, hst1, hst2, h⟩
    · exact Or.inl h
    · refine Or.inr ⟨req.now, swap, _, ?_, ?_, congrArg State.swaps h, Or.inl ⟨rfl, ?_⟩⟩
      · rw [findSwap_id hfind]; exact hfind
      · rfl
      · cases hs : swap.status <;> simp_all [handlerTransitions]
  | message req =>
    rcases messageRoute_swaps st req with h | ⟨swap, hfind, _, h⟩
    · exact Or.inl h
    · refine Or.inr ⟨req.now, swap, _, ?_, ?_, h, Or.inr ⟨rfl, _, rfl⟩⟩
      · rw [findSwap_id hfind]; exact hfind
      · rfl

/-! ## Swap lifecycle (claims C1 and C2) -/

/-- Looking a swap up after one step, in the case where the step saved a swap again. -/
theorem findSwap_of_swaps_eq {st st' : State} {now : Nat} {s : Swap}
    (h : st'.swaps = (Swap.save st now s).2.swaps) (j : ObjectId) :
    st'.findSwap j =
      if j = s.id then (st.findSwap s.id).map (fun _ => { s.preSave with updatedAt := now })
      else st.findSwap j := by
  rw [← findSwap_save]
  simp [State.findSwap, h]

/-- C1 fails as stated: a participant's cancel request on a Rejected swap succeeds with 200
and moves the swap from Rejected to Cancelled, a change outside the five listed ones. -/
theorem C1_rejected_swap_can_be_cancelled :
    statusOf exampleStore 102 = some SwapStatus.Rejected ∧
    (SwapOp.run exampleStore (SwapOp.cancel { user := alice, id := 102 })).1.status = 200 ∧
    statusOf (SwapOp.run exampleStore (SwapOp.cancel { user := alice, id := 102 })).2 102
      = some SwapStatus.Cancelled ∧
    (SwapStatus.Rejected, SwapStatus.Cancelled) ∉ claimedTransitions := by
  decide

/-- C1, amended: every status change made by a swap handler (accept, reject, complete,
cancel, and the chat post, which never changes a status) is one of Pending->Accepted,
Pending->Rejected, Pending->Cancelled, Accepted->Completed, Accepted->Cancelled or
Rejected->Cancelled; a stored swap stays stored, and a swap that is Completed or Cancelled
keeps its status under every handler. -/
theorem C1_status_transitions (st : State) (op : SwapOp) (i : ObjectId) (a : SwapStatus)
    (h : statusOf st i = some a) :
    ∃ b, statusOf (op.run st).2 i = some b ∧
      (b = a ∨ (a, b) ∈ handlerTransitions) ∧
      (a = SwapStatus.Completed ∨ a = SwapStatus.Cancelled → b = a) := by
  rcases run_effect st op with h0 | ⟨now, swap, swap', hfind, hid, hswaps, hrel⟩
  · exact ⟨a, by rw [h0]; exact h, Or.inl rfl, fun _ => rfl⟩
  · have hlook := findSwap_of_swaps_eq hswaps i
    by_cases hi : i = swap'.id
    · have ha : a = swap.status := by
        have : statusOf st i = some swap.status := by
          simp [statusOf, hi, hid, hfind]
        rw [this] at h
        exact (Option.some.inj h).symm
      have hlook' : (op.run st).2.findSwap i
          = some { swap'.preSave with updatedAt := now } := by
        rw [hlook, if_pos hi, hid, hfind]; rfl
      have hb : statusOf (op.run st).2 i = some swap'.status := by
        rw [statusOf, hlook']
        simp [preSave_status]
      refine ⟨swap'.status, hb, ?_, ?_⟩
      · rcases hrel with ⟨_, hmem⟩ | ⟨_, m, hm⟩
        · exact Or.inr (ha ▸ hmem)
        · left; rw [ha, hm]
      · rcases hrel with ⟨_, hmem⟩ | ⟨_, m, hm⟩
        · intro hterm
          rw [ha] at hterm
          rcases hterm with ht | ht <;> rw [ht] at hmem <;> simp [handlerTransitions] at hmem
        · intro _; rw [ha, hm]
    · refine ⟨a, ?_, Or.inl rfl, fun _ => rfl⟩
      simp only [statusOf, hlook, hi, if_false]
      exact h

/-- C1, amended, at the cancel of a Rejected swap. -/
theorem C1_status_transitions_witness :
    statusOf exampleStore 102 = some SwapStatus.Rejected ∧
    ∃ b, statusOf (SwapOp.run exampleStore (SwapOp.cancel { user := alice, id := 102 })).2 102
        = some b ∧
      (b = SwapStatus.Rejected ∨ (SwapStatus.Rejected, b) ∈ handlerTransitions) ∧
      (SwapStatus.Rejected = SwapStatus.Completed ∨ SwapStatus.Rejected = SwapStatus.Cancelled →
        b = SwapStatus.Rejected) :=
  ⟨by decide,
    C1_status_transitions exampleStore (SwapOp.cancel { user := alice, id := 102 }) 102
      SwapStatus.Rejected (by decide)⟩

/-- C2 fails as stated: a participant's chat post on a Completed swap succeeds with 200 and
appends to the swap's chatMessages. -/
theorem C2_chat_post_changes_completed_swap :
    statusOf exampleStore 103 = some SwapStatus.Completed ∧
    (exampleStore.findSwap 103).map (fun s => s.chatMessages) = some [] ∧
    (SwapOp.run exampleStore
      (SwapOp.message { user := alice, id := 103, message := some "thanks", now := 9 })).1.status
      = 200 ∧
    ((SwapOp.run exampleStore
      (SwapOp.message { user := alice, id := 103, message := some "thanks", now := 9 })).2.findSwap
        103).map (fun s => s.chatMessages)
      = some [{ senderId := 1, message := "thanks", timestamp := 9 }] := by
  decide

/-- A chat post that passes the validator, made by a participant of the stored swap, is
answered 200 and saves the swap with the posted message appended. -/
theorem messageRoute_posted (st : State) (req : MessageRequest) (sw : Swap)
    (hvalid : validChatMessage req.message = true) (hfind : st.findSwap req.id = some sw)
    (hpart : sw.initiatorId = req.user.id ∨ sw.recipientId = req.user.id) :
    (messageRoute st req).1.status = 200 ∧
    (messageRoute st req).2.findSwap req.id =
      some { (Swap.preSave { sw with chatMessages := sw.chatMessages ++ [postedMessage req] })
        with updatedAt := req.now } := by
  have hnot : ¬ (sw.initiatorId ≠ req.user.id ∧ sw.recipientId ≠ req.user.id) := by
    rintro ⟨h1, h2⟩
    rcases hpart with h | h
    · exact h1 h
    · exact h2 h
  have hid : sw.id = req.id := findSwap_id hfind
  constructor
  · unfold messageRoute
    simp only [hvalid, hfind, hnot, Bool.not_true, Bool.false_eq_true, if_false]
  · have hsw : (messageRoute st req).2.swaps
        = (Swap.save st req.now
            { sw with chatMessages := sw.chatMessages ++ [postedMessage req] }).2.swaps := by
      unfold messageRoute
      simp only [hvalid, hfind, hnot, Bool.not_true, Bool.false_eq_true, if_false]
      rfl
    rw [findSwap_of_swaps_eq hsw req.id]
    rw [if_pos (show req.id = ({ sw with chatMessages := sw.chatMessages ++ [postedMessage req] }
      : Swap).id from hid.symm)]
    rw [show ({ sw with chatMessages := sw.chatMessages ++ [postedMessage req] } : Swap).id
      = req.id from hid, hfind]
    rfl

/-- A chat post that is refused, or that addresses another swap, leaves the swap as it is. -/
theorem messageRoute_other (st : State) (req : MessageRequest) (i : ObjectId) (sw : Swap)
    (hfind : st.findSwap i = some sw)
    (hneg : ¬ (req.id = i ∧ validChatMessage req.message = true ∧
      (sw.initiatorId = req.user.id ∨ sw.recipientId = req.user.id))) :
    (messageRoute st req).2.findSwap i = some sw := by
  rcases messageRoute_swaps st req with h | ⟨swap, hfind2, hpart, hsw⟩
  · rw [h]
    exact hfind
  · by_cases hvalid : validChatMessage req.message = true
    · have hne : i ≠ req.id := by
        intro hi
        rw [hi, hfind2] at hfind
        cases hfind
        exact hneg ⟨hi.symm, hvalid, hpart⟩
      have hid : swap.id = req.id := findSwap_id hfind2
      rw [findSwap_of_swaps_eq hsw i, if_neg]
      · exact hfind
      · intro hi
        exact hne (hi.trans hid)
    · have hsame : (messageRoute st req).2 = st := by
        unfold messageRoute
        simp [hvalid]
      rw [hsame]
      exact hfind

/-- C2, amended: for every swap whose status is Completed or Cancelled, accept, reject,
complete and cancel by any user leave every field of that swap unchanged; a chat post that
passes the route's validator and is made by a participant of the swap is answered 200 and
appends exactly the posted message (sender, trimmed text, time of the request) to chatMessages,
the save then refreshing updatedAt and running the save hook on ecoImpact, and leaves every
other field unchanged; any other chat post leaves every field of the swap unchanged. -/
theorem C2_terminal_swap_frame (st : State) (op : SwapOp) (i : ObjectId) (sw : Swap)
    (hfind : st.findSwap i = some sw)
    (hterm : sw.status = SwapStatus.Completed ∨ sw.status = SwapStatus.Cancelled) :
    (op.isMessage = false → (op.run st).2.findSwap i = some sw) ∧
    (∃ sw', (op.run st).2.findSwap i = some sw' ∧
      { sw' with chatMessages := sw.chatMessages, updatedAt := sw.updatedAt,
                 ecoImpact := sw.ecoImpact } = sw ∧
      (sw'.chatMessages = sw.chatMessages ∨ ∃ m, sw'.chatMessages = sw.chatMessages ++ [m])) ∧
    (∀ req : MessageRequest, op = SwapOp.message req →
      (req.id = i ∧ validChatMessage req.message = true ∧
          (sw.initiatorId = req.user.id ∨ sw.recipientId = req.user.id) →
        (op.run st).1.status = 200 ∧
        ∃ sw', (op.run st).2.findSwap i = some sw' ∧
          sw'.chatMessages = sw.chatMessages ++ [postedMessage req] ∧
          sw'.updatedAt = req.now ∧
          sw'.ecoImpact = (if sw.status = SwapStatus.Completed ∧ sw.ecoImpact = 0 then 50
            else sw.ecoImpact) ∧
          { sw' with chatMessages := sw.chatMessages, updatedAt := sw.updatedAt,
                     ecoImpact := sw.ecoImpact } = sw) ∧
      (¬ (req.id = i ∧ validChatMessage req.message = true ∧
          (sw.initiatorId = req.user.id ∨ sw.recipientId = req.user.id)) →
        (op.run st).2.findSwap i = some sw)) := by
  have hold : (op.isMessage = false → (op.run st).2.findSwap i = some sw) ∧
      ∃ sw', (op.run st).2.findSwap i = some sw' ∧
        { sw' with chatMessages := sw.chatMessages, updatedAt := sw.updatedAt,
                   ecoImpact := sw.ecoImpact } = sw ∧
        (sw'.chatMessages = sw.chatMessages ∨
          ∃ m, sw'.chatMessages = sw.chatMessages ++ [m]) := by
    rcases run_effect st op with h0 | ⟨now, swap, swap', hswap, hid, hswaps, hrel⟩
    · rw [h0]
      exact ⟨fun _ => hfind, sw, hfind, rfl, Or.inl rfl⟩
    · have hlook := findSwap_of_swaps_eq hswaps i
      by_cases hi : i = swap'.id
      · have hsame : swap = sw := by
          rw [hi, hid, hswap] at hfind
          exact Option.some.inj hfind
        subst hsame
        have hlook' : (op.run st).2.findSwap i
            = some { swap'.preSave with updatedAt := now } := by
          rw [hlook, if_pos hi, hid, hswap]; rfl
        rcases hrel with ⟨_, hmem⟩ | ⟨hmsg, m, hm⟩
        · exfalso
          rcases hterm with ht | ht <;> rw [ht] at hmem <;> simp [handlerTransitions] at hmem
        · refine ⟨fun hno => ?_, _, hlook', ?_, Or.inr ⟨m, ?_⟩⟩
          · rw [hmsg] at hno; cases hno
          · rw [hm]; unfold Swap.preSave; split <;> rfl
          · rw [hm]; unfold Swap.preSave; split <;> rfl
      · rw [hlook, if_neg hi]
        exact ⟨fun _ => hfind, sw, hfind, rfl, Or.inl rfl⟩
  refine ⟨hold.1, hold.2, fun req hop => ?_⟩
  subst hop
  refine ⟨fun hyes => ?_, fun hneg => messageRoute_other st req i sw hfind hneg⟩
  obtain ⟨hid, hvalid, hpart⟩ := hyes
  subst hid
  have hp := messageRoute_posted st req sw hvalid hfind hpart
  refine ⟨hp.1, _, hp.2, ?_, rfl, ?_, ?_⟩
  · unfold Swap.preSave
    split <;> rfl
  · by_cases hc : sw.status = SwapStatus.Completed ∧ sw.ecoImpact = 0
    · rw [if_pos hc]
      unfold Swap.preSave
      simp only []
      rw [if_pos hc]
    · rw [if_neg hc]
      unfold Swap.preSave
      simp only []
      rw [if_neg hc]
  · unfold Swap.preSave
    split <;> rfl

/-- C2, amended, at Alice's chat post on the completed swap 103: it is answered 200 and the
swap has her message appended, nothing else changed. -/
theorem C2_terminal_swap_frame_witness :
    (exampleStore.findSwap 103 = some completedSwap ∧
      (completedSwap.status = SwapStatus.Completed ∨
        completedSwap.status = SwapStatus.Cancelled)) ∧
    (SwapOp.run exampleStore (SwapOp.message aliceThanks)).1.status = 200 ∧
    (∃ sw', (SwapOp.run exampleStore (SwapOp.message aliceThanks)).2.findSwap 103 = some sw' ∧
      sw'.chatMessages = completedSwap.chatMessages ++ [postedMessage aliceThanks] ∧
      sw'.updatedAt = aliceThanks.now ∧
      sw'.ecoImpact = (if completedSwap.status = SwapStatus.Completed ∧
        completedSwap.ecoImpact = 0 then 50 else completedSwap.ecoImpact) ∧
      { sw' with chatMessages := completedSwap.chatMessages,
                 updatedAt := completedSwap.updatedAt,
                 ecoImpact := completedSwap.ecoImpact } = completedSwap) ∧
    postedMessage aliceThanks = { senderId := 1, message := "thanks", timestamp := 9 } :=
  have h := (C2_terminal_swap_frame exampleStore (SwapOp.message aliceThanks) 103
    completedSwap (by decide) (by decide)).2.2 aliceThanks rfl
  ⟨⟨by decide, by decide⟩, (h.1 ⟨rfl, by decide, by decide⟩).1,
    (h.1 ⟨rfl, by decide, by decide⟩).2, by decide⟩

/-! ## Accepting a swap: items (claim C3) -/

theorem findItem_itemUpdate (st : State) (now : Nat) (k j : ObjectId) (f : Item → Item)
    (hf : ∀ it, (f it).id = it.id) :
    (Item.findByIdAndUpdate st now k f).findItem j =
      if j = k then (st.findItem k).map (fun it => { f it with updatedAt := now })
      else st.findItem j := by
  unfold Item.findByIdAndUpdate State.findItem
  exact find?_updateFirst (fun it : Item => it.id) k j
    (fun it => { f it with updatedAt := now }) (fun it h => by simp [hf it, h]) st.items

theorem itemStatusOf_markSwapped (st : State) (now : Nat) (k j : ObjectId) :
    itemStatusOf (Item.findByIdAndUpdate st now k markSwapped) j =
      if j = k then (itemStatusOf st k).map (fun _ => ItemStatus.Swapped)
      else itemStatusOf st j := by
  unfold itemStatusOf
  rw [findItem_itemUpdate st now k j markSwapped (fun _ => rfl)]
  by_cases hj : j = k
  · simp only [hj, if_true]
    cases st.findItem k <;> rfl
  · simp only [hj, if_false]

theorem itemStatusOf_congr {st1 st2 : State} (h : st1.items = st2.items) (i : ObjectId) :
    itemStatusOf st1 i = itemStatusOf st2 i := by
  simp [itemStatusOf, State.findItem, h]

/-- Item statuses after the accept handler's item block. -/
theorem itemStatusOf_updateItemStatuses (st : State) (now : Nat) (r : Item) (o : Option Item)
    (j : ObjectId) :
    itemStatusOf (updateItemStatuses st now r o) j =
      if j = r.id ∨ o.map (fun it => it.id) = some j then
        (itemStatusOf st j).map (fun _ => ItemStatus.Swapped)
      else itemStatusOf st j := by
  unfold updateItemStatuses
  cases o with
  | none =>
    simp only [Option.map_none', or_false, reduceCtorEq]
    rw [itemStatusOf_markSwapped]
    by_cases hj : j = r.id <;> simp [hj]
  | some off =>
    simp only [Option.map_some', Option.some.injEq, itemStatusOf_markSwapped]
    by_cases h1 : j = off.id
    · by_cases h2 : off.id = r.id
      · subst h1
        simp only [h2, if_true, eq_self_iff_true, or_self, true_or]
        cases itemStatusOf st r.id <;> rfl
      · subst h1
        simp [h2]
    · have h1' : ¬ off.id = j := fun h => h1 h.symm
      by_cases h2 : j = r.id
      · subst h2
        simp [h1, h1']
      · simp [h1, h1', h2]

/-- The items after an accept that got past the checks and found the requested item. -/
theorem acceptSwapRoute_items (st : State) (req : RespondRequest) (swap : Swap) (r : Item)
    (hvalid : optionalMaxLength req.responseMessage 500 = true)
    (hfind : st.findSwap req.id = some swap)
    (hpend : swap.status = SwapStatus.Pending)
    (hrec : swap.recipientId = req.user.id)
    (hitem : st.findItem swap.requestedItemId = some r) :
    (acceptSwapRoute st req).2.items =
      (updateItemStatuses (Swap.acceptSwap st req.now swap (sanitized req.responseMessage)).2
        req.now r (swap.offeredItemId.bind st.findItem)).items := by
  unfold acceptSwapRoute
  simp only [hvalid, hfind, hpend, hrec, hitem, Bool.not_true, ne_eq, not_true_eq_false,
    if_false, Bool.false_eq_true]
  split
  · rfl
  · rename_i h4
    simp [Notification.createSwapAcceptedNotification, transferPoints_items h4]

/-- The swap collection after an accept that got past the checks. -/
theorem acceptSwapRoute_swaps_of_pending (st : State) (req : RespondRequest) (swap : Swap)
    (hvalid : optionalMaxLength req.responseMessage 500 = true)
    (hfind : st.findSwap req.id = some swap)
    (hpend : swap.status = SwapStatus.Pending)
    (hrec : swap.recipientId = req.user.id) :
    (acceptSwapRoute st req).2.swaps =
      (Swap.acceptSwap st req.now swap (sanitized req.responseMessage)).2.swaps := by
  unfold acceptSwapRoute
  simp only [hvalid, hfind, hpend, hrec, Bool.not_true, ne_eq, not_true_eq_false,
    if_false, Bool.false_eq_true]
  split
  · rfl
  · split
    · simp
    · rename_i h4
      simp [Notification.createSwapAcceptedNotification, transferPoints_swaps h4]

theorem bind_findItem_id {st : State} {o : Option ObjectId} {j : ObjectId}
    (h : (o.bind st.findItem).map (fun it => it.id) = some j) : o = some j := by
  cases o with
  | none => simp at h
  | some k =>
    simp only [Option.some_bind] at h
    cases hk : st.findItem k with
    | none => simp [hk] at h
    | some it =>
      simp only [hk, Option.map_some', Option.some.injEq] at h
      rw [← h, findItem_id hk]

theorem bind_findItem_of_stored {st : State} {k : ObjectId} (h : (st.findItem k).isSome) :
    ((some k).bind st.findItem).map (fun it => it.id) = some k := by
  cases hk : st.findItem k with
  | none => simp [hk] at h
  | some it => simp [hk, findItem_id hk]

/-- C3 fails as stated: the recipient's accept request on a Pending swap is refused with 400
when its responseMessage is longer than 500 characters; the swap stays Pending and the
requested item stays Available. -/
theorem C3_accept_with_invalid_body_refused :
    statusOf exampleStore 101 = some SwapStatus.Pending ∧
    (exampleStore.findSwap 101).map (fun s => s.recipientId) = some bob.id ∧
    (acceptSwapRoute exampleStore
      { user := bob, id := 101, responseMessage := some longText }).1.status = 400 ∧
    statusOf (acceptSwapRoute exampleStore
      { user := bob, id := 101, responseMessage := some longText }).2 101
      = some SwapStatus.Pending ∧
    itemStatusOf (acceptSwapRoute exampleStore
      { user := bob, id := 101, responseMessage := some longText }).2 10
      = some ItemStatus.Available := by
  decide

/-- C3, amended: for every swap with status Pending whose requested item is stored, an accept
request by its recipient that passes the route's validator (a responseMessage of at most 500
characters once trimmed) sets the swap's status to Accepted, sets the requested item's status
to Swapped and, when the swap has a stored offered item, sets the offered item's status to
Swapped too; no other item's status changes. -/
theorem C3_accept_flips_items (st : State) (req : RespondRequest) (swap : Swap) (r : Item)
    (hvalid : optionalMaxLength req.responseMessage 500 = true)
    (hfind : st.findSwap req.id = some swap)
    (hpend : swap.status = SwapStatus.Pending)
    (hrec : swap.recipientId = req.user.id)
    (hitem : st.findItem swap.requestedItemId = some r) :
    statusOf (acceptSwapRoute st req).2 req.id = some SwapStatus.Accepted ∧
    itemStatusOf (acceptSwapRoute st req).2 swap.requestedItemId = some ItemStatus.Swapped ∧
    (∀ o, swap.offeredItemId = some o → (st.findItem o).isSome →
      itemStatusOf (acceptSwapRoute st req).2 o = some ItemStatus.Swapped) ∧
    (∀ j, j ≠ swap.requestedItemId → swap.offeredItemId ≠ some j →
      itemStatusOf (acceptSwapRoute st req).2 j = itemStatusOf st j) := by
  have hid := findSwap_id hfind
  have hswaps := acceptSwapRoute_swaps_of_pending st req swap hvalid hfind hpend hrec
  have hitems := acceptSwapRoute_items st req swap r hvalid hfind hpend hrec hitem
  have hrid := findItem_id hitem
  have key : ∀ j, itemStatusOf (acceptSwapRoute st req).2 j =
      if j = r.id ∨ (swap.offeredItemId.bind st.findItem).map (fun it => it.id) = some j then
        (itemStatusOf st j).map (fun _ => ItemStatus.Swapped)
      else itemStatusOf st j := by
    intro j
    rw [itemStatusOf_congr hitems j, itemStatusOf_updateItemStatuses]
    have hsame : ∀ k, itemStatusOf
        (Swap.acceptSwap st req.now swap (sanitized req.responseMessage)).2 k
          = itemStatusOf st k := fun k => itemStatusOf_congr rfl k
    simp only [hsame]
  refine ⟨?_, ?_, ?_, ?_⟩
  · have hlook := findSwap_of_swaps_eq hswaps req.id
    simp only [hid, if_true, hfind, Option.map_some'] at hlook
    rw [statusOf, hlook]
    simp [preSave_status]
  · rw [key, if_pos (Or.inl hrid.symm)]
    simp [itemStatusOf, hitem]
  · intro o ho hstored
    rw [key, if_pos (Or.inr (by rw [ho]; exact bind_findItem_of_stored hstored))]
    cases ho' : st.findItem o with
    | none => simp [ho'] at hstored
    | some it => simp [itemStatusOf, ho']
  · intro j hj hoff
    have hno : ¬ (j = r.id ∨
        (swap.offeredItemId.bind st.findItem).map (fun it => it.id) = some j) := by
      rintro (h | h)
      · exact hj (h.trans hrid)
      · exact hoff (bind_findItem_id h)
    rw [key, if_neg hno]

/-- C3, amended, at Bob accepting Alice's direct-swap request: the swap becomes Accepted, the
coat and the scarf become Swapped. -/
theorem C3_accept_flips_items_witness :
    (optionalMaxLength (none : Option String) 500 = true ∧
      exampleStore.findSwap 101 = some pendingDirect ∧
      pendingDirect.status = SwapStatus.Pending ∧ pendingDirect.recipientId = bob.id ∧
      exampleStore.findItem pendingDirect.requestedItemId = some coat) ∧
    (statusOf (acceptSwapRoute exampleStore { user := bob, id := 101 }).2 101
        = some SwapStatus.Accepted ∧
      itemStatusOf (acceptSwapRoute exampleStore { user := bob, id := 101 }).2
          pendingDirect.requestedItemId = some ItemStatus.Swapped ∧
      (∀ o, pendingDirect.offeredItemId = some o → (exampleStore.findItem o).isSome →
        itemStatusOf (acceptSwapRoute exampleStore { user := bob, id := 101 }).2 o
          = some ItemStatus.Swapped) ∧
      (∀ j, j ≠ pendingDirect.requestedItemId → pendingDirect.offeredItemId ≠ some j →
        itemStatusOf (acceptSwapRoute exampleStore { user := bob, id := 101 }).2 j
          = itemStatusOf exampleStore j)) :=
  ⟨⟨by decide, by decide, by decide, by decide, by decide⟩,
    C3_accept_flips_items exampleStore { user := bob, id := 101 } pendingDirect coat
      (by decide) (by decide) (by decide) (by decide) (by decide)⟩

/-! ## Accepting a swap: points (claim C4) -/

theorem sum_map_updateFirst {α : Type} (p : α → Bool) (f : α → α) (g : α → Int) (δ : Int)
    (hg : ∀ x, g (f x) = g x + δ) (l : List α) :
    ((updateFirst p f l).map g).sum =
      (l.map g).sum + if (l.find? p).isSome then δ else 0 := by
  induction l with
  | nil => simp [updateFirst]
  | cons x xs ih =>
    by_cases hx : p x = true
    · simp only [updateFirst, hx, if_true, List.map_cons, List.sum_cons, hg, List.find?_cons,
        Option.isSome_some]
      omega
    · have hx' : p x = false := by simpa using hx
      simp only [updateFirst, hx', List.map_cons, List.sum_cons, ih, List.find?_cons,
        Bool.false_eq_true, if_false]
      omega

theorem findUser_userUpdate (st : State) (now : Nat) (k j : ObjectId) (f : User → User)
    (hf : ∀ u, (f u).id = u.id) :
    (User.findByIdAndUpdate st now k f).findUser j =
      if j = k then (st.findUser k).map (fun u => { f u with updatedAt := now })
      else st.findUser j := by
  unfold User.findByIdAndUpdate State.findUser
  exact find?_updateFirst (fun u : User => u.id) k j
    (fun u => { f u with updatedAt := now }) (fun u h => by simp [hf u, h]) st.users

theorem pointsOf_userUpdate (st : State) (now : Nat) (k j : ObjectId) (f : User → User)
    (δ : Int) (hf : ∀ u, (f u).id = u.id) (hp : ∀ u, (f u).points = u.points + δ) :
    pointsOf (User.findByIdAndUpdate st now k f) j =
      if j = k then (pointsOf st k).map (fun a => a + δ) else pointsOf st j := by
  unfold pointsOf
  rw [findUser_userUpdate st now k j f hf]
  by_cases hj : j = k
  · simp only [hj, if_true]
    cases st.findUser k with
    | none => rfl
    | some u => simp [hp]
  · simp only [hj, if_false]

theorem totalPoints_userUpdate (st : State) (now : Nat) (k : ObjectId) (f : User → User)
    (δ : Int) (hp : ∀ u, (f u).points = u.points + δ) :
    totalPoints (User.findByIdAndUpdate st now k f) =
      totalPoints st + if (st.findUser k).isSome then δ else 0 := by
  unfold totalPoints User.findByIdAndUpdate State.findUser
  exact sum_map_updateFirst (fun u : User => u.id == k) (fun u => { f u with updatedAt := now })
    (fun u => u.points) δ (fun u => hp u) st.users

theorem pointsOf_congr {st1 st2 : State} (h : st1.users = st2.users) (i : ObjectId) :
    pointsOf st1 i = pointsOf st2 i := by
  simp [pointsOf, State.findUser, h]

theorem totalPoints_congr {st1 st2 : State} (h : st1.users = st2.users) :
    totalPoints st1 = totalPoints st2 := by
  simp [totalPoints, h]

theorem findUser_congr {st1 st2 : State} (h : st1.users = st2.users) (i : ObjectId) :
    st1.findUser i = st2.findUser i := by
  simp [State.findUser, h]

theorem pointsOf_credit (st : State) (now : Nat) (k j : ObjectId) :
    pointsOf (User.findByIdAndUpdate st now k creditSwap) j = pointsOf st j := by
  rw [pointsOf_userUpdate st now k j creditSwap 0 (fun _ => rfl) (fun _ => by simp [creditSwap])]
  by_cases hj : j = k
  · subst hj
    cases pointsOf st j <;> simp
  · simp [hj]

theorem pointsOf_updateUserStats (st : State) (now : Nat) (swap : Swap) (j : ObjectId) :
    pointsOf (updateUserStats st now swap) j = pointsOf st j := by
  unfold updateUserStats
  rw [pointsOf_credit, pointsOf_credit]

theorem totalPoints_updateUserStats (st : State) (now : Nat) (swap : Swap) :
    totalPoints (updateUserStats st now swap) = totalPoints st := by
  unfold updateUserStats
  rw [totalPoints_userUpdate _ now _ creditSwap 0 (fun _ => by simp [creditSwap]),
    totalPoints_userUpdate _ now _ creditSwap 0 (fun _ => by simp [creditSwap])]
  simp

/-- What a `200` answer of the accept handler says about the request and the final store. -/
theorem acceptSwapRoute_ok (st : State) (req : RespondRequest)
    (h200 : (acceptSwapRoute st req).1.status = 200) :
    ∃ swap r st4, optionalMaxLength req.responseMessage 500 = true ∧
      st.findSwap req.id = some swap ∧ swap.status = SwapStatus.Pending ∧
      swap.recipientId = req.user.id ∧ st.findItem swap.requestedItemId = some r ∧
      transferPoints
        (updateItemStatuses (Swap.acceptSwap st req.now swap (sanitized req.responseMessage)).2
          req.now r (swap.offeredItemId.bind st.findItem))
        req.now (Swap.acceptSwap st req.now swap (sanitized req.responseMessage)).1 = some st4 ∧
      (acceptSwapRoute st req).2 =
        Notification.createSwapAcceptedNotification
          (updateUserStats st4 req.now
            (Swap.acceptSwap st req.now swap (sanitized req.responseMessage)).1)
          (Swap.acceptSwap st req.now swap (sanitized req.responseMessage)).1.initiatorId
          (Swap.acceptSwap st req.now swap (sanitized req.responseMessage)).1.id r.title := by
  unfold acceptSwapRoute at h200 ⊢
  split at h200
  · simp at h200
  · rename_i hvalid
    split at h200
    · simp at h200
    · rename_i swap hfind
      split at h200
      · simp at h200
      · rename_i hrec
        split at h200
        · simp at h200
        · rename_i hst
          simp only [] at h200
          split at h200
          · simp at h200
          · rename_i r hitem
            split at h200
            · simp at h200
            · rename_i st4 h4
              refine ⟨swap, r, st4, by simpa using hvalid, hfind, by simpa using hst,
                by simpa using hrec, hitem, h4, ?_⟩
              have hvalid' : optionalMaxLength req.responseMessage 500 = true := by
                simpa using hvalid
              have hst' : swap.status = SwapStatus.Pending := by simpa using hst
              have hrec' : swap.recipientId = req.user.id := by simpa using hrec
              simp only [hvalid', hfind, hst', hrec', hitem, h4, Bool.not_true, ne_eq,
                not_true_eq_false, if_false, Bool.false_eq_true]

theorem acceptSwap_fst_fields (st : State) (now : Nat) (swap : Swap) (m : Option String) :
    (Swap.acceptSwap st now swap m).1.swapType = swap.swapType ∧
    (Swap.acceptSwap st now swap m).1.pointsOffered = swap.pointsOffered ∧
    (Swap.acceptSwap st now swap m).1.initiatorId = swap.initiatorId ∧
    (Swap.acceptSwap st now swap m).1.recipientId = swap.recipientId ∧
    (Swap.acceptSwap st now swap m).1.id = swap.id := by
  unfold Swap.acceptSwap Swap.save Swap.preSave
  simp only []
  split <;> exact ⟨rfl, rfl, rfl, rfl, rfl⟩

/-- Balances after the points block of a points redemption. -/
theorem pointsOf_transferPoints {st st4 : State} {now : Nat} {swap : Swap} {p : Int}
    (h : transferPoints st now swap = some st4)
    (htype : swap.swapType = SwapType.PointsRedemption)
    (hp : swap.pointsOffered = some p) (j : ObjectId) :
    pointsOf st4 j =
      if j = swap.recipientId then
        (if swap.recipientId = swap.initiatorId then
          (pointsOf st swap.initiatorId).map (fun a => a + -p)
         else pointsOf st swap.recipientId).map (fun a => a + p)
      else if j = swap.initiatorId then (pointsOf st swap.initiatorId).map (fun a => a + -p)
      else pointsOf st j := by
  unfold transferPoints at h
  simp only [htype, hp, Option.some.injEq] at h
  rw [← h]
  rw [pointsOf_userUpdate _ now swap.recipientId j (incPoints p) p (fun _ => rfl)
    (fun _ => rfl)]
  by_cases hj : j = swap.recipientId
  · simp only [hj, if_true]
    rw [pointsOf_userUpdate _ now swap.initiatorId swap.recipientId (incPoints (-p)) (-p)
      (fun _ => rfl) (fun _ => rfl)]
  · simp only [hj, if_false]
    rw [pointsOf_userUpdate _ now swap.initiatorId j (incPoints (-p)) (-p) (fun _ => rfl)
      (fun _ => rfl)]

/-- The total after the points block of a points redemption between two stored users. -/
theorem totalPoints_transferPoints {st st4 : State} {now : Nat} {swap : Swap} {p : Int}
    (h : transferPoints st now swap = some st4)
    (htype : swap.swapType = SwapType.PointsRedemption)
    (hp : swap.pointsOffered = some p)
    (hinit : (st.findUser swap.initiatorId).isSome)
    (hrcp : (st.findUser swap.recipientId).isSome) :
    totalPoints st4 = totalPoints st := by
  unfold transferPoints at h
  simp only [htype, hp, Option.some.injEq] at h
  rw [← h]
  rw [totalPoints_userUpdate _ now swap.recipientId (incPoints p) p (fun _ => rfl),
    totalPoints_userUpdate _ now swap.initiatorId (incPoints (-p)) (-p) (fun _ => rfl)]
  have hrcp' : ((User.findByIdAndUpdate st now swap.initiatorId
      (incPoints (-p))).findUser swap.recipientId).isSome := by
    rw [findUser_userUpdate _ now swap.initiatorId swap.recipientId (incPoints (-p))
      (fun _ => rfl)]
    by_cases hsame : swap.recipientId = swap.initiatorId
    · simp only [hsame, if_true]
      cases hu : st.findUser swap.initiatorId with
      | none => simp [hu] at hinit
      | some u => simp
    · simp only [hsame, if_false]
      exact hrcp
  simp only [hinit, hrcp', if_true]
  omega

/-- The points block leaves the user collection alone for a direct swap. -/
theorem transferPoints_direct {st st4 : State} {now : Nat} {swap : Swap}
    (h : transferPoints st now swap = some st4)
    (htype : swap.swapType = SwapType.DirectSwap) : st4 = st := by
  unfold transferPoints at h
  simp only [htype, Option.some.injEq] at h
  exact h.symm

/-- Balances and total after a `200` accept, in terms of the store the points block started
from and the one it produced. -/
theorem acceptSwapRoute_ok_points (st : State) (req : RespondRequest) (swap : Swap)
    (hfind : st.findSwap req.id = some swap)
    (h200 : (acceptSwapRoute st req).1.status = 200) :
    ∃ st3 st4 saved, st3.users = st.users ∧ transferPoints st3 req.now saved = some st4 ∧
      saved.swapType = swap.swapType ∧ saved.pointsOffered = swap.pointsOffered ∧
      saved.initiatorId = swap.initiatorId ∧ saved.recipientId = swap.recipientId ∧
      (∀ j, pointsOf (acceptSwapRoute st req).2 j = pointsOf st4 j) ∧
      totalPoints (acceptSwapRoute st req).2 = totalPoints st4 := by
  obtain ⟨swap', r, st4, _, hfind', _, _, _, h4, hfinal⟩ := acceptSwapRoute_ok st req h200
  have hsame : swap' = swap := by
    rw [hfind] at hfind'
    exact (Option.some.inj hfind').symm
  subst hsame
  have hf := acceptSwap_fst_fields st req.now swap' (sanitized req.responseMessage)
  refine ⟨_, st4, _, ?_, h4, hf.1, hf.2.1, hf.2.2.1, hf.2.2.2.1, ?_, ?_⟩
  · simp [Swap.acceptSwap]
  · intro j
    rw [hfinal, ← pointsOf_updateUserStats st4 req.now
      (Swap.acceptSwap st req.now swap' (sanitized req.responseMessage)).1 j]
    exact pointsOf_congr rfl j
  · rw [hfinal, ← totalPoints_updateUserStats st4 req.now
      (Swap.acceptSwap st req.now swap' (sanitized req.responseMessage)).1]
    exact totalPoints_congr rfl

/-- C4: for every Pending swap of type Points Redemption with pointsOffered = p, a successful
accept (answer 200) decreases the initiator's points by exactly p and increases the
recipient's points by exactly p, no other balance changes, and the sum of all users' points is
unchanged; for every Pending swap of type Direct Swap a successful accept changes no user's
points.  (The two parties of a swap are distinct users and both are stored.) -/
theorem C4_accept_transfers_points (st : State) (req : RespondRequest) (swap : Swap)
    (hfind : st.findSwap req.id = some swap)
    (hpend : swap.status = SwapStatus.Pending)
    (h200 : (acceptSwapRoute st req).1.status = 200) :
    (∀ p, swap.swapType = SwapType.PointsRedemption → swap.pointsOffered = some p →
      (swap.initiatorId ≠ swap.recipientId →
        pointsOf (acceptSwapRoute st req).2 swap.initiatorId
          = (pointsOf st swap.initiatorId).map (fun a => a - p) ∧
        pointsOf (acceptSwapRoute st req).2 swap.recipientId
          = (pointsOf st swap.recipientId).map (fun b => b + p)) ∧
      (∀ j, j ≠ swap.initiatorId → j ≠ swap.recipientId →
        pointsOf (acceptSwapRoute st req).2 j = pointsOf st j) ∧
      ((st.findUser swap.initiatorId).isSome → (st.findUser swap.recipientId).isSome →
        totalPoints (acceptSwapRoute st req).2 = totalPoints st)) ∧
    (swap.swapType = SwapType.DirectSwap →
      (∀ j, pointsOf (acceptSwapRoute st req).2 j = pointsOf st j) ∧
      totalPoints (acceptSwapRoute st req).2 = totalPoints st) := by
  obtain ⟨st3, st4, saved, husers, h4, htype, hpts, hini, hrcp, hpoints, htotal⟩ :=
    acceptSwapRoute_ok_points st req swap hfind h200
  have _ := hpend
  have hbase : ∀ j, pointsOf st3 j = pointsOf st j := fun j => pointsOf_congr husers j
  refine ⟨fun p hPR hp => ?_, fun hDS => ?_⟩
  · have key := fun j => pointsOf_transferPoints h4 (htype.trans hPR) (hpts.trans hp) j
    simp only [hini, hrcp, hbase] at key
    refine ⟨fun hne => ⟨?_, ?_⟩, fun j h1 h2 => ?_, fun hi hr => ?_⟩
    · rw [hpoints, key, if_neg hne, if_pos rfl]
      cases pointsOf st swap.initiatorId with
      | none => rfl
      | some a => simp [Int.sub_eq_add_neg]
    · rw [hpoints, key, if_pos rfl, if_neg (Ne.symm hne)]
    · rw [hpoints, key, if_neg h2, if_neg h1]
    · rw [htotal]
      have := totalPoints_transferPoints h4 (htype.trans hPR) (hpts.trans hp)
        (by rw [hini, findUser_congr husers]; exact hi)
        (by rw [hrcp, findUser_congr husers]; exact hr)
      rw [this]
      exact totalPoints_congr husers
  · have h := transferPoints_direct h4 (htype.trans hDS)
    refine ⟨fun j => ?_, ?_⟩
    · rw [hpoints, h, hbase]
    · rw [htotal, h]
      exact totalPoints_congr husers

/-- C4 at Bob accepting Alice's redemption of 5 points: Alice's balance goes from 10 to 5,
Bob's from 10 to 15. -/
theorem C4_accept_transfers_points_witness :
    (exampleStore.findSwap 100 = some pendingRedemption ∧
      pendingRedemption.status = SwapStatus.Pending ∧
      (acceptSwapRoute exampleStore { user := bob, id := 100 }).1.status = 200) ∧
    pointsOf exampleStore 1 = some 10 ∧ pointsOf exampleStore 2 = some 10 ∧
    pointsOf (acceptSwapRoute exampleStore { user := bob, id := 100 }).2 1 = some 5 ∧
    pointsOf (acceptSwapRoute exampleStore { user := bob, id := 100 }).2 2 = some 15 ∧
    totalPoints (acceptSwapRoute exampleStore { user := bob, id := 100 }).2
      = totalPoints exampleStore :=
  have h := C4_accept_transfers_points exampleStore { user := bob, id := 100 } pendingRedemption
    (by decide) (by decide) (by decide)
  have hp := h.1 5 (by decide) (by decide)
  ⟨⟨by decide, by decide, by decide⟩, by decide, by decide,
    (hp.1 (by decide)).1.trans (by decide), (hp.1 (by decide)).2.trans (by decide),
    hp.2.2 (by decide) (by decide)⟩

/-! ## Refusals of accept and reject (claims C5 and C6) -/

theorem acceptSwapRoute_not_pending (st : State) (req : RespondRequest) (swap : Swap)
    (hfind : st.findSwap req.id = some swap)
    (hnot : swap.status ≠ SwapStatus.Pending)
    (hrec : swap.recipientId = req.user.id) :
    (acceptSwapRoute st req).1.status = 400 ∧ (acceptSwapRoute st req).2 = st := by
  unfold acceptSwapRoute
  split
  · exact ⟨rfl, rfl⟩
  · simp [hfind, hrec, hnot]

/-- The swap as stored after an accept that answered `200`. -/
theorem acceptSwapRoute_ok_stored (st : State) (req : RespondRequest)
    (h200 : (acceptSwapRoute st req).1.status = 200) :
    ∃ saved, (acceptSwapRoute st req).2.findSwap req.id = some saved ∧
      saved.status = SwapStatus.Accepted ∧ saved.recipientId = req.user.id := by
  obtain ⟨swap, _, _, hvalid, hfind, hpend, hrec, _, _, _⟩ := acceptSwapRoute_ok st req h200
  have hswaps := acceptSwapRoute_swaps_of_pending st req swap hvalid hfind hpend hrec
  have hlook := findSwap_of_swaps_eq hswaps req.id
  simp only [findSwap_id hfind, if_true, hfind, Option.map_some'] at hlook
  refine ⟨_, hlook, ?_, ?_⟩
  · simp [preSave_status]
  · rw [← hrec]
    unfold Swap.preSave
    split <;> rfl

/-- C5: for every swap whose status is not Pending, an accept request by its recipient
responds 400 and leaves the whole store (the swap, every item, every user with points and
stats) unchanged; hence once an accept has succeeded, a second accept of the same swap by the
recipient responds 400 and changes nothing, so the items are flipped, the points transferred
and the stats credited exactly once. -/
theorem C5_accept_only_once (st : State) (req : RespondRequest) :
    (∀ swap, st.findSwap req.id = some swap → swap.status ≠ SwapStatus.Pending →
      swap.recipientId = req.user.id →
      (acceptSwapRoute st req).1.status = 400 ∧ (acceptSwapRoute st req).2 = st) ∧
    (∀ again : RespondRequest, again.id = req.id → again.user.id = req.user.id →
      (acceptSwapRoute st req).1.status = 200 →
      (acceptSwapRoute (acceptSwapRoute st req).2 again).1.status = 400 ∧
      (acceptSwapRoute (acceptSwapRoute st req).2 again).2 = (acceptSwapRoute st req).2) := by
  refine ⟨fun swap hfind hnot hrec => acceptSwapRoute_not_pending st req swap hfind hnot hrec,
    fun again hid huser h200 => ?_⟩
  obtain ⟨saved, hlook, hstatus, hrec⟩ := acceptSwapRoute_ok_stored st req h200
  exact acceptSwapRoute_not_pending _ again saved (by rw [hid]; exact hlook)
    (by rw [hstatus]; decide) (by rw [hrec, huser])

/-- C5 at Bob accepting the rejected swap, and at Bob accepting Alice's redemption twice. -/
theorem C5_accept_only_once_witness :
    ((exampleStore.findSwap 102 = some rejectedSwap ∧
        rejectedSwap.status ≠ SwapStatus.Pending ∧ rejectedSwap.recipientId = bob.id) ∧
      (acceptSwapRoute exampleStore { user := bob, id := 102 }).1.status = 400 ∧
      (acceptSwapRoute exampleStore { user := bob, id := 102 }).2 = exampleStore) ∧
    ((acceptSwapRoute exampleStore { user := bob, id := 100 }).1.status = 200 ∧
      (acceptSwapRoute (acceptSwapRoute exampleStore { user := bob, id := 100 }).2
        { user := bob, id := 100 }).1.status = 400 ∧
      (acceptSwapRoute (acceptSwapRoute exampleStore { user := bob, id := 100 }).2
        { user := bob, id := 100 }).2
        = (acceptSwapRoute exampleStore { user := bob, id := 100 }).2) :=
  ⟨⟨⟨by decide, by decide, by decide⟩,
      (C5_accept_only_once exampleStore { user := bob, id := 102 }).1 rejectedSwap
        (by decide) (by decide) (by decide)⟩,
    ⟨by decide,
      (C5_accept_only_once exampleStore { user := bob, id := 100 }).2 { user := bob, id := 100 }
        rfl rfl (by decide)⟩⟩

/-- C6: for every existing swap whose status is not Pending, a reject request by its
recipient responds 400 and leaves the swap's status and responseMessage unchanged and creates
no notification; indeed the whole store is unchanged. -/
theorem C6_reject_non_pending (st : State) (req : RespondRequest) (swap : Swap)
    (hfind : st.findSwap req.id = some swap)
    (hnot : swap.status ≠ SwapStatus.Pending)
    (hrec : swap.recipientId = req.user.id) :
    (rejectSwapRoute st req).1.status = 400 ∧
    (rejectSwapRoute st req).2.findSwap req.id = some swap ∧
    (rejectSwapRoute st req).2.notifications = st.notifications ∧
    (rejectSwapRoute st req).2 = st := by
  have h : (rejectSwapRoute st req).1.status = 400 ∧ (rejectSwapRoute st req).2 = st := by
    unfold rejectSwapRoute
    split
    · exact ⟨rfl, rfl⟩
    · simp [hfind, hrec, hnot]
  refine ⟨h.1, ?_, ?_, h.2⟩
  · rw [h.2]; exact hfind
  · rw [h.2]

/-- C6 at Bob rejecting the completed swap. -/
theorem C6_reject_non_pending_witness :
    (exampleStore.findSwap 103 = some completedSwap ∧
      completedSwap.status ≠ SwapStatus.Pending ∧ completedSwap.recipientId = bob.id) ∧
    (rejectSwapRoute exampleStore { user := bob, id := 103 }).1.status = 400 ∧
    (rejectSwapRoute exampleStore { user := bob, id := 103 }).2.findSwap 103
      = some completedSwap ∧
    (rejectSwapRoute exampleStore { user := bob, id := 103 }).2.notifications
      = exampleStore.notifications ∧
    (rejectSwapRoute exampleStore { user := bob, id := 103 }).2 = exampleStore :=
  ⟨⟨by decide, by decide, by decide⟩,
    C6_reject_non_pending exampleStore { user := bob, id := 103 } completedSwap
      (by decide) (by decide) (by decide)⟩

/-! ## Creating a swap (claims C7 and C8) -/

/-- A create request that is not answered `201` leaves the store unchanged. -/
theorem createSwap_refused (st : State) (req : CreateSwapRequest)
    (h : (createSwap st req).1.status ≠ 201) : (createSwap st req).2 = st := by
  unfold createSwap at h ⊢
  split
  · rfl
  · split
    · rfl
    · split
      · rfl
      · split
        · rfl
        · simp only []
          split
          · rfl
          · split
            · rfl
            · rename_i hvalid _ item hitem havail hown _ href hexist
              simp only [hvalid, hitem, havail, hown, href, hexist] at h
              simp at h

/-- What a `201` answer of the create handler says about the request and the new swap. -/
theorem createSwap_created (st : State) (req : CreateSwapRequest)
    (h : (createSwap st req).1.status = 201) :
    ∃ item, st.findItem req.requestedItemId = some item ∧ item.ownerId ≠ req.user.id ∧
      (req.swapType = SwapType.PointsRedemption →
        ∃ p, req.pointsOffered = some p ∧ 0 < p ∧ p ≤ req.user.points ∧
          item.pointsRequired ≤ p) ∧
      (createSwap st req).2.swaps = st.swaps ++ [newSwap st req item.ownerId] := by
  unfold createSwap at h ⊢
  split at h
  · simp at h
  · rename_i hvalid
    split at h
    · simp at h
    · rename_i item hitem
      split at h
      · simp at h
      · rename_i havail
        split at h
        · simp at h
        · rename_i hown
          simp only [] at h
          split at h
          · rename_i r href
            exfalso
            revert href h
            cases req.swapType with
            | DirectSwap =>
              simp only []
              cases req.offeredItemId with
              | none => simp only []; intro h1 h2; cases h1; simp at h2
              | some o =>
                simp only []
                cases st.findItem o with
                | none => simp only []; intro h1 h2; cases h1; simp at h2
                | some off =>
                  simp only []
                  split
                  · intro h1 h2; cases h1; simp at h2
                  · split
                    · intro h1 h2; cases h1; simp at h2
                    · intro h1; cases h1
            | PointsRedemption =>
              simp only []
              cases req.pointsOffered with
              | none => simp only []; intro h1 h2; cases h1; simp at h2
              | some p =>
                simp only []
                split
                · intro h1 h2; cases h1; simp at h2
                · split
                  · intro h1 h2; cases h1; simp at h2
                  · split
                    · intro h1 h2; cases h1; simp at h2
                    · intro h1; cases h1
          · rename_i href
            split at h
            · simp at h
            · rename_i hexist
              refine ⟨item, hitem, hown, ?_, ?_⟩
              · intro hPR
                rw [hPR] at href
                simp only [] at href
                cases hp : req.pointsOffered with
                | none => rw [hp] at href; simp at href
                | some p =>
                  rw [hp] at href
                  simp only [] at href
                  split at href
                  · cases href
                  · rename_i h1
                    split at href
                    · cases href
                    · rename_i h2
                      split at href
                      · cases href
                      · rename_i h3
                        exact ⟨p, rfl, by omega, by omega, by omega⟩
              · simp only [hvalid, hitem, havail, hown, href, hexist, if_false,
                  Notification.createSwapRequestNotification, createNotification_swaps,
                  Bool.false_eq_true]

theorem newSwap_fields (st : State) (req : CreateSwapRequest) (r : ObjectId) :
    (newSwap st req r).initiatorId = req.user.id ∧
    (newSwap st req r).recipientId = r ∧
    (newSwap st req r).requestedItemId = req.requestedItemId ∧
    (newSwap st req r).swapType = req.swapType ∧
    (newSwap st req r).status = SwapStatus.Pending ∧
    (newSwap st req r).pointsOffered
      = (if req.swapType = SwapType.DirectSwap then none else req.pointsOffered) := by
  unfold newSwap Swap.preSave
  split <;> exact ⟨rfl, rfl, rfl, rfl, rfl, rfl⟩

/-- C7: for every create-swap request of type Points Redemption whose pointsOffered is less
than the requested item's pointsRequired, the request is refused with 400 and the store is
unchanged (no swap is created); and every swap the handler creates (answer 201) of type Points
Redemption has pointsOffered >= the requested item's pointsRequired and pointsOffered <= the
initiator's points balance, both read when the request is served. -/
theorem C7_points_cover_cost (st : State) (req : CreateSwapRequest) :
    (∀ item p, st.findItem req.requestedItemId = some item →
      req.swapType = SwapType.PointsRedemption → req.pointsOffered = some p →
      p < item.pointsRequired →
      (createSwap st req).1.status = 400 ∧ (createSwap st req).2 = st) ∧
    ((createSwap st req).1.status = 201 →
      ∃ item sw, st.findItem req.requestedItemId = some item ∧
        (createSwap st req).2.swaps = st.swaps ++ [sw] ∧
        (sw.swapType = SwapType.PointsRedemption →
          ∃ p, sw.pointsOffered = some p ∧ item.pointsRequired ≤ p ∧ p ≤ req.user.points)) := by
  refine ⟨fun item p hitem hPR hp hlt => ?_, fun h201 => ?_⟩
  · unfold createSwap
    split
    · exact ⟨rfl, rfl⟩
    · simp only [hitem]
      split
      · exact ⟨rfl, rfl⟩
      · split
        · exact ⟨rfl, rfl⟩
        · simp only [hPR, hp]
          split_ifs <;> exact ⟨rfl, rfl⟩
  · obtain ⟨item, hitem, _, hpts, hswaps⟩ := createSwap_created st req h201
    refine ⟨item, newSwap st req item.ownerId, hitem, hswaps, fun hsw => ?_⟩
    have hf := newSwap_fields st req item.ownerId
    have hPR : req.swapType = SwapType.PointsRedemption := hf.2.2.2.1 ▸ hsw
    obtain ⟨p, hp, _, hbal, hcost⟩ := hpts hPR
    refine ⟨p, ?_, hcost, hbal⟩
    rw [hf.2.2.2.2.2, hPR, hp]
    simp

/-- C7 at Alice offering 4 points for Bob's 5-point coat (refused) and 5 points (created). -/
theorem C7_points_cover_cost_witness :
    ((emptySwapsStore.findItem aliceOffers4.requestedItemId = some coat ∧
        aliceOffers4.swapType = SwapType.PointsRedemption ∧
        aliceOffers4.pointsOffered = some 4 ∧ (4 : Int) < coat.pointsRequired) ∧
      (createSwap emptySwapsStore aliceOffers4).1.status = 400 ∧
      (createSwap emptySwapsStore aliceOffers4).2
        = emptySwapsStore) ∧
    ((createSwap emptySwapsStore aliceOffers5).1.status = 201 ∧
      ∃ item sw, emptySwapsStore.findItem 10 = some item ∧
        (createSwap emptySwapsStore aliceOffers5).2.swaps
          = emptySwapsStore.swaps ++ [sw] ∧
        (sw.swapType = SwapType.PointsRedemption →
          ∃ p, sw.pointsOffered = some p ∧ item.pointsRequired ≤ p ∧ p ≤ alice.points)) :=
  ⟨⟨⟨by decide, by decide, by decide, by decide⟩,
      (C7_points_cover_cost emptySwapsStore aliceOffers4).1 coat 4
        (by decide) (by decide) (by decide) (by decide)⟩,
    ⟨by decide,
      (C7_points_cover_cost emptySwapsStore aliceOffers5).2 (by decide)⟩⟩

/-- C8: for every create-swap request whose requested item is owned by the requesting user,
the request is refused with 400 and the store is unchanged (no swap is created); and every swap
the handler creates (answer 201) has initiatorId different from recipientId, and recipientId
equal to the owner of the requested item. -/
theorem C8_no_self_swap (st : State) (req : CreateSwapRequest) :
    (∀ item, st.findItem req.requestedItemId = some item → item.ownerId = req.user.id →
      (createSwap st req).1.status = 400 ∧ (createSwap st req).2 = st) ∧
    ((createSwap st req).1.status = 201 →
      ∃ item sw, st.findItem req.requestedItemId = some item ∧
        (createSwap st req).2.swaps = st.swaps ++ [sw] ∧
        sw.initiatorId = req.user.id ∧ sw.recipientId = item.ownerId ∧
        sw.initiatorId ≠ sw.recipientId) := by
  refine ⟨fun item hitem hown => ?_, fun h201 => ?_⟩
  · unfold createSwap
    split
    · exact ⟨rfl, rfl⟩
    · simp only [hitem]
      split
      · exact ⟨rfl, rfl⟩
      · simp [hown]
  · obtain ⟨item, hitem, hown, _, hswaps⟩ := createSwap_created st req h201
    have hf := newSwap_fields st req item.ownerId
    refine ⟨item, newSwap st req item.ownerId, hitem, hswaps, hf.1, hf.2.1, ?_⟩
    rw [hf.1, hf.2.1]
    exact fun h => hown h.symm

/-- C8 at Bob asking for his own coat (refused) and Alice asking for it (created). -/
theorem C8_no_self_swap_witness :
    ((emptySwapsStore.findItem 10 = some coat ∧ coat.ownerId = bob.id) ∧
      (createSwap emptySwapsStore bobAsksOwnCoat).1.status = 400 ∧
      (createSwap emptySwapsStore bobAsksOwnCoat).2
        = emptySwapsStore) ∧
    ((createSwap emptySwapsStore aliceOffersScarf).1.status = 201 ∧
      ∃ item sw, emptySwapsStore.findItem 10 = some item ∧
        (createSwap emptySwapsStore aliceOffersScarf).2.swaps
          = emptySwapsStore.swaps ++ [sw] ∧
        sw.initiatorId = alice.id ∧ sw.recipientId = item.ownerId ∧
        sw.initiatorId ≠ sw.recipientId) :=
  ⟨⟨⟨by decide, by decide⟩,
      (C8_no_self_swap emptySwapsStore bobAsksOwnCoat).1 coat
        (by decide) (by decide)⟩,
    ⟨by decide,
      (C8_no_self_swap emptySwapsStore aliceOffersScarf).2 (by decide)⟩⟩

/-! ## Item ownership (claim C9) -/

/-- C9 fails as stated: a non-owner's update whose body fails validation (a title of two
characters) is answered 400, not 403. -/
theorem C9_non_owner_invalid_update_gets_400 :
    exampleStore.findItem carolShortTitle.id = some coat ∧
    coat.ownerId ≠ carolShortTitle.user.id ∧
    (updateItem parseFails exampleStore carolShortTitle).1.status = 400 := by
  decide

/-- C9, amended: for every existing item and every authenticated user who is not its owner,
an update request responds 403 when its body passes the route's validators and 400 when it
does not, a delete request responds 403, and in each case the whole store (the item and the
user's stats) is unchanged, whatever the request body. -/
theorem C9_non_owner_cannot_edit (jsonParse : List String → Option (List String))
    (st : State) (item : Item) :
    (∀ req : UpdateItemRequest, st.findItem req.id = some item → item.ownerId ≠ req.user.id →
      (updateItem jsonParse st req).1.status = (if validUpdateItem req then 403 else 400) ∧
      (updateItem jsonParse st req).2 = st) ∧
    (∀ req : DeleteItemRequest, st.findItem req.id = some item → item.ownerId ≠ req.user.id →
      (deleteItem st req).1.status = 403 ∧ (deleteItem st req).2 = st) := by
  refine ⟨fun req hfind hown => ?_, fun req hfind hown => ?_⟩
  · unfold updateItem
    by_cases hvalid : validUpdateItem req = true
    · simp [hvalid, hfind, hown]
    · simp [hvalid]
  · unfold deleteItem
    simp [hfind, hown]

/-- C9, amended, at Carol updating and deleting Bob's coat. -/
theorem C9_non_owner_cannot_edit_witness :
    ((exampleStore.findItem carolRetitles.id = some coat ∧
        coat.ownerId ≠ carolRetitles.user.id) ∧
      (updateItem parseFails exampleStore carolRetitles).1.status = 403 ∧
      (updateItem parseFails exampleStore carolRetitles).2 = exampleStore) ∧
    ((exampleStore.findItem carolDeletes.id = some coat ∧
        coat.ownerId ≠ carolDeletes.user.id) ∧
      (deleteItem exampleStore carolDeletes).1.status = 403 ∧
      (deleteItem exampleStore carolDeletes).2 = exampleStore) :=
  ⟨⟨⟨by decide, by decide⟩,
      ⟨((C9_non_owner_cannot_edit parseFails exampleStore coat).1 carolRetitles
          (by decide) (by decide)).1.trans (by decide),
        ((C9_non_owner_cannot_edit parseFails exampleStore coat).1 carolRetitles
          (by decide) (by decide)).2⟩⟩,
    ⟨⟨by decide, by decide⟩,
      (C9_non_owner_cannot_edit parseFails exampleStore coat).2 carolDeletes
        (by decide) (by decide)⟩⟩

/-! ## Primary image (claim C10) -/

theorem countP_eq_zero_of_any_false (images : List Image)
    (h : images.any (fun img => img.isPrimary) = false) : countPrimary images = 0 := by
  unfold countPrimary
  rw [List.countP_eq_zero]
  intro img himg
  have := List.any_eq_false.mp h img himg
  simpa using this

theorem countP_pos_of_any_true (images : List Image)
    (h : images.any (fun img => img.isPrimary) = true) : 1 ≤ countPrimary images := by
  unfold countPrimary
  obtain ⟨img, himg, hp⟩ := List.any_eq_true.mp h
  exact List.countP_pos_iff.mpr ⟨img, himg, hp⟩

/-- Primary images after the save hook, by cases on the list before it. -/
theorem countPrimary_preSave (item : Item) :
    countPrimary item.preSave.images =
      if item.images = [] then 0
      else if item.images.any (fun img => img.isPrimary) then countPrimary item.images
      else 1 := by
  unfold Item.preSave
  cases himgs : item.images with
  | nil => simp [countPrimary, himgs]
  | cons img rest =>
    by_cases hany : (img :: rest).any (fun img => img.isPrimary) = true
    · simp only [hany, not_true_eq_false, and_false, if_false, himgs, if_true, reduceCtorEq]
    · have hany' : (img :: rest).any (fun img => img.isPrimary) = false := by simpa using hany
      have hzero := countP_eq_zero_of_any_false _ hany'
      have hrest : countPrimary rest = 0 := by
        unfold countPrimary at hzero ⊢
        rw [List.countP_eq_zero] at hzero ⊢
        exact fun a ha => hzero a (List.mem_cons_of_mem _ ha)
      simp only [hany', List.length_cons, gt_iff_lt, Nat.zero_lt_succ, Bool.false_eq_true,
        not_false_eq_true, and_self, if_true, if_false, reduceCtorEq]
      unfold countPrimary at hrest ⊢
      simp [List.countP_cons, hrest]

theorem countPrimary_enumFrom (results : List UploadResult) (n : Nat) (hn : 0 < n) :
    countPrimary ((results.enumFrom n).map (fun (index, result) =>
      ({ url := result.url, publicId := result.publicId, isPrimary := index == 0 } : Image)))
      = 0 := by
  induction results generalizing n with
  | nil => rfl
  | cons r rs ih =>
    have hne : (n == 0) = false := by simpa using Nat.pos_iff_ne_zero.mp hn
    have := ih (n + 1) (Nat.succ_pos n)
    unfold countPrimary at this ⊢
    simp [List.enumFrom, List.countP_cons, hne, this]

/-- C10 fails as stated: an item saved without images has no primary image after the hook, and
an item with two images flagged primary keeps both. -/
theorem C10_hook_does_not_force_one_primary :
    countPrimary bareItem.preSave.images = 0 ∧ countPrimary twoPrimaries.preSave.images = 2 := by
  decide

/-- C10, amended: for every non-empty image list, after the Item pre-save hook runs at least
one image has isPrimary = true, and exactly one when at most one image was flagged before the
hook; the list built by uploadMultipleImages from a non-empty upload has exactly one primary
image. -/
theorem C10_primary_image (item : Item) (hne : item.images ≠ []) :
    1 ≤ countPrimary item.preSave.images ∧
    (countPrimary item.images ≤ 1 → countPrimary item.preSave.images = 1) ∧
    (∀ results : List UploadResult, results ≠ [] →
      countPrimary (uploadMultipleImages results) = 1) := by
  have key := countPrimary_preSave item
  rw [if_neg hne] at key
  refine ⟨?_, fun hle => ?_, fun results hres => ?_⟩
  · rw [key]
    split
    · rename_i hany
      exact countP_pos_of_any_true _ hany
    · exact Nat.le_refl 1
  · rw [key]
    split
    · rename_i hany
      exact Nat.le_antisymm hle (countP_pos_of_any_true _ hany)
    · rfl
  · cases results with
    | nil => exact absurd rfl hres
    | cons r rs =>
      have htail := countPrimary_enumFrom rs 1 Nat.one_pos
      unfold uploadMultipleImages
      unfold countPrimary at htail ⊢
      simp [List.enum, List.enumFrom, List.countP_cons, htail]

/-- C10, amended, at an item with two images of which none is flagged. -/
theorem C10_primary_image_witness :
    noPrimary.images ≠ [] ∧
    (1 ≤ countPrimary noPrimary.preSave.images ∧
      (countPrimary noPrimary.images ≤ 1 → countPrimary noPrimary.preSave.images = 1) ∧
      (∀ results : List UploadResult, results ≠ [] →
        countPrimary (uploadMultipleImages results) = 1)) :=
  ⟨by decide, C10_primary_image noPrimary (by decide)⟩

/-! ## Creating and editing items (claims C11 and C12) -/

theorem itemPreSave_fields (item : Item) :
    item.preSave.status = item.status ∧ item.preSave.isApproved = item.isApproved ∧
    item.preSave.ownerId = item.ownerId ∧ item.preSave.id = item.id := by
  unfold Item.preSave
  split
  · split <;> exact ⟨rfl, rfl, rfl, rfl⟩
  · exact ⟨rfl, rfl, rfl, rfl⟩

theorem itemCreate_fields {st : State} {req : CreateItemRequest} {images : List Image}
    {tags : List String} {item : Item} (h : Item.create st req images tags = some item) :
    item.status = ItemStatus.Pending ∧ item.isApproved = false ∧ item.ownerId = req.user.id := by
  unfold Item.create at h
  split at h
  · cases h
  · rename_i item0 hdata
    split at h
    · cases h
      have hf := itemPreSave_fields item0
      unfold itemData at hdata
      split at hdata
      · cases hdata
      · cases hdata
        exact ⟨hf.1, hf.2.1, hf.2.2.1⟩
    · cases h

/-- What a `201` answer of the create-item handler says about the final store. -/
theorem createItem_created (host : UploadedFile → Option UploadResult)
    (jsonParse : String → Option (List String)) (st : State) (req : CreateItemRequest)
    (h201 : (createItem host jsonParse st req).1.status = 201) :
    ∃ item images tags, Item.create st req images tags = some item ∧
      (createItem host jsonParse st req).2 =
        User.findByIdAndUpdate
          { st with items := st.items ++ [item], nextId := st.nextId + 1 }
          req.now req.user.id (incItemsListed 1) := by
  unfold createItem at h201 ⊢
  split at h201
  · simp at h201
  · rename_i h1
    split at h201
    · simp at h201
    · rename_i h2
      split at h201
      · simp at h201
      · rename_i results hup
        simp only [] at h201
        split at h201
        · simp at h201
        · rename_i tags htags
          split at h201
          · simp at h201
          · rename_i item hitem
            refine ⟨item, _, tags, hitem, ?_⟩
            simp only [h1, h2, hup, htags, hitem, if_false, Bool.false_eq_true]

/-- C11: for every create-item request that succeeds (answer 201), whatever fields the request
body carries (including status, isApproved and ownerId), the created item has status Pending,
isApproved = false and ownerId equal to the requesting user's id, and the requesting user's
stats.itemsListed grows by exactly 1. -/
theorem C11_created_item_is_pending (host : UploadedFile → Option UploadResult)
    (jsonParse : String → Option (List String)) (st : State) (req : CreateItemRequest)
    (h201 : (createItem host jsonParse st req).1.status = 201) :
    ∃ item, (createItem host jsonParse st req).2.items = st.items ++ [item] ∧
      item.status = ItemStatus.Pending ∧ item.isApproved = false ∧
      item.ownerId = req.user.id ∧
      ∀ u, st.findUser req.user.id = some u →
        ((createItem host jsonParse st req).2.findUser req.user.id).map
            (fun v => v.stats.itemsListed) = some (u.stats.itemsListed + 1) := by
  obtain ⟨item, images, tags, hitem, hfinal⟩ := createItem_created host jsonParse st req h201
  have hf := itemCreate_fields hitem
  refine ⟨item, by rw [hfinal]; rfl, hf.1, hf.2.1, hf.2.2, fun u hu => ?_⟩
  rw [hfinal, findUser_userUpdate _ req.now req.user.id req.user.id (incItemsListed 1)
    (fun _ => rfl)]
  have hu' : State.findUser { st with items := st.items ++ [item], nextId := st.nextId + 1 }
      req.user.id = some u := hu
  simp [hu', incItemsListed]

/-- C11 at Carol listing a hat with `status: Available`, `isApproved: true` and `ownerId: 2` in
the body. -/
theorem C11_created_item_is_pending_witness :
    (createItem exampleHost parseTextFails exampleStore carolListsHat).1.status = 201 ∧
    ∃ item, (createItem exampleHost parseTextFails exampleStore carolListsHat).2.items
        = exampleStore.items ++ [item] ∧
      item.status = ItemStatus.Pending ∧ item.isApproved = false ∧
      item.ownerId = carolListsHat.user.id ∧
      ∀ u, exampleStore.findUser carolListsHat.user.id = some u →
        ((createItem exampleHost parseTextFails exampleStore carolListsHat).2.findUser
            carolListsHat.user.id).map (fun v => v.stats.itemsListed)
          = some (u.stats.itemsListed + 1) :=
  ⟨by decide,
    C11_created_item_is_pending exampleHost parseTextFails exampleStore carolListsHat
      (by decide)⟩

/-- What a `200` answer of the update-item handler says about the item and the final store. -/
theorem updateItem_ok (jsonParse : List String → Option (List String)) (st : State)
    (req : UpdateItemRequest) (h200 : (updateItem jsonParse st req).1.status = 200) :
    ∃ item tags status, st.findItem req.id = some item ∧ item.ownerId = req.user.id ∧
      (match (if item.isApproved then some "Pending" else req.status) with
        | none => some none
        | some text => (ItemStatus.ofString text).map some) = some status ∧
      (updateItem jsonParse st req).2 =
        Item.findByIdAndUpdate st req.now req.id
          (applyUpdate req tags status (if item.isApproved then some false else req.isApproved))
      := by
  unfold updateItem at h200 ⊢
  split at h200
  · simp at h200
  · rename_i hvalid
    split at h200
    · simp at h200
    · rename_i item hfind
      split at h200
      · simp at h200
      · rename_i hown
        split at h200
        · simp at h200
        · rename_i hsw
          simp only [] at h200
          split at h200
          · simp at h200
          · rename_i tags htags
            split at h200
            · simp at h200
            · rename_i status hstatus
              refine ⟨item, tags, status, hfind, by simpa using hown, hstatus, ?_⟩
              simp only [hvalid, hfind, hown, hsw, htags, hstatus, if_false, Bool.false_eq_true]

/-- C12 fails as stated: the owner's update of an item that is not approved succeeds with 200
and leaves its status as it was, here Removed after an admin's rejection, not Pending. -/
theorem C12_edit_of_unapproved_item_keeps_status :
    moderationStore.findItem 12 = some rejectedHat ∧
    rejectedHat.ownerId = carolRenamesHat.user.id ∧
    (updateItem parseFails moderationStore carolRenamesHat).1.status = 200 ∧
    itemStatusOf (updateItem parseFails moderationStore carolRenamesHat).2 12
      = some ItemStatus.Removed := by
  decide

/-- C12, amended: for every item that is approved and every update request by its owner that
succeeds (answer 200), whatever fields the request body carries, the resulting item has status
Pending and isApproved = false; for an item that is not approved, a successful update whose
body carries neither status nor isApproved leaves the item's status and isApproved = false
unchanged. -/
theorem C12_edit_resets_approved_item (jsonParse : List String → Option (List String))
    (st : State) (req : UpdateItemRequest) (item : Item)
    (hfind : st.findItem req.id = some item)
    (h200 : (updateItem jsonParse st req).1.status = 200) :
    ∃ item', (updateItem jsonParse st req).2.findItem req.id = some item' ∧
      (item.isApproved = true →
        item'.status = ItemStatus.Pending ∧ item'.isApproved = false) ∧
      (item.isApproved = false → req.status = none → req.isApproved = none →
        item'.status = item.status ∧ item'.isApproved = false) := by
  obtain ⟨item0, tags, status, hfind0, _, hstatus, hfinal⟩ := updateItem_ok jsonParse st req h200
  have hsame : item0 = item := by
    rw [hfind] at hfind0
    exact (Option.some.inj hfind0).symm
  subst hsame
  have hlook := findItem_itemUpdate st req.now req.id req.id
    (applyUpdate req tags status (if item0.isApproved then some false else req.isApproved))
    (fun _ => rfl)
  rw [← hfinal, if_pos rfl, hfind] at hlook
  refine ⟨_, hlook, fun happ => ?_, fun hnot hs hi => ?_⟩
  · rw [happ] at hstatus
    simp only [if_true, ItemStatus.ofString, Option.map_some', Option.some.injEq] at hstatus
    subst hstatus
    simp [applyUpdate, happ]
  · rw [hnot, hs] at hstatus
    simp only [Bool.false_eq_true, if_false, Option.some.injEq] at hstatus
    subst hstatus
    simp [applyUpdate, hnot, hi]

/-- C12, amended, at Bob renaming his approved coat with `status: Available` and
`isApproved: true` in the body: the coat goes back to Pending and unapproved. -/
theorem C12_edit_resets_approved_item_witness :
    (exampleStore.findItem bobRenamesCoat.id = some coat ∧
      (updateItem parseFails exampleStore bobRenamesCoat).1.status = 200) ∧
    ∃ item', (updateItem parseFails exampleStore bobRenamesCoat).2.findItem bobRenamesCoat.id
        = some item' ∧
      (coat.isApproved = true →
        item'.status = ItemStatus.Pending ∧ item'.isApproved = false) ∧
      (coat.isApproved = false → bobRenamesCoat.status = none →
        bobRenamesCoat.isApproved = none →
        item'.status = coat.status ∧ item'.isApproved = false) :=
  ⟨⟨by decide, by decide⟩,
    C12_edit_resets_approved_item parseFails exampleStore bobRenamesCoat coat
      (by decide) (by decide)⟩

/-! ## Admin check (claim C13) -/

/-- C13: in both implementations requireAdmin passes control to the next handler if and only if
the request carries an authenticated user who is an admin (role admin, respectively isAdmin
true); for an authenticated non-admin user it responds 403 and does not call next. -/
theorem C13_requireAdmin_admits_admins_only (user : Option User) (tokenUser : Option AuthenticatedUser) :
    (requireAdmin user = MiddlewareResult.next ↔ ∃ u, user = some u ∧ u.role = Role.admin) ∧
    (∀ u : User, requireAdmin (some u) =
      if u.role = Role.admin then MiddlewareResult.next
      else MiddlewareResult.respond { status := 403, error := some "Admin access required" }) ∧
    (RewearExchange.requireAdmin tokenUser = MiddlewareResult.next ↔
      ∃ u, tokenUser = some u ∧ u.isAdmin = true) ∧
    (∀ u : AuthenticatedUser, RewearExchange.requireAdmin (some u) =
      if u.isAdmin = true then MiddlewareResult.next
      else MiddlewareResult.respond { status := 403, error := some "Admin access required" }) := by
  refine ⟨?_, ?_, ?_, ?_⟩
  · cases user with
    | none => simp [requireAdmin]
    | some u =>
      by_cases h : u.role = Role.admin <;> simp [requireAdmin, h]
  · intro u
    by_cases h : u.role = Role.admin <;> simp [requireAdmin, h]
  · cases tokenUser with
    | none => simp [RewearExchange.requireAdmin]
    | some u =>
      by_cases h : u.isAdmin = true <;> simp [RewearExchange.requireAdmin, h]
  · intro u
    by_cases h : u.isAdmin = true <;> simp [RewearExchange.requireAdmin, h]

/-- C13 at an ordinary user in each implementation: both are answered 403. -/
theorem C13_requireAdmin_admits_admins_only_witness :
    requireAdmin (some alice)
      = MiddlewareResult.respond { status := 403, error := some "Admin access required" } ∧
    RewearExchange.requireAdmin (some tokenAlice)
      = MiddlewareResult.respond { status := 403, error := some "Admin access required" } :=
  ⟨((C13_requireAdmin_admits_admins_only none none).2.1 alice).trans (by decide),
    ((C13_requireAdmin_admits_admins_only none none).2.2.2 tokenAlice).trans (by decide)⟩

/-! ## Refusals by participant and by missing swap (claims C14 and C15) -/

/-- C14 fails as stated: the initiator's accept request on a Pending swap is answered 400, not
403, when its responseMessage is longer than 500 characters. -/
theorem C14_non_recipient_invalid_body_gets_400 :
    statusOf exampleStore aliceAcceptsLong.id = some SwapStatus.Pending ∧
    (exampleStore.findSwap aliceAcceptsLong.id).map (fun s => s.recipientId) = some bob.id ∧
    aliceAcceptsLong.user.id ≠ bob.id ∧
    (acceptSwapRoute exampleStore aliceAcceptsLong).1.status = 400 := by
  decide

/-- C14, amended: for every swap with status Pending and every authenticated user who is not
the swap's recipient (including its initiator), an accept or reject request responds 403 when
its body passes the route's validator (a responseMessage of at most 500 characters once
trimmed) and 400 when it does not, and in each case leaves the whole store (the swap, all items
and all users) unchanged. -/
theorem C14_non_recipient_refused (st : State) (req : RespondRequest) (swap : Swap)
    (hfind : st.findSwap req.id = some swap)
    (hpend : swap.status = SwapStatus.Pending)
    (hnot : swap.recipientId ≠ req.user.id) :
    (acceptSwapRoute st req).1.status
        = (if optionalMaxLength req.responseMessage 500 then 403 else 400) ∧
    (acceptSwapRoute st req).2 = st ∧
    (rejectSwapRoute st req).1.status
        = (if optionalMaxLength req.responseMessage 500 then 403 else 400) ∧
    (rejectSwapRoute st req).2 = st := by
  have _ := hpend
  unfold acceptSwapRoute rejectSwapRoute
  by_cases hvalid : optionalMaxLength req.responseMessage 500 = true
  · simp [hvalid, hfind, hnot]
  · simp [hvalid]

/-- C14, amended, at Alice trying to accept and to reject her own request. -/
theorem C14_non_recipient_refused_witness :
    (exampleStore.findSwap aliceAccepts.id = some pendingDirect ∧
      pendingDirect.status = SwapStatus.Pending ∧
      pendingDirect.recipientId ≠ aliceAccepts.user.id) ∧
    (acceptSwapRoute exampleStore aliceAccepts).1.status = 403 ∧
    (acceptSwapRoute exampleStore aliceAccepts).2 = exampleStore ∧
    (rejectSwapRoute exampleStore aliceAccepts).1.status = 403 ∧
    (rejectSwapRoute exampleStore aliceAccepts).2 = exampleStore :=
  have h := C14_non_recipient_refused exampleStore aliceAccepts pendingDirect
    (by decide) (by decide) (by decide)
  ⟨⟨by decide, by decide, by decide⟩, h.1.trans (by decide), h.2.1,
    h.2.2.1.trans (by decide), h.2.2.2⟩

/-- C15 fails as stated: an accept request for a swap id that matches no stored swap is
answered 400, not 404, when its responseMessage is longer than 500 characters. -/
theorem C15_missing_swap_invalid_body_gets_400 :
    exampleStore.findSwap bobAcceptsMissingLong.id = none ∧
    (SwapOp.run exampleStore (SwapOp.accept bobAcceptsMissingLong)).1.status = 400 := by
  decide

/-- C15, amended: for every well-formed swap id that matches no stored swap, each of accept,
reject, complete, cancel and post-message responds 404 whatever the requesting user when the
body passes the route's validators (complete has none) and 400 when it does not (the validators
come first, then the missing-resource check, before the 403 participant check and the 400 status
check), and changes no stored state. -/
theorem C15_missing_swap_refused (st : State) (op : SwapOp)
    (hnone : st.findSwap op.id = none) :
    (op.run st).1.status = (if op.validBody then 404 else 400) ∧ (op.run st).2 = st := by
  cases op with
  | accept req =>
    simp only [SwapOp.id] at hnone
    simp only [SwapOp.run, SwapOp.validBody, acceptSwapRoute]
    by_cases hvalid : optionalMaxLength req.responseMessage 500 = true
    · simp [hvalid, hnone]
    · simp [hvalid]
  | reject req =>
    simp only [SwapOp.id] at hnone
    simp only [SwapOp.run, SwapOp.validBody, rejectSwapRoute]
    by_cases hvalid : optionalMaxLength req.responseMessage 500 = true
    · simp [hvalid, hnone]
    · simp [hvalid]
  | complete req =>
    simp only [SwapOp.id] at hnone
    simp [SwapOp.run, SwapOp.validBody, completeSwapRoute, hnone]
  | cancel req =>
    simp only [SwapOp.id] at hnone
    simp only [SwapOp.run, SwapOp.validBody, cancelSwapRoute]
    by_cases hvalid : optionalMaxLength req.reason 200 = true
    · simp [hvalid, hnone]
    · simp [hvalid]
  | message req =>
    simp only [SwapOp.id] at hnone
    simp only [SwapOp.run, SwapOp.validBody, messageRoute]
    by_cases hvalid : validChatMessage req.message = true
    · simp [hvalid, hnone]
    · simp [hvalid]

/-- C15, amended, at Bob cancelling a swap that does not exist. -/
theorem C15_missing_swap_refused_witness :
    exampleStore.findSwap (SwapOp.id (SwapOp.cancel bobCancelsMissing)) = none ∧
    (SwapOp.run exampleStore (SwapOp.cancel bobCancelsMissing)).1.status = 404 ∧
    (SwapOp.run exampleStore (SwapOp.cancel bobCancelsMissing)).2 = exampleStore :=
  have h := C15_missing_swap_refused exampleStore (SwapOp.cancel bobCancelsMissing) (by decide)
  ⟨by decide, h.1.trans (by decide), h.2⟩

/-! ## Profile updates (claim C16) -/

theorem buildUpdateData_keys (body : List (String × JVal)) (kv : String × JVal)
    (h : kv ∈ buildUpdateData body) : kv.1 ∈ allowedFields := by
  unfold buildUpdateData at h
  rw [List.mem_filterMap] at h
  obtain ⟨field, hfield, hmap⟩ := h
  cases hl : body.lookup field with
  | none => simp [hl] at hmap
  | some v =>
    simp only [hl, Option.map_some', Option.some.injEq] at hmap
    rw [← hmap]
    exact hfield

/-- Setting an allowed path leaves the protected fields of a user alone. -/
theorem castPath_frame (casts : SchemaCasts) (path : String) (value : JVal) (f : User → User)
    (hpath : path ∈ allowedFields) (h : User.castPath casts path value = some f) (u : User) :
    (f u).id = u.id ∧ (f u).points = u.points ∧ (f u).role = u.role ∧
    (f u).badges = u.badges ∧ (f u).stats = u.stats ∧ (f u).email = u.email ∧
    (f u).firebaseUid = u.firebaseUid := by
  simp only [allowedFields, List.mem_cons, List.mem_singleton, List.not_mem_nil, or_false]
    at hpath
  rcases hpath with hp | hp | hp | hp <;> subst hp <;>
    simp only [User.castPath, if_true, String.reduceEq, if_false, Option.map_eq_some'] at h <;>
    obtain ⟨x, _, hx⟩ := h <;> subst hx <;> exact ⟨rfl, rfl, rfl, rfl, rfl, rfl, rfl⟩

/-- An update document whose keys are all allowed leaves the protected fields alone. -/
theorem castUpdate_frame (casts : SchemaCasts) (updateData : List (String × JVal))
    (hkeys : ∀ kv ∈ updateData, kv.1 ∈ allowedFields) (f : User → User)
    (h : User.castUpdate casts updateData = some f) (u : User) :
    (f u).id = u.id ∧ (f u).points = u.points ∧ (f u).role = u.role ∧
    (f u).badges = u.badges ∧ (f u).stats = u.stats ∧ (f u).email = u.email ∧
    (f u).firebaseUid = u.firebaseUid := by
  induction updateData generalizing f u with
  | nil =>
    simp only [User.castUpdate, Option.some.injEq] at h
    subst h
    exact ⟨rfl, rfl, rfl, rfl, rfl, rfl, rfl⟩
  | cons kv rest ih =>
    obtain ⟨path, value⟩ := kv
    unfold User.castUpdate at h
    split at h
    · rename_i f1 g hf1 hg
      cases h
      have h1 := castPath_frame casts path value f1
        (hkeys (path, value) (List.mem_cons_self _ _)) hf1 u
      have h2 := ih (fun kv hkv => hkeys kv (List.mem_cons_of_mem _ hkv)) g hg (f1 u)
      obtain ⟨a1, a2, a3, a4, a5, a6, a7⟩ := h1
      obtain ⟨b1, b2, b3, b4, b5, b6, b7⟩ := h2
      exact ⟨b1.trans a1, b2.trans a2, b3.trans a3, b4.trans a4, b5.trans a5, b6.trans a6,
        b7.trans a7⟩
    · cases h

/-- C16: for every request body, the update document the profile-update handlers build from it
contains no key outside name, avatar, preferences and location; so, whatever the route's
validators and the schema casts do, a profile update leaves every stored user's points, role,
badges, stats, email and firebaseUid unchanged, and leaves items, swaps and notifications
untouched. -/
theorem C16_profile_update_frame (validate : List (String × JVal) → Bool) (casts : SchemaCasts)
    (st : State) (req : ProfileRequest) :
    (∀ kv ∈ buildUpdateData req.body, kv.1 ∈ allowedFields) ∧
    (putProfile validate casts st req).2.items = st.items ∧
    (putProfile validate casts st req).2.swaps = st.swaps ∧
    (putProfile validate casts st req).2.notifications = st.notifications ∧
    (∀ j u, st.findUser j = some u →
      ∃ u', (putProfile validate casts st req).2.findUser j = some u' ∧
        u'.points = u.points ∧ u'.role = u.role ∧ u'.badges = u.badges ∧
        u'.stats = u.stats ∧ u'.email = u.email ∧ u'.firebaseUid = u.firebaseUid) := by
  have hkeys := buildUpdateData_keys req.body
  refine ⟨hkeys, ?_⟩
  unfold putProfile
  split
  · exact ⟨rfl, rfl, rfl, fun j u hu => ⟨u, hu, rfl, rfl, rfl, rfl, rfl, rfl⟩⟩
  · simp only []
    split
    · exact ⟨rfl, rfl, rfl, fun j u hu => ⟨u, hu, rfl, rfl, rfl, rfl, rfl, rfl⟩⟩
    · rename_i update hcast
      split
      · exact ⟨rfl, rfl, rfl, fun j u hu => ⟨u, hu, rfl, rfl, rfl, rfl, rfl, rfl⟩⟩
      · refine ⟨rfl, rfl, rfl, fun j u hu => ?_⟩
        have hframe := castUpdate_frame casts _ hkeys update hcast
        rw [findUser_userUpdate st req.now req.user.id j update (fun v => (hframe v).1)]
        by_cases hj : j = req.user.id
        · subst hj
          simp only [if_true, hu, Option.map_some']
          obtain ⟨_, b2, b3, b4, b5, b6, b7⟩ := hframe u
          exact ⟨_, rfl, b2, b3, b4, b5, b6, b7⟩
        · simp only [hj, if_false]
          exact ⟨u, hu, rfl, rfl, rfl, rfl, rfl, rfl⟩

/-- C16 at Alice sending `points: 1000` and `role: admin` with her new name: the name changes,
points and role do not. -/
theorem C16_profile_update_frame_witness :
    (putProfile (fun _ => true) exampleCasts exampleStore aliceGrantsHerself).1.status = 200 ∧
    ((putProfile (fun _ => true) exampleCasts exampleStore aliceGrantsHerself).2.findUser 1).map
        (fun u => (u.name, u.points, u.role)) = some ("Alice A.", 10, Role.user) ∧
    ∀ kv ∈ buildUpdateData aliceGrantsHerself.body, kv.1 ∈ allowedFields :=
  ⟨by decide, by decide,
    (C16_profile_update_frame (fun _ => true) exampleCasts exampleStore aliceGrantsHerself).1⟩

/-! ## Admin routes (claims C17 and C18) -/

theorem find?_deleteFirst {α : Type} (key : α → ObjectId) (k j : ObjectId) (hjk : j ≠ k)
    (l : List α) :
    (deleteFirst (fun x => key x == k) l).find? (fun x => key x == j) =
      l.find? (fun x => key x == j) := by
  induction l with
  | nil => rfl
  | cons x xs ih =>
    by_cases hx : key x = k
    · have h1 : (key x == k) = true := by simpa using hx
      have h2 : (key x == j) = false := by
        simpa using fun h : key x = j => hjk (h.symm.trans hx)
      simp only [deleteFirst, h1, if_true, List.find?_cons, h2]
    · have h1 : (key x == k) = false := by simpa using hx
      simp only [deleteFirst, h1, List.find?_cons, ih, Bool.false_eq_true, if_false]

theorem not_mem_deleteFirst_of_nodup {α : Type} (key : α → ObjectId) (k : ObjectId)
    (l : List α) (hnodup : (l.map key).Nodup) :
    ∀ x ∈ deleteFirst (fun x => key x == k) l, key x ≠ k := by
  induction l with
  | nil => intro x hx; simp [deleteFirst] at hx
  | cons y ys ih =>
    rw [List.map_cons, List.nodup_cons] at hnodup
    by_cases hy : key y = k
    · have h1 : (key y == k) = true := by simpa using hy
      simp only [deleteFirst, h1, if_true]
      intro x hx hxk
      exact hnodup.1 (List.mem_map.mpr ⟨x, hx, hxk.trans hy.symm⟩)
    · have h1 : (key y == k) = false := by simpa using hy
      simp only [deleteFirst, h1, Bool.false_eq_true, if_false, List.mem_cons]
      rintro x (hx | hx)
      · rw [hx]; exact hy
      · exact ih hnodup.2 x hx

theorem findUser_userSave (st : State) (now : Nat) (u : User) (j : ObjectId) :
    (User.save st now u).findUser j =
      if j = u.id then (st.findUser u.id).map (fun _ => { u with updatedAt := now })
      else st.findUser j := by
  unfold User.save State.findUser
  exact find?_updateFirst (fun d : User => d.id) u.id j
    (fun _ => { u with updatedAt := now }) (fun _ _ => rfl) st.users

theorem roleOf_congr {st1 st2 : State} (h : st1.users = st2.users) (i : ObjectId) :
    roleOf st1 i = roleOf st2 i := by
  simp [roleOf, State.findUser, h]

theorem adminApproveItem_users (st : State) (req : ApproveItemRequest) :
    (adminApproveItem st req).2.users = st.users := by
  unfold adminApproveItem
  split
  · rfl
  · split <;> rfl

theorem adminRejectItem_users (st : State) (req : RejectItemRequest) :
    (adminRejectItem st req).2.users = st.users := by
  unfold adminRejectItem
  simp only []
  split
  · rfl
  · split
    · rfl
    · split <;> rfl

theorem putUserRole_self_demotion (st : State) (req : RoleRequest) (stored : User)
    (hfind : st.findUser req.id = some stored) (hself : req.id = req.user.id)
    (hrole : req.role = some "user") :
    (putUserRole st req).1.status = 400 ∧ (putUserRole st req).2 = st := by
  have hid := findUser_id hfind
  rw [hself] at hid
  unfold putUserRole
  rw [hfind]
  simp [hrole, hid]

theorem deleteUser_self (st : State) (req : DeleteUserRequest) (stored : User)
    (hfind : st.findUser req.id = some stored) (hself : req.id = req.user.id) :
    (deleteUser st req).1.status = 400 ∧ (deleteUser st req).2 = st := by
  have hid := findUser_id hfind
  rw [hself] at hid
  unfold deleteUser
  rw [hfind]
  simp [hid]

theorem putUserRole_keeps_admin (st : State) (req : RoleRequest) (stored : User)
    (hfind : st.findUser req.user.id = some stored) (hrole : stored.role = Role.admin) :
    roleOf (putUserRole st req).2 req.user.id = some Role.admin := by
  have hbase : roleOf st req.user.id = some Role.admin := by simp [roleOf, hfind, hrole]
  unfold putUserRole
  split
  · exact hbase
  · split
    · exact hbase
    · rename_i target htarget
      have htid := findUser_id htarget
      split
      · exact hbase
      · rename_i hguard
        split
        · exact hbase
        · rename_i role hcast
          unfold roleOf
          rw [findUser_userSave]
          by_cases hj : req.user.id = target.id
          · have hsame : target = stored := by
              rw [htid] at hj
              rw [← hj, hfind] at htarget
              exact (Option.some.inj htarget).symm
            have hnotuser : req.role ≠ some "user" := fun h => hguard ⟨hj.symm, h⟩
            have hadmin : role = Role.admin := by
              cases hr : req.role with
              | none => simp [hr] at hcast
              | some text =>
                rw [hr] at hcast hnotuser
                simp only [Option.some_bind] at hcast
                unfold Role.ofString at hcast
                split at hcast
                · exact absurd rfl hnotuser
                · exact (Option.some.inj hcast).symm
                · cases hcast
            simp only [hj, if_true, htid, htarget, Option.map_some', hadmin]
          · simp only [hj, if_false]
            exact hbase

theorem deleteUser_keeps_admin (st : State) (req : DeleteUserRequest) (stored : User)
    (hfind : st.findUser req.user.id = some stored) (hrole : stored.role = Role.admin) :
    roleOf (deleteUser st req).2 req.user.id = some Role.admin := by
  have hbase : roleOf st req.user.id = some Role.admin := by simp [roleOf, hfind, hrole]
  unfold deleteUser
  split
  · exact hbase
  · rename_i target htarget
    split
    · exact hbase
    · rename_i hne
      unfold roleOf State.findUser
      simp only []
      rw [find?_deleteFirst (fun u : User => u.id) target.id req.user.id (fun h => hne h.symm)]
      exact hbase

/-- C17: for every admin user A, a role-change request by A that targets A with role 'user'
responds 400 and leaves the store, hence A's role 'admin', unchanged, and a delete-user request
by A that targets A responds 400 and deletes nothing; and after any state-changing admin-route
request made by A (approve item, reject item, set role, delete user, whatever its target and
body) A is still stored with role 'admin'. -/
theorem C17_admin_keeps_access (st : State) (admin stored : User)
    (hfind : st.findUser admin.id = some stored) (hrole : stored.role = Role.admin) :
    (∀ req : RoleRequest, req.user = admin → req.id = admin.id → req.role = some "user" →
      (putUserRole st req).1.status = 400 ∧ (putUserRole st req).2 = st) ∧
    (∀ req : DeleteUserRequest, req.user = admin → req.id = admin.id →
      (deleteUser st req).1.status = 400 ∧ (deleteUser st req).2 = st) ∧
    (∀ op : AdminOp, op.user = admin → roleOf (op.run st).2 admin.id = some Role.admin) := by
  have hbase : roleOf st admin.id = some Role.admin := by simp [roleOf, hfind, hrole]
  refine ⟨fun req hu hid hr => ?_, fun req hu hid => ?_, fun op hu => ?_⟩
  · exact putUserRole_self_demotion st req stored (by rw [hid]; exact hfind)
      (by rw [hid, hu]) hr
  · exact deleteUser_self st req stored (by rw [hid]; exact hfind) (by rw [hid, hu])
  · cases op with
    | approveItem req =>
      exact (roleOf_congr (adminApproveItem_users st req) admin.id).trans hbase
    | rejectItem req =>
      exact (roleOf_congr (adminRejectItem_users st req) admin.id).trans hbase
    | setRole req =>
      simp only [AdminOp.user] at hu
      subst hu
      exact putUserRole_keeps_admin st req stored hfind hrole
    | deleteUser req =>
      simp only [AdminOp.user] at hu
      subst hu
      exact deleteUser_keeps_admin st req stored hfind hrole

/-- C17 at Dana asking to demote herself and to delete herself. -/
theorem C17_admin_keeps_access_witness :
    (adminStore.findUser dana.id = some dana ∧ dana.role = Role.admin) ∧
    ((putUserRole adminStore danaDemotesHerself).1.status = 400 ∧
      (putUserRole adminStore danaDemotesHerself).2 = adminStore) ∧
    ((deleteUser adminStore danaDeletesHerself).1.status = 400 ∧
      (deleteUser adminStore danaDeletesHerself).2 = adminStore) ∧
    roleOf (AdminOp.run adminStore (AdminOp.deleteUser danaDeletesAlice)).2 dana.id
      = some Role.admin :=
  have h := C17_admin_keeps_access adminStore dana dana (by decide) (by decide)
  ⟨⟨by decide, by decide⟩, h.1 danaDemotesHerself rfl rfl rfl, h.2.1 danaDeletesHerself rfl rfl,
    h.2.2 (AdminOp.deleteUser danaDeletesAlice) rfl⟩

/-- What a `200` answer of the delete-user handler says about the final store. -/
theorem deleteUser_ok (st : State) (req : DeleteUserRequest)
    (h200 : (deleteUser st req).1.status = 200) :
    req.id ≠ req.user.id ∧ (st.findUser req.id).isSome ∧
    (deleteUser st req).2 =
      { st with
        items := st.items.filter (fun it => it.ownerId != req.id)
        swaps := st.swaps.filter (fun s => !(s.initiatorId == req.id || s.recipientId == req.id))
        notifications := st.notifications.filter (fun n => n.userId != req.id)
        users := deleteFirst (fun u => u.id == req.id) st.users } := by
  unfold deleteUser at h200 ⊢
  split at h200
  · simp at h200
  · rename_i user hfind
    have hid := findUser_id hfind
    split at h200
    · simp at h200
    · rename_i hne
      refine ⟨fun h => hne (hid.trans h), by simp [hfind], ?_⟩
      have hne' : ¬ req.id = req.user.id := fun h => hne (hid.trans h)
      simp only [hfind, hid, hne', if_false]

/-- C18: for every successful admin delete of a user U (answer 200; U is then different from
the acting admin), afterwards the store holds no user U (user ids being unique), no item with
ownerId = U, no swap with initiatorId = U or recipientId = U, and no notification with
userId = U; the items, swaps and notifications that remain are exactly those of the store before
that do not involve U, in their order, and every other user is stored unchanged. -/
theorem C18_delete_user_cascade (st : State) (req : DeleteUserRequest)
    (h200 : (deleteUser st req).1.status = 200) :
    req.id ≠ req.user.id ∧
    ((st.users.map (fun u => u.id)).Nodup →
      ∀ u ∈ (deleteUser st req).2.users, u.id ≠ req.id) ∧
    (∀ it ∈ (deleteUser st req).2.items, it.ownerId ≠ req.id) ∧
    (∀ s ∈ (deleteUser st req).2.swaps, s.initiatorId ≠ req.id ∧ s.recipientId ≠ req.id) ∧
    (∀ n ∈ (deleteUser st req).2.notifications, n.userId ≠ req.id) ∧
    (deleteUser st req).2.items = st.items.filter (fun it => it.ownerId != req.id) ∧
    (deleteUser st req).2.swaps =
      st.swaps.filter (fun s => !(s.initiatorId == req.id || s.recipientId == req.id)) ∧
    (deleteUser st req).2.notifications
      = st.notifications.filter (fun n => n.userId != req.id) ∧
    (∀ j, j ≠ req.id → (deleteUser st req).2.findUser j = st.findUser j) := by
  obtain ⟨hne, _, hfinal⟩ := deleteUser_ok st req h200
  rw [hfinal]
  refine ⟨hne, fun hnodup => ?_, ?_, ?_, ?_, rfl, rfl, rfl, fun j hj => ?_⟩
  · exact not_mem_deleteFirst_of_nodup (fun u : User => u.id) req.id st.users hnodup
  · intro it hit
    have := (List.mem_filter.mp hit).2
    simpa using this
  · intro s hs
    have := (List.mem_filter.mp hs).2
    simpa using this
  · intro n hn
    have := (List.mem_filter.mp hn).2
    simpa using this
  · exact find?_deleteFirst (fun u : User => u.id) req.id j hj st.users

/-- C18 at Dana deleting Alice: Alice, her scarf, her four swaps and her notification are gone;
Bob's coat and Bob's notification stay. -/
theorem C18_delete_user_cascade_witness :
    (deleteUser adminStore danaDeletesAlice).1.status = 200 ∧
    (deleteUser adminStore danaDeletesAlice).2.users = [bob, carol, dana] ∧
    (deleteUser adminStore danaDeletesAlice).2.items = [coat] ∧
    (deleteUser adminStore danaDeletesAlice).2.swaps = [] ∧
    (deleteUser adminStore danaDeletesAlice).2.notifications.map (fun n => n.id) = [501] ∧
    ∀ it ∈ (deleteUser adminStore danaDeletesAlice).2.items, it.ownerId ≠ danaDeletesAlice.id :=
  ⟨by decide, by decide, by decide, by decide, by decide,
    (C18_delete_user_cascade adminStore danaDeletesAlice (by decide)).2.2.1⟩

/-! ## Stats are credited on acceptance (claim C19) -/

theorem statsOf_userUpdate (st : State) (now : Nat) (k j : ObjectId) (f : User → User)
    (g : UserStats → UserStats) (hf : ∀ u, (f u).id = u.id)
    (hs : ∀ u, (f u).stats = g u.stats) :
    statsOf (User.findByIdAndUpdate st now k f) j =
      if j = k then (statsOf st k).map g else statsOf st j := by
  unfold statsOf
  rw [findUser_userUpdate st now k j f hf]
  by_cases hj : j = k
  · simp only [hj, if_true]
    cases st.findUser k with
    | none => rfl
    | some u => simp [hs]
  · simp only [hj, if_false]

theorem statsOf_congr {st1 st2 : State} (h : st1.users = st2.users) (i : ObjectId) :
    statsOf st1 i = statsOf st2 i := by
  simp [statsOf, State.findUser, h]

theorem statsOf_incPoints (st : State) (now : Nat) (k j : ObjectId) (amount : Int) :
    statsOf (User.findByIdAndUpdate st now k (incPoints amount)) j = statsOf st j := by
  rw [statsOf_userUpdate st now k j (incPoints amount) (fun s => s) (fun _ => rfl)
    (fun _ => rfl)]
  by_cases hj : j = k
  · subst hj
    cases statsOf st j <;> simp
  · simp [hj]

/-- The points block changes no user's stats. -/
theorem statsOf_transferPoints {st st4 : State} {now : Nat} {swap : Swap}
    (h : transferPoints st now swap = some st4) (j : ObjectId) :
    statsOf st4 j = statsOf st j := by
  unfold transferPoints at h
  split at h
  · split at h
    · cases h
    · cases h
      rw [statsOf_incPoints, statsOf_incPoints]
  · cases h
    rfl

theorem statsOf_creditSwap (st : State) (now : Nat) (k j : ObjectId) :
    statsOf (User.findByIdAndUpdate st now k creditSwap) j =
      if j = k then (statsOf st k).map creditStats else statsOf st j :=
  statsOf_userUpdate st now k j creditSwap creditStats (fun _ => rfl) (fun _ => rfl)

/-- The user collection after a `200` accept. -/
theorem acceptSwapRoute_ok_users (st : State) (req : RespondRequest) (swap : Swap)
    (hfind : st.findSwap req.id = some swap)
    (h200 : (acceptSwapRoute st req).1.status = 200) :
    ∃ st3 st4 saved, st3.users = st.users ∧ transferPoints st3 req.now saved = some st4 ∧
      saved.initiatorId = swap.initiatorId ∧ saved.recipientId = swap.recipientId ∧
      (acceptSwapRoute st req).2.users = (updateUserStats st4 req.now saved).users := by
  obtain ⟨swap', r, st4, _, hfind', _, _, _, h4, hfinal⟩ := acceptSwapRoute_ok st req h200
  have hsame : swap' = swap := by
    rw [hfind] at hfind'
    exact (Option.some.inj hfind').symm
  subst hsame
  have hf := acceptSwap_fst_fields st req.now swap' (sanitized req.responseMessage)
  refine ⟨_, st4, _, ?_, h4, hf.2.2.1, hf.2.2.2.1, ?_⟩
  · simp [Swap.acceptSwap]
  · rw [hfinal]
    rfl

/-- C19 fails as stated: a swap that is accepted and then cancelled leaves the initiator's
stats.totalSwaps at 1 and stats.ecoImpact at 2.5 kg (25 tenths), not at their values before the
accept (0 and 0). -/
theorem C19_accept_then_cancel_keeps_credit :
    (acceptSwapRoute exampleStore bobAcceptsRedemption).1.status = 200 ∧
    (cancelSwapRoute afterAccept aliceCancelsRedemption).1.status = 200 ∧
    statusOf afterAcceptAndCancel 100 = some SwapStatus.Cancelled ∧
    (statsOf exampleStore 1).map (fun s => (s.totalSwaps, s.ecoImpact)) = some (0, 0) ∧
    (statsOf afterAcceptAndCancel 1).map (fun s => (s.totalSwaps, s.ecoImpact))
      = some (1, 25) := by
  decide

/-- C19, amended: swap counts and eco-impact are credited per accepted swap: a successful
accept (answer 200) increases stats.totalSwaps by 1 and stats.ecoImpact by 2.5 for the
initiator and for the recipient (two distinct users) and for nobody else, while complete and
cancel requests change no user document; so a swap that is accepted and then cancelled or
completed leaves both participants credited exactly once. -/
theorem C19_stats_credited_on_accept (st : State) :
    (∀ req : CompleteRequest, (completeSwapRoute st req).2.users = st.users) ∧
    (∀ req : CancelRequest, (cancelSwapRoute st req).2.users = st.users) ∧
    (∀ (req : RespondRequest) (swap : Swap), st.findSwap req.id = some swap →
      (acceptSwapRoute st req).1.status = 200 → swap.initiatorId ≠ swap.recipientId →
      statsOf (acceptSwapRoute st req).2 swap.initiatorId
        = (statsOf st swap.initiatorId).map creditStats ∧
      statsOf (acceptSwapRoute st req).2 swap.recipientId
        = (statsOf st swap.recipientId).map creditStats ∧
      ∀ j, j ≠ swap.initiatorId → j ≠ swap.recipientId →
        statsOf (acceptSwapRoute st req).2 j = statsOf st j) := by
  refine ⟨fun req => ?_, fun req => ?_, fun req swap hfind h200 hne => ?_⟩
  · rcases completeSwapRoute_effect st req with h | ⟨swap, _, _, h⟩
    · rw [h]
    · rw [h]; rfl
  · rcases cancelSwapRoute_effect st req with h | ⟨swap, _, _, _, h⟩
    · rw [h]
    · rw [h]; rfl
  · obtain ⟨st3, st4, saved, husers, h4, hini, hrcp, hfinal⟩ :=
      acceptSwapRoute_ok_users st req swap hfind h200
    have key : ∀ j, statsOf (acceptSwapRoute st req).2 j =
        if j = swap.recipientId then
          (if swap.recipientId = swap.initiatorId then
            (statsOf st swap.initiatorId).map creditStats
           else statsOf st swap.recipientId).map creditStats
        else if j = swap.initiatorId then (statsOf st swap.initiatorId).map creditStats
        else statsOf st j := by
      intro j
      have hbase : ∀ i, statsOf st4 i = statsOf st i := fun i =>
        (statsOf_transferPoints h4 i).trans (statsOf_congr husers i)
      rw [statsOf_congr hfinal j]
      unfold updateUserStats
      rw [statsOf_creditSwap, hrcp, hini]
      by_cases hj : j = swap.recipientId
      · simp only [hj, if_true]
        rw [statsOf_creditSwap]
        simp only [hbase]
      · simp only [hj, if_false]
        rw [statsOf_creditSwap]
        simp only [hbase]
    refine ⟨?_, ?_, fun j h1 h2 => ?_⟩
    · rw [key, if_neg hne, if_pos rfl]
    · rw [key, if_pos rfl, if_neg (Ne.symm hne)]
    · rw [key, if_neg h2, if_neg h1]

/-- C19, amended, at Bob accepting Alice's redemption request and Alice cancelling it. -/
theorem C19_stats_credited_on_accept_witness :
    (exampleStore.findSwap bobAcceptsRedemption.id = some pendingRedemption ∧
      (acceptSwapRoute exampleStore bobAcceptsRedemption).1.status = 200 ∧
      pendingRedemption.initiatorId ≠ pendingRedemption.recipientId) ∧
    statsOf (acceptSwapRoute exampleStore bobAcceptsRedemption).2 1
      = (statsOf exampleStore 1).map creditStats ∧
    (cancelSwapRoute afterAccept aliceCancelsRedemption).2.users = afterAccept.users :=
  ⟨⟨by decide, by decide, by decide⟩,
    ((C19_stats_credited_on_accept exampleStore).2.2 bobAcceptsRedemption pendingRedemption
      (by decide) (by decide) (by decide)).1,
    (C19_stats_credited_on_accept afterAccept).2.1 aliceCancelsRedemption⟩

/-! ## Points can go negative (claim C20) -/

/-- C20 on the code: from a store in which every user has 10 points, Alice requests Bob's coat
and Carol's hat for 8 points each (both answered 201, each offer being covered by her balance
when it is made), Bob and Carol accept (both answered 200), and Alice's balance ends at -6. -/
theorem C20_points_go_negative :
    (∀ u ∈ ledgerStore.users, 0 ≤ u.points) ∧
    (createSwap ledgerStore aliceOffers8ForCoat).1.status = 201 ∧
    (createSwap ledger1 aliceOffers8ForHat).1.status = 201 ∧
    (acceptSwapRoute ledger2 bobAccepts1000).1.status = 200 ∧
    (acceptSwapRoute ledger3 carolAccepts1002).1.status = 200 ∧
    pointsOf ledger4 1 = some (-6) := by
  decide

/-! ## The swap-request notification (claim C21) -/

/-- What a `201` answer of the create-swap handler says about the whole final store. -/
theorem createSwap_final (st : State) (req : CreateSwapRequest)
    (h : (createSwap st req).1.status = 201) :
    ∃ item, st.findItem req.requestedItemId = some item ∧
      st.swaps.find? (fun s => s.initiatorId == req.user.id
        && s.requestedItemId == req.requestedItemId && s.status == SwapStatus.Pending) = none ∧
      (createSwap st req).2 =
        Notification.createSwapRequestNotification
          { st with swaps := st.swaps ++ [newSwap st req item.ownerId], nextId := st.nextId + 1 }
          item.ownerId (newSwap st req item.ownerId).id req.user.id item.title := by
  unfold createSwap at h ⊢
  split at h
  · simp at h
  · rename_i hvalid
    split at h
    · simp at h
    · rename_i item hitem
      split at h
      · simp at h
      · rename_i havail
        split at h
        · simp at h
        · rename_i hown
          simp only [] at h
          split at h
          · rename_i r href
            exfalso
            revert href h
            cases req.swapType with
            | DirectSwap =>
              simp only []
              cases req.offeredItemId with
              | none => simp only []; intro h1 h2; cases h1; simp at h2
              | some o =>
                simp only []
                cases st.findItem o with
                | none => simp only []; intro h1 h2; cases h1; simp at h2
                | some off =>
                  simp only []
                  split
                  · intro h1 h2; cases h1; simp at h2
                  · split
                    · intro h1 h2; cases h1; simp at h2
                    · intro h1; cases h1
            | PointsRedemption =>
              simp only []
              cases req.pointsOffered with
              | none => simp only []; intro h1 h2; cases h1; simp at h2
              | some p =>
                simp only []
                split
                · intro h1 h2; cases h1; simp at h2
                · split
                  · intro h1 h2; cases h1; simp at h2
                  · split
                    · intro h1 h2; cases h1; simp at h2
                    · intro h1; cases h1
          · rename_i href
            split at h
            · simp at h
            · rename_i hexist
              have hnone : st.swaps.find? (fun s => s.initiatorId == req.user.id
                  && s.requestedItemId == req.requestedItemId
                  && s.status == SwapStatus.Pending) = none := by
                cases hf : st.swaps.find? (fun s => s.initiatorId == req.user.id
                    && s.requestedItemId == req.requestedItemId
                    && s.status == SwapStatus.Pending) with
                | none => rfl
                | some x => rw [hf] at hexist; simp at hexist
              refine ⟨item, hitem, hnone, ?_⟩
              simp only [hvalid, hitem, havail, hown, href, hnone, if_false,
                Bool.false_eq_true, Option.isSome_none]

/-- C21 on the code: for every swap created by POST /api/swaps (answer 201) the swap_request
notification is addressed to the requested item's owner and carries data.swapId = the new
swap's id and data.senderId = the initiator's id, but its data.itemId is the new swap's id, not
the requested item's id. -/
theorem C21_swap_request_notification (st : State) (req : CreateSwapRequest)
    (h201 : (createSwap st req).1.status = 201) :
    ∃ item sw n, st.findItem req.requestedItemId = some item ∧
      (createSwap st req).2.swaps = st.swaps ++ [sw] ∧
      (createSwap st req).2.notifications = st.notifications ++ [n] ∧
      n.type = NotificationType.swap_request ∧ n.userId = item.ownerId ∧
      n.data.swapId = some sw.id ∧ n.data.senderId = some req.user.id ∧
      n.data.itemId = some sw.id := by
  obtain ⟨item, hitem, _, hfinal⟩ := createSwap_final st req h201
  refine ⟨item, newSwap st req item.ownerId,
    Notification.preSave true
      { id := st.nextId + 1, userId := item.ownerId, type := NotificationType.swap_request,
        title := "New Swap Request",
        message := "Someone wants to swap with your \"" ++ item.title ++ "\"",
        data := { swapId := some (newSwap st req item.ownerId).id,
                  senderId := some req.user.id,
                  itemId := some (newSwap st req item.ownerId).id } },
    hitem, ?_, ?_, rfl, rfl, rfl, rfl, rfl⟩
  · rw [hfinal]; rfl
  · rw [hfinal]; rfl

/-- C21 at Alice asking for Bob's coat (item 10) in a store whose next id is 1000: the
notification for Bob references swap 1000 and sender 1, and its data.itemId is 1000, not 10. -/
theorem C21_swap_request_notification_witness :
    (createSwap ledgerStore aliceOffers8ForCoat).1.status = 201 ∧
    aliceOffers8ForCoat.requestedItemId = 10 ∧
    (createSwap ledgerStore aliceOffers8ForCoat).2.notifications.map
        (fun n => (n.userId, n.data.swapId, n.data.senderId, n.data.itemId))
      = [(2, some 1000, some 1, some 1000)] ∧
    ∃ item sw n, ledgerStore.findItem aliceOffers8ForCoat.requestedItemId = some item ∧
      (createSwap ledgerStore aliceOffers8ForCoat).2.swaps = ledgerStore.swaps ++ [sw] ∧
      (createSwap ledgerStore aliceOffers8ForCoat).2.notifications
        = ledgerStore.notifications ++ [n] ∧
      n.type = NotificationType.swap_request ∧ n.userId = item.ownerId ∧
      n.data.swapId = some sw.id ∧ n.data.senderId = some aliceOffers8ForCoat.user.id ∧
      n.data.itemId = some sw.id :=
  ⟨by decide, by decide, by decide,
    C21_swap_request_notification ledgerStore aliceOffers8ForCoat (by decide)⟩

/-! ## Image validation (claim C22) -/

/-- C22: validateImage(file) returns true if and only if file.mimetype is one of image/jpeg,
image/jpg, image/png, image/webp and file.size <= 10*1024*1024; otherwise it throws: the
invalid-type error when the type is not allowed (also when the file is too large as well), the
too-large error when the type is allowed and the size exceeds the limit. -/
theorem C22_validateImage (file : UploadedFile) :
    (validateImage file = Except.ok true ↔
      file.mimetype ∈ ["image/jpeg", "image/jpg", "image/png", "image/webp"] ∧
        file.size ≤ 10 * 1024 * 1024) ∧
    (file.mimetype ∉ ["image/jpeg", "image/jpg", "image/png", "image/webp"] →
      validateImage file
        = Except.error "Invalid file type. Only JPEG, PNG, and WebP images are allowed.") ∧
    (file.mimetype ∈ ["image/jpeg", "image/jpg", "image/png", "image/webp"] →
      10 * 1024 * 1024 < file.size →
      validateImage file = Except.error "File too large. Maximum size is 10MB.") := by
  have key : validateImage file =
      if file.mimetype ∈ ["image/jpeg", "image/jpg", "image/png", "image/webp"] then
        if 10 * 1024 * 1024 < file.size then
          Except.error "File too large. Maximum size is 10MB."
        else Except.ok true
      else Except.error "Invalid file type. Only JPEG, PNG, and WebP images are allowed." := by
    unfold validateImage
    by_cases hmem : file.mimetype ∈ ["image/jpeg", "image/jpg", "image/png", "image/webp"]
    · have hc : ["image/jpeg", "image/jpg", "image/png", "image/webp"].contains file.mimetype
          = true := by simpa using hmem
      simp only [hc, Bool.not_true, Bool.false_eq_true, if_false, hmem, if_true, gt_iff_lt]
    · have hc : ["image/jpeg", "image/jpg", "image/png", "image/webp"].contains file.mimetype
          = false := by simpa using hmem
      simp only [hc, Bool.not_false, if_true, hmem, if_false]
  rw [key]
  refine ⟨⟨fun h => ?_, fun h => ?_⟩, fun h => ?_, fun h1 h2 => ?_⟩
  · split at h
    · rename_i hmem
      split at h
      · cases h
      · rename_i hsize
        exact ⟨hmem, Nat.le_of_not_lt hsize⟩
    · cases h
  · rw [if_pos h.1, if_neg (Nat.not_lt.mpr h.2)]
  · rw [if_neg h]
  · rw [if_pos h1, if_pos h2]

/-- C22 at a PDF of 20 MB (both errors apply, the type error wins), a PNG of 20 MB and a PNG of
exactly 10 MB. -/
theorem C22_validateImage_witness :
    validateImage hugePdf
      = Except.error "Invalid file type. Only JPEG, PNG, and WebP images are allowed." ∧
    validateImage hugePng = Except.error "File too large. Maximum size is 10MB." ∧
    validateImage limitPng = Except.ok true :=
  ⟨(C22_validateImage hugePdf).2.1 (by decide),
    (C22_validateImage hugePng).2.2 (by decide) (by decide),
    (C22_validateImage limitPng).1.mpr ⟨by decide, by decide⟩⟩

/-! ## Notification priority (claim C26) -/

/-- C26: for every newly created notification, whatever priority was supplied, the priority
after the pre-save hook depends on the type only: high for swap_request and swap_accepted,
medium for item_approved, item_rejected and new_message, and low for every other type; the
hook changes no other field, and for a notification that is not new it changes nothing. -/
theorem C26_notification_priority (n : Notification) :
    (Notification.preSave true n).priority = priorityOfType n.type ∧
    Notification.preSave true n = { n with priority := priorityOfType n.type } ∧
    Notification.preSave false n = n := by
  refine ⟨?_, ?_, rfl⟩
  · cases ht : n.type <;> simp [Notification.preSave, priorityOfType, ht]
  · cases ht : n.type <;> simp [Notification.preSave, priorityOfType, ht]

/-! ## Points methods (claim C23) -/

/-- Deducting an amount that converts to the number `n`. -/
theorem deductPoints_number (toNumber : String → Option Int) (st : State) (now : Nat)
    (u : User) (amount : JsAmount) (n : Int) (hn : amount.toNumber toNumber = some n) :
    (User.deductPoints toNumber st now u amount = Except.error "Insufficient points" ↔
      u.points < n) ∧
    (n ≤ u.points →
      ∃ st1, User.deductPoints toNumber st now u amount
          = Except.ok ({ u with points := u.points - n }, some st1)) := by
  have hsave : n ≤ u.points →
      ∃ st1, User.savePoints st now u { u with points := u.points - n } = some st1 := by
    intro hle
    unfold User.savePoints
    simp only []
    split
    · exact ⟨_, rfl⟩
    · rw [if_pos (by omega)]
      exact ⟨_, rfl⟩
  constructor
  · constructor
    · intro herr
      by_contra hge
      have hle : u.points ≥ n := by omega
      unfold User.deductPoints at herr
      rw [hn] at herr
      simp only [] at herr
      rw [if_pos hle] at herr
      cases herr
    · intro hlt
      unfold User.deductPoints
      rw [hn]
      simp only []
      rw [if_neg (by omega)]
  · intro hle
    obtain ⟨st1, hst1⟩ := hsave hle
    refine ⟨st1, ?_⟩
    unfold User.deductPoints
    rw [hn]
    simp only []
    rw [if_pos (ge_iff_le.mpr hle)]
    simp only [hst1]

/-- C23 on the code: for a number amount n, deductPoints throws 'Insufficient points' if and
only if points < n, otherwise the new balance is points - n >= 0 with the save accepted, and
addPoints(n) on the resulting document restores the balance. For a string amount s that
converts to the number n, deductPoints behaves as for n, but addPoints(s) on the resulting
document appends s to the text of the balance: the balance becomes the number read from that
text, not points. For NaN, undefined and a string that converts to NaN, deductPoints throws
although points < amount does not hold. -/
theorem C23_points_methods (toNumber : String → Option Int) (st : State) (now : Nat)
    (u : User) :
    (∀ n : Int,
      (User.deductPoints toNumber st now u (JsAmount.num n)
          = Except.error "Insufficient points" ↔ u.points < n) ∧
      (n ≤ u.points →
        ∃ doc st1, User.deductPoints toNumber st now u (JsAmount.num n)
            = Except.ok (doc, some st1) ∧
          doc.points = u.points - n ∧ 0 ≤ doc.points ∧
          ∀ st2 later,
            (User.addPoints toNumber st2 later doc (JsAmount.num n)).1.points = u.points)) ∧
    (∀ (s : String) (n : Int), toNumber s = some n →
      (User.deductPoints toNumber st now u (JsAmount.str s)
          = Except.error "Insufficient points" ↔ u.points < n) ∧
      (n ≤ u.points →
        ∃ doc st1, User.deductPoints toNumber st now u (JsAmount.str s)
            = Except.ok (doc, some st1) ∧
          doc.points = u.points - n ∧ 0 ≤ doc.points ∧
          ∀ st2 later m, toNumber (toString (u.points - n) ++ s) = some m →
            (User.addPoints toNumber st2 later doc (JsAmount.str s)).1.points = m)) ∧
    (User.deductPoints toNumber st now u JsAmount.nan = Except.error "Insufficient points" ∧
      User.deductPoints toNumber st now u JsAmount.undefined
        = Except.error "Insufficient points" ∧
      ∀ s, toNumber s = none →
        User.deductPoints toNumber st now u (JsAmount.str s)
          = Except.error "Insufficient points") := by
  refine ⟨fun n => ?_, fun s n hs => ?_, rfl, rfl, fun s hs => ?_⟩
  · have h := deductPoints_number toNumber st now u (JsAmount.num n) n rfl
    refine ⟨h.1, fun hle => ?_⟩
    obtain ⟨st1, hst1⟩ := h.2 hle
    refine ⟨_, st1, hst1, rfl, ?_, fun st2 later => ?_⟩
    · show 0 ≤ u.points - n
      omega
    · show u.points - n + n = u.points
      omega
  · have h := deductPoints_number toNumber st now u (JsAmount.str s) n hs
    refine ⟨h.1, fun hle => ?_⟩
    obtain ⟨st1, hst1⟩ := h.2 hle
    refine ⟨_, st1, hst1, rfl, ?_, fun st2 later m hm => ?_⟩
    · show 0 ≤ u.points - n
      omega
    · unfold User.addPoints plusAmount
      simp only [hm]
  · unfold User.deductPoints JsAmount.toNumber
    simp only [hs]

/-- C23 on the code, at Alice's 10 points and the string amount "4": deductPoints leaves 6,
and addPoints on that document gives 64, not 10; with the number 4 the balance is restored. -/
theorem C23_points_methods_witness :
    exampleToNumber "4" = some 4 ∧
    (∃ doc st1, User.deductPoints exampleToNumber exampleStore 5 alice (JsAmount.str "4")
        = Except.ok (doc, some st1) ∧
      doc.points = 10 - 4 ∧ 0 ≤ doc.points ∧
      ∀ st2 later m, exampleToNumber (toString ((10 : Int) - 4) ++ "4") = some m →
        (User.addPoints exampleToNumber st2 later doc (JsAmount.str "4")).1.points = m) ∧
    exampleToNumber (toString ((10 : Int) - 4) ++ "4") = some 64 ∧
    (∃ doc st1, User.deductPoints exampleToNumber exampleStore 5 alice (JsAmount.num 4)
        = Except.ok (doc, some st1) ∧
      doc.points = 10 - 4 ∧ 0 ≤ doc.points ∧
      ∀ st2 later,
        (User.addPoints exampleToNumber st2 later doc (JsAmount.num 4)).1.points = 10) :=
  have h := C23_points_methods exampleToNumber exampleStore 5 alice
  ⟨by decide, (h.2.1 "4" 4 (by decide)).2 (by decide), by decide, (h.1 4).2 (by decide)⟩

/-! ## Likes (claim C27) -/

/-- The list part of `toggleLike` in terms of `erase`. -/
theorem toggleLikes_eq (likes : List ObjectId) (userId : ObjectId) :
    toggleLikes likes userId =
      if userId ∈ likes then likes.erase userId else likes ++ [userId] := by
  unfold toggleLikes jsIndexOf
  by_cases hmem : userId ∈ likes
  · have hlt : likes.indexOf userId < likes.length := List.indexOf_lt_length.mpr hmem
    simp only [hlt, if_true, hmem]
    have hpos : ((likes.indexOf userId : Nat) : Int) > -1 := by omega
    rw [if_pos hpos, Int.toNat_ofNat, List.eraseIdx_indexOf_eq_erase]
  · have hnlt : ¬ likes.indexOf userId < likes.length := fun h =>
      hmem (List.indexOf_lt_length.mp h)
    simp only [hnlt, if_false, hmem]
    rfl

/-- C27 fails as stated: with the liker 7 stored twice, toggling 7 twice empties the list, so
the set of likers changes from {7} to the empty set. -/
theorem C27_double_toggle_with_duplicates :
    toggleLikes [7, 7] 7 = [7] ∧ toggleLikes (toggleLikes [7, 7] 7) 7 = [] ∧
    7 ∈ [7, 7] ∧ 7 ∉ toggleLikes (toggleLikes [7, 7] 7) 7 := by
  decide

/-- C27, amended: toggleLike(userId) appends userId once when it is not in likes and removes
its first occurrence when it is; the membership of every other user is unchanged; a likes list
without duplicates stays without duplicates and has the membership of userId flipped; and when
userId occurs at most once in likes (in particular when likes has no duplicates), toggling
twice with the same userId leaves the set of likers equal to the original set. -/
theorem C27_toggleLike (likes : List ObjectId) (userId : ObjectId) :
    (userId ∉ likes → toggleLikes likes userId = likes ++ [userId]) ∧
    (userId ∈ likes → toggleLikes likes userId = likes.erase userId ∧
      (toggleLikes likes userId).count userId = likes.count userId - 1) ∧
    (∀ other, other ≠ userId → (other ∈ toggleLikes likes userId ↔ other ∈ likes)) ∧
    (likes.Nodup → (toggleLikes likes userId).Nodup ∧
      (userId ∈ toggleLikes likes userId ↔ userId ∉ likes)) ∧
    (likes.count userId ≤ 1 →
      ∀ x, x ∈ toggleLikes (toggleLikes likes userId) userId ↔ x ∈ likes) := by
  have key := toggleLikes_eq likes userId
  refine ⟨fun h => ?_, fun h => ?_, fun other hne => ?_, fun hnd => ?_, fun hcount x => ?_⟩
  · rw [key, if_neg h]
  · rw [key, if_pos h]
    exact ⟨rfl, List.count_erase_self userId likes⟩
  · rw [key]
    split
    · exact List.mem_erase_of_ne hne
    · simp [hne]
  · rw [key]
    split
    · rename_i hmem
      exact ⟨hnd.erase userId, by simp [hnd.mem_erase_iff, hmem]⟩
    · rename_i hmem
      refine ⟨?_, by simp [hmem]⟩
      rw [List.nodup_append]
      refine ⟨hnd, List.nodup_singleton userId, ?_⟩
      intro a ha hb
      rw [List.mem_singleton] at hb
      exact hmem (hb ▸ ha)
  · by_cases hmem : userId ∈ likes
    · have h1 : toggleLikes likes userId = likes.erase userId := by rw [key, if_pos hmem]
      have hgone : userId ∉ likes.erase userId := by
        rw [← List.count_eq_zero, List.count_erase_self]
        omega
      rw [h1, toggleLikes_eq, if_neg hgone]
      by_cases hx : x = userId
      · subst hx
        simp [hmem]
      · simp [hx, List.mem_erase_of_ne hx]
    · have h1 : toggleLikes likes userId = likes ++ [userId] := by rw [key, if_neg hmem]
      have hin : userId ∈ likes ++ [userId] := by simp
      rw [h1, toggleLikes_eq, if_pos hin, List.erase_append_right _ hmem]
      simp

/-- C27, amended, at a list without duplicates: 5 is appended to [3, 4], removed again by the
second toggle, and the likers are the same as before. -/
theorem C27_toggleLike_witness :
    toggleLikes [3, 4] 5 = [3, 4, 5] ∧ toggleLikes [3, 4, 5] 5 = [3, 4] ∧
    (∀ x, x ∈ toggleLikes (toggleLikes [3, 4] 5) 5 ↔ x ∈ [3, 4]) :=
  ⟨((C27_toggleLike [3, 4] 5).1 (by decide)).trans (by decide),
    ((C27_toggleLike [3, 4, 5] 5).2.1 (by decide)).1.trans (by decide),
    (C27_toggleLike [3, 4] 5).2.2.2.2 (by decide)⟩

/-! ## One pending swap per initiator and item (claim C24) -/

theorem countP_updateFirst_le {α : Type} (p q : α → Bool) (f : α → α) (l : List α)
    (h : ∀ a, l.find? p = some a → q (f a) = true → q a = true) :
    (updateFirst p f l).countP q ≤ l.countP q := by
  induction l with
  | nil => simp [updateFirst]
  | cons x xs ih =>
    by_cases hp : p x = true
    · have hx := h x (by simp [List.find?_cons, hp])
      simp only [updateFirst, hp, if_true, List.countP_cons]
      by_cases hq : q (f x) = true
      · simp [hq, hx hq]
      · simp only [hq, if_false, Bool.false_eq_true]
        omega
    · have hp' : p x = false := by simpa using hp
      have ih' := ih (fun a ha => h a (by simpa [List.find?_cons, hp'] using ha))
      simp only [updateFirst, hp', if_false, List.countP_cons, Bool.false_eq_true]
      omega

theorem isPendingFor_preSave (u i : ObjectId) (s : Swap) :
    isPendingFor u i s.preSave = isPendingFor u i s := by
  unfold Swap.preSave isPendingFor
  split <;> rfl

/-- Saving a stored swap again does not raise a pending count, unless the saved document is
pending for a pair the stored one is not pending for. -/
theorem pendingCount_save (st : State) (now : Nat) (sw stored : Swap)
    (hfind : st.findSwap sw.id = some stored)
    (hq : ∀ u i, isPendingFor u i sw = true → isPendingFor u i stored = true) (u i : ObjectId) :
    (Swap.save st now sw).2.swaps.countP (isPendingFor u i)
      ≤ st.swaps.countP (isPendingFor u i) := by
  unfold Swap.save
  simp only [preSave_id]
  apply countP_updateFirst_le
  intro a ha hsaved
  have hfind' : st.swaps.find? (fun d => d.id == sw.id) = some stored := hfind
  rw [hfind'] at ha
  cases ha
  apply hq u i
  rw [← isPendingFor_preSave]
  exact hsaved

theorem swapOp_pendingCount (st : State) (op : SwapOp) (u i : ObjectId) :
    pendingCount (op.run st).2 u i ≤ pendingCount st u i := by
  rcases run_effect st op with h | ⟨now, swap, swap', hfind, hid, hsw, hcase⟩
  · rw [h]
  · unfold pendingCount
    rw [hsw]
    apply pendingCount_save st now swap' swap (by rw [hid]; exact hfind)
    intro u' i' hp
    rcases hcase with ⟨_, htr⟩ | ⟨_, m, hm⟩
    · exfalso
      have hpend : swap'.status = SwapStatus.Pending := by
        simp only [isPendingFor, Bool.and_eq_true, beq_iff_eq] at hp
        exact hp.2
      rw [hpend] at htr
      simp [handlerTransitions] at htr
    · rw [hm] at hp
      exact hp

theorem createSwap_swaps (st : State) (req : CreateSwapRequest) :
    (createSwap st req).2 = st ∨
      ((createSwap st req).1.status = 201 ∧
        st.swaps.countP (isPendingFor req.user.id req.requestedItemId) = 0 ∧
        ∃ r, (createSwap st req).2.swaps = st.swaps ++ [newSwap st req r]) := by
  by_cases h : (createSwap st req).1.status = 201
  · obtain ⟨item, _, hnone, hfinal⟩ := createSwap_final st req h
    refine Or.inr ⟨h, ?_, item.ownerId, ?_⟩
    · rw [List.countP_eq_zero]
      intro a ha
      have := List.find?_eq_none.mp hnone a ha
      simpa [isPendingFor] using this
    · rw [hfinal]
      rfl
  · exact Or.inl (createSwap_refused st req h)

theorem createSwap_pendingUnique (st : State) (req : CreateSwapRequest)
    (h : PendingUnique st) : PendingUnique (createSwap st req).2 := by
  rcases createSwap_swaps st req with hsame | ⟨_, hzero, r, hsw⟩
  · rw [hsame]
    exact h
  · intro u i
    unfold pendingCount
    rw [hsw, List.countP_append]
    have hf := newSwap_fields st req r
    by_cases hp : isPendingFor u i (newSwap st req r) = true
    · have hu : u = req.user.id ∧ i = req.requestedItemId := by
        simp only [isPendingFor, Bool.and_eq_true, beq_iff_eq] at hp
        exact ⟨by rw [← hp.1.1, hf.1], by rw [← hp.1.2, hf.2.2.1]⟩
      rw [hu.1, hu.2, hzero]
      simp [List.countP_cons]
      split <;> omega
    · have := h u i
      unfold pendingCount at this
      simp only [List.countP_cons, List.countP_nil, hp, if_false, Bool.false_eq_true]
      omega

/-- The answers of the create-swap handler. -/
theorem createSwap_status (st : State) (req : CreateSwapRequest) :
    ((createSwap st req).1.status = 400 ∨ (createSwap st req).1.status = 403 ∨
      (createSwap st req).1.status = 404 ∨ (createSwap st req).1.status = 201) ∧
    (req.swapType = SwapType.PointsRedemption → (st.findItem req.requestedItemId).isSome →
      (createSwap st req).1.status = 400 ∨ (createSwap st req).1.status = 201) := by
  unfold createSwap
  split
  · simp
  · split
    · rename_i hnone
      simp [hnone]
    · split
      · simp
      · split
        · simp
        · simp only []
          split
          · rename_i r href
            revert href
            cases req.swapType with
            | DirectSwap =>
              simp only []
              cases req.offeredItemId with
              | none => simp only []; intro h1; cases h1; simp
              | some o =>
                simp only []
                cases st.findItem o with
                | none => simp only []; intro h1; cases h1; simp
                | some off =>
                  simp only []
                  split
                  · intro h1; cases h1; simp
                  · split
                    · intro h1; cases h1; simp
                    · intro h1; cases h1
            | PointsRedemption =>
              simp only []
              cases req.pointsOffered with
              | none => simp only []; intro h1; cases h1; simp
              | some p =>
                simp only []
                split
                · intro h1; cases h1; simp
                · split
                  · intro h1; cases h1; simp
                  · split
                    · intro h1; cases h1; simp
                    · intro h1; cases h1
          · split
            · simp
            · simp

/-! ### Handlers that leave the swap collection alone -/

theorem createItem_swaps (host : UploadedFile → Option UploadResult)
    (jsonParse : String → Option (List String)) (st : State) (req : CreateItemRequest) :
    (createItem host jsonParse st req).2.swaps = st.swaps := by
  unfold createItem
  repeat' (first | rfl | split | simp only [])

theorem updateItem_swaps (jsonParse : List String → Option (List String)) (st : State)
    (req : UpdateItemRequest) : (updateItem jsonParse st req).2.swaps = st.swaps := by
  unfold updateItem
  repeat' (first | rfl | split | simp only [])

theorem deleteItem_swaps (st : State) (req : DeleteItemRequest) :
    (deleteItem st req).2.swaps = st.swaps := by
  unfold deleteItem
  repeat' (first | rfl | split)

theorem getItem_swaps (st : State) (req : ItemRequest) :
    (getItem st req).2.swaps = st.swaps := by
  unfold getItem
  split <;> rfl

theorem likeItemRoute_swaps (st : State) (req : ItemRequest) :
    (likeItemRoute st req).2.swaps = st.swaps := by
  unfold likeItemRoute likeItem
  repeat' (first | rfl | split)

theorem approveItemRoute_swaps (st : State) (req : ItemRequest) :
    (approveItemRoute st req).2.swaps = st.swaps := by
  unfold approveItemRoute approveItem
  repeat' (first | rfl | split)

theorem putProfile_swaps (validate : List (String × JVal) → Bool) (casts : SchemaCasts)
    (st : State) (req : ProfileRequest) :
    (putProfile validate casts st req).2.swaps = st.swaps := by
  unfold putProfile
  repeat' (first | rfl | split | simp only [])

theorem putProfile_items (validate : List (String × JVal) → Bool) (casts : SchemaCasts)
    (st : State) (req : ProfileRequest) :
    (putProfile validate casts st req).2.items = st.items := by
  unfold putProfile
  repeat' (first | rfl | split | simp only [])

theorem adminApproveItem_swaps (st : State) (req : ApproveItemRequest) :
    (adminApproveItem st req).2.swaps = st.swaps := by
  unfold adminApproveItem
  repeat' (first | rfl | split)

theorem adminRejectItem_swaps (st : State) (req : RejectItemRequest) :
    (adminRejectItem st req).2.swaps = st.swaps := by
  unfold adminRejectItem
  repeat' (first | rfl | split | simp only [])

theorem putUserRole_swaps (st : State) (req : RoleRequest) :
    (putUserRole st req).2.swaps = st.swaps := by
  unfold putUserRole
  repeat' (first | rfl | split)

theorem putUserRole_items (st : State) (req : RoleRequest) :
    (putUserRole st req).2.items = st.items := by
  unfold putUserRole
  repeat' (first | rfl | split)

theorem deleteUser_pendingCount (st : State) (req : DeleteUserRequest) (u i : ObjectId) :
    pendingCount (deleteUser st req).2 u i ≤ pendingCount st u i := by
  unfold deleteUser pendingCount
  repeat' split
  all_goals first
    | exact le_refl _
    | exact (List.filter_sublist _).countP_le _

theorem adminOp_pendingCount (st : State) (op : AdminOp) (u i : ObjectId) :
    pendingCount (op.run st).2 u i ≤ pendingCount st u i := by
  cases op with
  | approveItem req => exact le_of_eq (congrArg (List.countP _) (adminApproveItem_swaps st req))
  | rejectItem req => exact le_of_eq (congrArg (List.countP _) (adminRejectItem_swaps st req))
  | setRole req => exact le_of_eq (congrArg (List.countP _) (putUserRole_swaps st req))
  | deleteUser req => exact deleteUser_pendingCount st req u i

/-- Every request keeps the invariant. -/
theorem run_pendingUnique (env : Env) (st : State) (req : Request) (h : PendingUnique st) :
    PendingUnique (req.run env st).2 := by
  have same : ∀ st2 : State, st2.swaps = st.swaps → PendingUnique st2 := by
    intro st2 hsw u i
    unfold pendingCount
    rw [hsw]
    exact h u i
  cases req with
  | createSwap r => exact createSwap_pendingUnique st r h
  | swap op => exact fun u i => le_trans (swapOp_pendingCount st op u i) (h u i)
  | createItem r => exact same _ (createItem_swaps _ _ st r)
  | updateItem r => exact same _ (updateItem_swaps _ st r)
  | deleteItem r => exact same _ (deleteItem_swaps st r)
  | getItem r => exact same _ (getItem_swaps st r)
  | likeItem r => exact same _ (likeItemRoute_swaps st r)
  | approveItem r => exact same _ (approveItemRoute_swaps st r)
  | putProfile r => exact same _ (putProfile_swaps _ _ st r)
  | admin op => exact fun u i => le_trans (adminOp_pendingCount st op u i) (h u i)

theorem runAll_pendingUnique (env : Env) (reqs : List Request) :
    ∀ st : State, PendingUnique st → PendingUnique (runAll env st reqs) := by
  induction reqs with
  | nil => exact fun st h => h
  | cons r rs ih => exact fun st h => ih _ (run_pendingUnique env st r h)

/-- C24 fails as stated: Alice already has a Pending swap requesting the coat, and her next
create request for the coat, a Direct Swap offering Carol's hat, is refused with 403, not 400. -/
theorem C24_duplicate_request_refused_with_403 :
    pendingCount ledger1 aliceOffersCarolsHat.user.id aliceOffersCarolsHat.requestedItemId = 1 ∧
    (createSwap ledger1 aliceOffersCarolsHat).1.status = 403 ∧
    (createSwap ledger1 aliceOffersCarolsHat).2 = ledger1 := by
  decide

/-- C24, amended: a create-swap request by a user who already has a Pending swap requesting the
same item creates no swap: it is answered 400, 403 or 404 (always 400 when it is a Points
Redemption request for a stored item) and the store is unchanged; and every request handler
keeps the property that at most one Pending swap exists for any (initiatorId, requestedItemId)
pair, so the property holds after any sequence of requests served one after the other from a
store that has it, in particular from a store without swaps. -/
theorem C24_one_pending_swap_per_pair (env : Env) (st : State) :
    (∀ req : CreateSwapRequest, 0 < pendingCount st req.user.id req.requestedItemId →
      ((createSwap st req).1.status = 400 ∨ (createSwap st req).1.status = 403 ∨
        (createSwap st req).1.status = 404) ∧
      (req.swapType = SwapType.PointsRedemption → (st.findItem req.requestedItemId).isSome →
        (createSwap st req).1.status = 400) ∧
      (createSwap st req).2 = st) ∧
    (PendingUnique st → ∀ reqs, PendingUnique (runAll env st reqs)) ∧
    (st.swaps = [] → ∀ reqs, PendingUnique (runAll env st reqs)) := by
  refine ⟨fun req hpos => ?_, fun h reqs => runAll_pendingUnique env reqs st h,
    fun hempty reqs => runAll_pendingUnique env reqs st ?_⟩
  · have hne : (createSwap st req).1.status ≠ 201 := by
      intro h201
      rcases createSwap_swaps st req with hsame | ⟨_, hzero, _⟩
      · unfold pendingCount at hpos
        obtain ⟨_, _, hnone, _⟩ := createSwap_final st req h201
        have hz : st.swaps.countP (isPendingFor req.user.id req.requestedItemId) = 0 := by
          rw [List.countP_eq_zero]
          intro a ha
          have := List.find?_eq_none.mp hnone a ha
          simpa [isPendingFor] using this
        omega
      · unfold pendingCount at hpos
        omega
    have hst := createSwap_status st req
    refine ⟨?_, fun hty hsome => ?_, createSwap_refused st req hne⟩
    · rcases hst.1 with h | h | h | h
      · exact Or.inl h
      · exact Or.inr (Or.inl h)
      · exact Or.inr (Or.inr h)
      · exact absurd h hne
    · rcases hst.2 hty hsome with h | h
      · exact h
      · exact absurd h hne
  · intro u i
    simp [pendingCount, hempty]

/-- C24, amended, on the ledger store: Alice's second request for the coat is answered 400 and
changes nothing, and after both requests and Bob's acceptance there is still at most one
Pending swap per pair. -/
theorem C24_one_pending_swap_per_pair_witness :
    0 < pendingCount ledger1 aliceOffers8ForCoat.user.id aliceOffers8ForCoat.requestedItemId ∧
    (createSwap ledger1 aliceOffers8ForCoat).1.status = 400 ∧
    (createSwap ledger1 aliceOffers8ForCoat).2 = ledger1 ∧
    PendingUnique (runAll exampleEnv ledgerStore
      [Request.createSwap aliceOffers8ForCoat, Request.createSwap aliceOffers8ForCoat,
        Request.swap (SwapOp.accept bobAccepts1000)]) :=
  have h := (C24_one_pending_swap_per_pair exampleEnv ledger1).1 aliceOffers8ForCoat (by decide)
  ⟨by decide, h.2.1 rfl (by decide), h.2.2,
    (C24_one_pending_swap_per_pair exampleEnv ledgerStore).2.2 rfl _⟩

/-! ## A swapped item stays swapped (claim C25) -/

theorem findItem_itemSave (st : State) (now : Nat) (doc : Item) (j : ObjectId) :
    (Item.save st now doc).findItem j =
      if j = doc.id then (st.findItem doc.id).map (fun _ => { doc.preSave with updatedAt := now })
      else st.findItem j := by
  unfold Item.save State.findItem
  exact find?_updateFirst (fun d : Item => d.id) doc.id j
    (fun _ => { doc.preSave with updatedAt := now })
    (fun _ _ => (itemPreSave_fields doc).2.2.2) st.items

/-- Saving a stored item with its status untouched leaves every item status as it was. -/
theorem itemStatusOf_itemSave (st : State) (now : Nat) (item doc : Item)
    (hfind : st.findItem doc.id = some item) (hst : doc.status = item.status) (j : ObjectId) :
    itemStatusOf (Item.save st now doc) j = itemStatusOf st j := by
  unfold itemStatusOf
  rw [findItem_itemSave]
  by_cases hj : j = doc.id
  · rw [if_pos hj, hj, hfind]
    simp [(itemPreSave_fields doc).1, hst]
  · rw [if_neg hj]

theorem createSwap_items (st : State) (req : CreateSwapRequest) :
    (createSwap st req).2.items = st.items := by
  by_cases h : (createSwap st req).1.status = 201
  · obtain ⟨item, _, _, hfinal⟩ := createSwap_final st req h
    rw [hfinal]
    rfl
  · rw [createSwap_refused st req h]

theorem acceptSwapRoute_items_cases (st : State) (req : RespondRequest) :
    (acceptSwapRoute st req).2.items = st.items ∨
      ∃ (r : Item) (o : Option Item) (st1 : State), st1.items = st.items ∧
        (acceptSwapRoute st req).2.items = (updateItemStatuses st1 req.now r o).items := by
  unfold acceptSwapRoute
  split
  · exact Or.inl rfl
  · split
    · exact Or.inl rfl
    · rename_i swap _
      split
      · exact Or.inl rfl
      · split
        · exact Or.inl rfl
        · simp only []
          split
          · exact Or.inl rfl
          · rename_i r _
            split
            · exact Or.inr ⟨r, swap.offeredItemId.bind st.findItem,
                (Swap.acceptSwap st req.now swap (sanitized req.responseMessage)).2, rfl, rfl⟩
            · rename_i h4
              refine Or.inr ⟨r, swap.offeredItemId.bind st.findItem,
                (Swap.acceptSwap st req.now swap (sanitized req.responseMessage)).2, rfl, ?_⟩
              simp only [Notification.createSwapAcceptedNotification, createNotification_items,
                updateUserStats_items, transferPoints_items h4]

theorem rejectSwapRoute_items (st : State) (req : RespondRequest) :
    (rejectSwapRoute st req).2.items = st.items := by
  unfold rejectSwapRoute
  repeat' (first | rfl | split | simp only [])

theorem messageRoute_items (st : State) (req : MessageRequest) :
    (messageRoute st req).2.items = st.items := by
  unfold messageRoute
  repeat' (first | rfl | split)

theorem completeSwapRoute_items (st : State) (req : CompleteRequest) :
    (completeSwapRoute st req).2.items = st.items := by
  unfold completeSwapRoute
  repeat' (first | rfl | split)

theorem cancelSwapRoute_items (st : State) (req : CancelRequest) :
    (cancelSwapRoute st req).2.items = st.items := by
  unfold cancelSwapRoute
  repeat' (first | rfl | split)

theorem swapOp_keeps_swapped (st : State) (op : SwapOp) (i : ObjectId)
    (h : itemStatusOf st i = some ItemStatus.Swapped) :
    itemStatusOf (op.run st).2 i = some ItemStatus.Swapped := by
  cases op with
  | accept req =>
    rcases acceptSwapRoute_items_cases st req with hsame | ⟨r, o, st1, h1, hitems⟩
    · exact (itemStatusOf_congr hsame i).trans h
    · have hbase : itemStatusOf st1 i = some ItemStatus.Swapped :=
        (itemStatusOf_congr h1 i).trans h
      rw [show itemStatusOf (SwapOp.run st (SwapOp.accept req)).2 i
          = itemStatusOf (updateItemStatuses st1 req.now r o) i from itemStatusOf_congr hitems i,
        itemStatusOf_updateItemStatuses, hbase]
      split <;> rfl
  | reject req => exact (itemStatusOf_congr (rejectSwapRoute_items st req) i).trans h
  | complete req => exact (itemStatusOf_congr (completeSwapRoute_items st req) i).trans h
  | cancel req => exact (itemStatusOf_congr (cancelSwapRoute_items st req) i).trans h
  | message req => exact (itemStatusOf_congr (messageRoute_items st req) i).trans h

theorem createItem_items (host : UploadedFile → Option UploadResult)
    (jsonParse : String → Option (List String)) (st : State) (req : CreateItemRequest) :
    (createItem host jsonParse st req).2.items = st.items ∨
      ∃ item, (createItem host jsonParse st req).2.items = st.items ++ [item] := by
  unfold createItem
  repeat' (first | exact Or.inl rfl | exact Or.inr ⟨_, rfl⟩ | split | simp only [])

theorem createItem_keeps_swapped (host : UploadedFile → Option UploadResult)
    (jsonParse : String → Option (List String)) (st : State) (req : CreateItemRequest)
    (i : ObjectId) (h : itemStatusOf st i = some ItemStatus.Swapped) :
    itemStatusOf (createItem host jsonParse st req).2 i = some ItemStatus.Swapped := by
  rcases createItem_items host jsonParse st req with hsame | ⟨item, happ⟩
  · exact (itemStatusOf_congr hsame i).trans h
  · unfold itemStatusOf State.findItem at h ⊢
    rw [happ, List.find?_append]
    cases hf : st.items.find? (fun it => it.id == i) with
    | none => rw [hf] at h; simp at h
    | some it => rw [hf] at h; simpa using h

/-- An update request that changes the store rewrites an item that is not `Swapped`. -/
theorem updateItem_effect (jsonParse : List String → Option (List String)) (st : State)
    (req : UpdateItemRequest) :
    (updateItem jsonParse st req).2 = st ∨
      ∃ item tags status isApproved, st.findItem req.id = some item ∧
        item.status ≠ ItemStatus.Swapped ∧
        (updateItem jsonParse st req).2 =
          Item.findByIdAndUpdate st req.now req.id (applyUpdate req tags status isApproved) := by
  unfold updateItem
  split
  · exact Or.inl rfl
  · split
    · exact Or.inl rfl
    · rename_i item hfind
      split
      · exact Or.inl rfl
      · split
        · exact Or.inl rfl
        · rename_i hsw
          simp only []
          split
          · exact Or.inl rfl
          · split
            · exact Or.inl rfl
            · exact Or.inr ⟨item, _, _, _, hfind, hsw, rfl⟩

theorem updateItem_keeps_swapped (jsonParse : List String → Option (List String)) (st : State)
    (req : UpdateItemRequest) (i : ObjectId) (h : itemStatusOf st i = some ItemStatus.Swapped) :
    itemStatusOf (updateItem jsonParse st req).2 i = some ItemStatus.Swapped := by
  rcases updateItem_effect jsonParse st req with hsame | ⟨item, t, s, a, hfind, hsw, heff⟩
  · rw [hsame]
    exact h
  · have hne : i ≠ req.id := by
      intro hi
      rw [hi] at h
      simp only [itemStatusOf, hfind, Option.map_some', Option.some.injEq] at h
      exact hsw h
    rw [heff]
    unfold itemStatusOf at h ⊢
    rw [findItem_itemUpdate st req.now req.id i (applyUpdate req t s a) (fun _ => rfl),
      if_neg hne]
    exact h

/-- A delete request that changes the store removes an item that is not `Swapped`. -/
theorem deleteItem_effect (st : State) (req : DeleteItemRequest) :
    (deleteItem st req).2 = st ∨
      ∃ item, st.findItem req.id = some item ∧ item.status ≠ ItemStatus.Swapped ∧
        (deleteItem st req).2.items = deleteFirst (fun it => it.id == req.id) st.items := by
  unfold deleteItem
  split
  · exact Or.inl rfl
  · rename_i item hfind
    split
    · exact Or.inl rfl
    · split
      · exact Or.inl rfl
      · rename_i hsw
        split
        · exact Or.inl rfl
        · exact Or.inr ⟨item, hfind, hsw, rfl⟩

theorem deleteItem_keeps_swapped (st : State) (req : DeleteItemRequest) (i : ObjectId)
    (h : itemStatusOf st i = some ItemStatus.Swapped) :
    itemStatusOf (deleteItem st req).2 i = some ItemStatus.Swapped := by
  rcases deleteItem_effect st req with hsame | ⟨item, hfind, hsw, heff⟩
  · rw [hsame]
    exact h
  · have hne : i ≠ req.id := by
      intro hi
      rw [hi] at h
      simp only [itemStatusOf, hfind, Option.map_some', Option.some.injEq] at h
      exact hsw h
    unfold itemStatusOf State.findItem at h ⊢
    rw [heff, find?_deleteFirst (fun it : Item => it.id) req.id i hne]
    exact h

theorem getItem_keeps_status (st : State) (req : ItemRequest) (i : ObjectId) :
    itemStatusOf (getItem st req).2 i = itemStatusOf st i := by
  unfold getItem
  split
  · rfl
  · rename_i item hfind
    exact itemStatusOf_itemSave st req.now item { item with views := item.views + 1 }
      (by rw [show ({ item with views := item.views + 1 } : Item).id = item.id from rfl,
        findItem_id hfind]; exact hfind) rfl i

theorem likeItemRoute_keeps_status (st : State) (req : ItemRequest) (i : ObjectId) :
    itemStatusOf (likeItemRoute st req).2 i = itemStatusOf st i := by
  unfold likeItemRoute
  split
  · rfl
  · rename_i user _
    unfold likeItem
    split
    · rfl
    · rename_i item hfind
      exact itemStatusOf_itemSave st req.now item
        { item with likes := toggleLikes item.likes user.id }
        (by rw [show ({ item with likes := toggleLikes item.likes user.id } : Item).id = item.id
          from rfl, findItem_id hfind]; exact hfind) rfl i

/-- The admin router's approve handler leaves the status of an approved item alone. -/
theorem adminApproveItem_keeps_approved (st : State) (req : ApproveItemRequest) (i : ObjectId)
    (stored : Item) (hstored : st.findItem i = some stored) (happ : stored.isApproved = true) :
    itemStatusOf (adminApproveItem st req).2 i = itemStatusOf st i := by
  unfold adminApproveItem
  split
  · rfl
  · rename_i item hfind
    split
    · rfl
    · rename_i hnot
      have hne : i ≠ req.id := by
        intro hi
        rw [hi, hfind] at hstored
        cases hstored
        exact hnot happ
      simp only [Notification.createItemApprovedNotification]
      refine (itemStatusOf_congr (createNotification_items _ _ _ _ _ _) i).trans ?_
      unfold itemStatusOf
      rw [findItem_itemSave, if_neg]
      have hid : item.id = req.id := findItem_id hfind
      exact fun hi => hne (hi.trans hid)

/-- The admin router's reject handler leaves the status of an approved item alone. -/
theorem adminRejectItem_keeps_approved (st : State) (req : RejectItemRequest) (i : ObjectId)
    (stored : Item) (hstored : st.findItem i = some stored) (happ : stored.isApproved = true) :
    itemStatusOf (adminRejectItem st req).2 i = itemStatusOf st i := by
  unfold adminRejectItem
  simp only []
  split
  · rfl
  · split
    · rfl
    · rename_i item hfind
      split
      · rfl
      · rename_i hnot
        have hne : i ≠ req.id := by
          intro hi
          rw [hi, hfind] at hstored
          cases hstored
          exact hnot happ
        simp only [Notification.createItemRejectedNotification]
        refine (itemStatusOf_congr (createNotification_items _ _ _ _ _ _) i).trans ?_
        unfold itemStatusOf
        rw [findItem_itemSave, if_neg]
        have hid : item.id = req.id := findItem_id hfind
        exact fun hi => hne (hi.trans hid)

/-- Every request other than an admin moderation request keeps a swapped item swapped. -/
theorem run_keeps_swapped (env : Env) (st : State) (req : Request) (i : ObjectId)
    (hmod : req.isModeration = false) (h : itemStatusOf st i = some ItemStatus.Swapped) :
    itemStatusOf (req.run env st).2 i = some ItemStatus.Swapped := by
  cases req with
  | createSwap r => exact (itemStatusOf_congr (createSwap_items st r) i).trans h
  | swap op => exact swapOp_keeps_swapped st op i h
  | createItem r => exact createItem_keeps_swapped _ _ st r i h
  | updateItem r => exact updateItem_keeps_swapped _ st r i h
  | deleteItem r => exact deleteItem_keeps_swapped st r i h
  | getItem r => exact (getItem_keeps_status st r i).trans h
  | likeItem r => exact (likeItemRoute_keeps_status st r i).trans h
  | approveItem r => simp [Request.isModeration] at hmod
  | putProfile r => exact (itemStatusOf_congr (putProfile_items _ _ st r) i).trans h
  | admin op =>
    cases op with
    | approveItem r => simp [Request.isModeration] at hmod
    | rejectItem r => simp [Request.isModeration] at hmod
    | setRole r => exact (itemStatusOf_congr (putUserRole_items st r) i).trans h
    | deleteUser r => simp [Request.isModeration] at hmod

theorem runAll_keeps_swapped (env : Env) (i : ObjectId) (reqs : List Request) :
    ∀ st : State, (∀ r ∈ reqs, Request.isModeration r = false) →
      itemStatusOf st i = some ItemStatus.Swapped →
      itemStatusOf (runAll env st reqs) i = some ItemStatus.Swapped := by
  induction reqs with
  | nil => exact fun st _ h => h
  | cons r rs ih =>
    intro st hall h
    exact ih _ (fun x hx => hall x (List.mem_cons_of_mem r hx))
      (run_keeps_swapped env st r i (hall r (List.mem_cons_self r rs)) h)

/-- Owner requests on a swapped item are refused and change nothing. -/
theorem owner_requests_refused (jsonParse : List String → Option (List String)) (st : State)
    (i : ObjectId) (h : itemStatusOf st i = some ItemStatus.Swapped) :
    (∀ req : UpdateItemRequest, req.id = i →
      ((updateItem jsonParse st req).1.status = 400 ∨
        (updateItem jsonParse st req).1.status = 403) ∧ (updateItem jsonParse st req).2 = st) ∧
    (∀ req : DeleteItemRequest, req.id = i →
      ((deleteItem st req).1.status = 400 ∨ (deleteItem st req).1.status = 403) ∧
        (deleteItem st req).2 = st) := by
  obtain ⟨item, hfind, hsw⟩ : ∃ item, st.findItem i = some item ∧
      item.status = ItemStatus.Swapped := by
    unfold itemStatusOf at h
    cases hf : st.findItem i with
    | none => rw [hf] at h; simp at h
    | some it => rw [hf] at h; exact ⟨it, rfl, by simpa using h⟩
  constructor
  · intro req hid
    unfold updateItem
    rw [hid, hfind]
    split
    · exact ⟨Or.inl rfl, rfl⟩
    · simp only []
      split
      · exact ⟨Or.inr rfl, rfl⟩
      · exact ⟨Or.inl rfl, rfl⟩
  · intro req hid
    unfold deleteItem
    rw [hid, hfind]
    simp only []
    split
    · exact ⟨Or.inr rfl, rfl⟩
    · exact ⟨Or.inl rfl, rfl⟩

/-- Saving a stored item leaves it stored with the status of the saved document. -/
theorem itemStatusOf_itemSave_self (st : State) (now : Nat) (item doc : Item)
    (hfind : st.findItem doc.id = some item) :
    itemStatusOf (Item.save st now doc) doc.id = some doc.status := by
  unfold itemStatusOf
  rw [findItem_itemSave, if_pos rfl, hfind]
  exact congrArg some (itemPreSave_fields doc).1

/-- The items router's approve route, called by an administrator for a stored item, answers
200 and leaves the item `Available`, whatever its status was. -/
theorem approveItemRoute_sets_available (st : State) (req : ItemRequest) (item : Item)
    (hadmin : requireAdmin req.user = MiddlewareResult.next)
    (hfind : st.findItem req.id = some item) :
    (approveItemRoute st req).1.status = 200 ∧
    itemStatusOf (approveItemRoute st req).2 req.id = some ItemStatus.Available := by
  have hid : item.id = req.id := findItem_id hfind
  have hrun : approveItemRoute st req
      = ({ status := 200 },
          Item.save st req.now { item with isApproved := true, status := ItemStatus.Available }) := by
    unfold approveItemRoute
    rw [hadmin]
    simp only []
    unfold approveItem
    rw [hfind]
  rw [hrun]
  refine ⟨rfl, ?_⟩
  have hself := itemStatusOf_itemSave_self st req.now item
    { item with isApproved := true, status := ItemStatus.Available }
    (by show st.findItem item.id = some item; rw [hid]; exact hfind)
  rw [← hid]
  exact hself

/-- The admin router's approve handler refuses an approved item and changes nothing. -/
theorem adminApproveItem_refuses_approved (st : State) (req : ApproveItemRequest) (item : Item)
    (hfind : st.findItem req.id = some item) (happ : item.isApproved = true) :
    (adminApproveItem st req).1.status = 400 ∧ (adminApproveItem st req).2 = st := by
  have hrun : adminApproveItem st req
      = ({ status := 400, error := some "Item already approved" }, st) := by
    unfold adminApproveItem
    rw [hfind]
    simp only [happ, if_true]
  rw [hrun]
  exact ⟨rfl, rfl⟩

/-- C25 on the code: an item whose status is Swapped stays stored with status Swapped under
every sequence of requests that are not admin moderation requests; owner update and delete
requests for it are refused with 400 or 403 and change nothing; when it is approved, the admin
router's approve handler answers 400 for it and changes nothing, and the admin router's approve
and reject handlers leave it Swapped; but the items router's approve route, called by an
administrator, answers 200 for it and sets its status to Available. -/
theorem C25_swapped_item_requests (env : Env) (st : State) (i : ObjectId)
    (h : itemStatusOf st i = some ItemStatus.Swapped) :
    (∀ reqs : List Request, (∀ r ∈ reqs, Request.isModeration r = false) →
      itemStatusOf (runAll env st reqs) i = some ItemStatus.Swapped) ∧
    (∀ req : UpdateItemRequest, req.id = i →
      ((updateItem env.parseUpdateTags st req).1.status = 400 ∨
        (updateItem env.parseUpdateTags st req).1.status = 403) ∧
      (updateItem env.parseUpdateTags st req).2 = st) ∧
    (∀ req : DeleteItemRequest, req.id = i →
      ((deleteItem st req).1.status = 400 ∨ (deleteItem st req).1.status = 403) ∧
        (deleteItem st req).2 = st) ∧
    (∀ stored, st.findItem i = some stored → stored.isApproved = true →
      (∀ req : ApproveItemRequest, req.id = i →
        (adminApproveItem st req).1.status = 400 ∧ (adminApproveItem st req).2 = st) ∧
      (∀ req, itemStatusOf (adminApproveItem st req).2 i = some ItemStatus.Swapped) ∧
      (∀ req, itemStatusOf (adminRejectItem st req).2 i = some ItemStatus.Swapped)) ∧
    (∀ req : ItemRequest, req.id = i → requireAdmin req.user = MiddlewareResult.next →
      (approveItemRoute st req).1.status = 200 ∧
      itemStatusOf (approveItemRoute st req).2 i = some ItemStatus.Available) := by
  have hown := owner_requests_refused env.parseUpdateTags st i h
  obtain ⟨item, hitem⟩ : ∃ item, st.findItem i = some item := by
    unfold itemStatusOf at h
    cases hf : st.findItem i with
    | none => rw [hf] at h; simp at h
    | some it => exact ⟨it, rfl⟩
  refine ⟨fun reqs hall => runAll_keeps_swapped env i reqs st hall h, hown.1, hown.2,
    fun stored hstored happ => ⟨fun req hid => ?_, fun req => ?_, fun req => ?_⟩,
    fun req hid hadmin => ?_⟩
  · exact adminApproveItem_refuses_approved st req stored (by rw [hid]; exact hstored) happ
  · exact (adminApproveItem_keeps_approved st req i stored hstored happ).trans h
  · exact (adminRejectItem_keeps_approved st req i stored hstored happ).trans h
  · subst hid
    exact approveItemRoute_sets_available st req item hadmin hitem

/-- C25 on the code, at the swapped coat: Bob's update and delete requests are answered 400
and after them and Alice's like the coat is still Swapped; the admin router's approve answers
400 and changes nothing; the items router's approve, called by the administrator Dana, answers
200 and the coat is Available again. -/
theorem C25_swapped_item_requests_witness :
    itemStatusOf adminLedger2 10 = some ItemStatus.Swapped ∧
    (updateItem exampleEnv.parseUpdateTags adminLedger2 bobRetitlesCoat).1.status = 400 ∧
    (deleteItem adminLedger2 bobDeletesCoat).1.status = 400 ∧
    itemStatusOf (runAll exampleEnv adminLedger2
      [Request.updateItem bobRetitlesCoat, Request.deleteItem bobDeletesCoat,
        Request.likeItem aliceLikesCoat]) 10 = some ItemStatus.Swapped ∧
    ((adminApproveItem adminLedger2 danaApprovesCoatAdmin).1.status = 400 ∧
      (adminApproveItem adminLedger2 danaApprovesCoatAdmin).2 = adminLedger2) ∧
    ((approveItemRoute adminLedger2 danaApprovesCoat).1.status = 200 ∧
      itemStatusOf (approveItemRoute adminLedger2 danaApprovesCoat).2 10
        = some ItemStatus.Available) :=
  have h := C25_swapped_item_requests exampleEnv adminLedger2 10 (by decide)
  ⟨by decide, by decide, by decide, h.1 _ (by decide),
    (h.2.2.2.1 { coat with status := ItemStatus.Swapped, updatedAt := 0 } (by decide)
      (by decide)).1 danaApprovesCoatAdmin rfl,
    h.2.2.2.2 danaApprovesCoat rfl (by decide)⟩

end ReWare
